import Mathlib

/-!
York Realty: the listing ingestion pipeline, the auth pipeline and the
client-side filter.

A shallow embedding of the listings marketplace.  From the server
(`src/app.js`, `src/Database.js`): the upload middleware and its file filter,
the `POST /listings` handler with its gates and its clean-up of the staged
file, the persistence calls `createNote` / `getListingById`, and the
`/register` and `/login` handlers with `registerUser` / `loginUser`.  From
the client (`src/script.js`): `filterListings` with its six predicates, the
featured listings of the landing page, and the access gate kept in the
session storage.

Conventions of the embedding.

* JavaScript strings are Lean strings, handled through their character
  lists: sequences of Unicode code points, that is well-formed UTF-16.
  Every character the parsers and the file filter inspect (white space,
  signs, digits, `.`, `/`, the letters of the file types) lies in the Basic
  Multilingual Plane.  Lower-casing follows the Unicode Character Database,
  version 14.0: the simple mappings, the entry of `SpecialCasing.txt` for
  `U+0130` and the `Final_Sigma` condition.
* A JavaScript number is a `JsNumber`: `NaN`, the two infinities, or a
  finite IEEE-754 double carried as the rational it denotes.  The parsers
  round the value of the numeral they read to the nearest double, ties to
  even, and overflow to an infinity (`roundToDouble`).  The two zeros are
  not told apart.
* Effects are explicit: a handler maps a request and a `World` (the upload
  directory and the listings table) to a response, the next world and the
  ordered trace of the effects it issued.  Console output is left out.
* The upload directory is a set of paths: `fs.unlink` removes a path that is
  present and fails only on a path that is absent.  The store either refuses
  an insert, leaving the table as it was, or adds the row under a fresh
  identifier.
* Library functions (`path.extname`, `parseInt`, `parseFloat`, `trim`,
  `toLowerCase`, `includes`, `Array.prototype.filter` and `sort`,
  `RegExp.prototype.test` on the one pattern used) follow their ECMAScript /
  Node definitions; `path` is the POSIX flavour.  The multer middleware and
  the default error handler of Express follow their documentation.
* The credential hasher is a parameter: a `Hasher` gives the results of
  `bcrypt.hash` and `bcrypt.compare`.
-/

namespace YorkRealty

/-! ## JavaScript strings -/

/-- White space as `String.prototype.trim`, `parseInt` and `parseFloat` see
it: the ECMAScript WhiteSpace and LineTerminator code points. -/
def isStrWhiteSpace (c : Char) : Bool :=
  let n := c.toNat
  n == 0x09 || n == 0x0A || n == 0x0B || n == 0x0C || n == 0x0D || n == 0x20 ||
  n == 0xA0 || n == 0x1680 || (0x2000 ≤ n && n ≤ 0x200A) || n == 0x2028 ||
  n == 0x2029 || n == 0x202F || n == 0x205F || n == 0x3000 || n == 0xFEFF

/-- Leading white space removed (`trimStart`). -/
def trimStart (cs : List Char) : List Char :=
  cs.dropWhile isStrWhiteSpace

/-- Trailing white space removed (`trimEnd`). -/
def trimEnd (cs : List Char) : List Char :=
  (cs.reverse.dropWhile isStrWhiteSpace).reverse

/-- The method `String.prototype.trim`. -/
def jsTrim (s : String) : String :=
  ⟨trimEnd (trimStart s.data)⟩

/-- Simple lower-case mappings of the Unicode Character Database (version
14.0, `UnicodeData.txt`), in runs `(first, last, step, image of first)`: a
code point `c` of the run with `(c - first) % step = 0` maps to
`image of first + (c - first)`. -/
def lowerRuns : List (Nat × Nat × Nat × Nat) :=
  [(0x0041, 0x005A, 1, 0x0061), (0x00C0, 0x00D6, 1, 0x00E0), (0x00D8, 0x00DE, 1, 0x00F8),
   (0x0100, 0x012E, 2, 0x0101), (0x0132, 0x0136, 2, 0x0133), (0x0139, 0x0147, 2, 0x013A),
   (0x014A, 0x0176, 2, 0x014B), (0x0178, 0x0178, 1, 0x00FF), (0x0179, 0x017D, 2, 0x017A),
   (0x0181, 0x0181, 1, 0x0253), (0x0182, 0x0184, 2, 0x0183), (0x0186, 0x0186, 1, 0x0254),
   (0x0187, 0x0187, 1, 0x0188), (0x0189, 0x018A, 1, 0x0256), (0x018B, 0x018B, 1, 0x018C),
   (0x018E, 0x018E, 1, 0x01DD), (0x018F, 0x018F, 1, 0x0259), (0x0190, 0x0190, 1, 0x025B),
   (0x0191, 0x0191, 1, 0x0192), (0x0193, 0x0193, 1, 0x0260), (0x0194, 0x0194, 1, 0x0263),
   (0x0196, 0x0196, 1, 0x0269), (0x0197, 0x0197, 1, 0x0268), (0x0198, 0x0198, 1, 0x0199),
   (0x019C, 0x019C, 1, 0x026F), (0x019D, 0x019D, 1, 0x0272), (0x019F, 0x019F, 1, 0x0275),
   (0x01A0, 0x01A4, 2, 0x01A1), (0x01A6, 0x01A6, 1, 0x0280), (0x01A7, 0x01A7, 1, 0x01A8),
   (0x01A9, 0x01A9, 1, 0x0283), (0x01AC, 0x01AC, 1, 0x01AD), (0x01AE, 0x01AE, 1, 0x0288),
   (0x01AF, 0x01AF, 1, 0x01B0), (0x01B1, 0x01B2, 1, 0x028A), (0x01B3, 0x01B5, 2, 0x01B4),
   (0x01B7, 0x01B7, 1, 0x0292), (0x01B8, 0x01B8, 1, 0x01B9), (0x01BC, 0x01BC, 1, 0x01BD),
   (0x01C4, 0x01C4, 1, 0x01C6), (0x01C5, 0x01C5, 1, 0x01C6), (0x01C7, 0x01C7, 1, 0x01C9),
   (0x01C8, 0x01C8, 1, 0x01C9), (0x01CA, 0x01CA, 1, 0x01CC), (0x01CB, 0x01DB, 2, 0x01CC),
   (0x01DE, 0x01EE, 2, 0x01DF), (0x01F1, 0x01F1, 1, 0x01F3), (0x01F2, 0x01F4, 2, 0x01F3),
   (0x01F6, 0x01F6, 1, 0x0195), (0x01F7, 0x01F7, 1, 0x01BF), (0x01F8, 0x021E, 2, 0x01F9),
   (0x0220, 0x0220, 1, 0x019E), (0x0222, 0x0232, 2, 0x0223), (0x023A, 0x023A, 1, 0x2C65),
   (0x023B, 0x023B, 1, 0x023C), (0x023D, 0x023D, 1, 0x019A), (0x023E, 0x023E, 1, 0x2C66),
   (0x0241, 0x0241, 1, 0x0242), (0x0243, 0x0243, 1, 0x0180), (0x0244, 0x0244, 1, 0x0289),
   (0x0245, 0x0245, 1, 0x028C), (0x0246, 0x024E, 2, 0x0247), (0x0370, 0x0372, 2, 0x0371),
   (0x0376, 0x0376, 1, 0x0377), (0x037F, 0x037F, 1, 0x03F3), (0x0386, 0x0386, 1, 0x03AC),
   (0x0388, 0x038A, 1, 0x03AD), (0x038C, 0x038C, 1, 0x03CC), (0x038E, 0x038F, 1, 0x03CD),
   (0x0391, 0x03A1, 1, 0x03B1), (0x03A4, 0x03AB, 1, 0x03C4), (0x03CF, 0x03CF, 1, 0x03D7),
   (0x03D8, 0x03EE, 2, 0x03D9), (0x03F4, 0x03F4, 1, 0x03B8), (0x03F7, 0x03F7, 1, 0x03F8),
   (0x03F9, 0x03F9, 1, 0x03F2), (0x03FA, 0x03FA, 1, 0x03FB), (0x03FD, 0x03FF, 1, 0x037B),
   (0x0400, 0x040F, 1, 0x0450), (0x0410, 0x042F, 1, 0x0430), (0x0460, 0x0480, 2, 0x0461),
   (0x048A, 0x04BE, 2, 0x048B), (0x04C0, 0x04C0, 1, 0x04CF), (0x04C1, 0x04CD, 2, 0x04C2),
   (0x04D0, 0x052E, 2, 0x04D1), (0x0531, 0x0556, 1, 0x0561), (0x10A0, 0x10C5, 1, 0x2D00),
   (0x10C7, 0x10C7, 1, 0x2D27), (0x10CD, 0x10CD, 1, 0x2D2D), (0x13A0, 0x13EF, 1, 0xAB70),
   (0x13F0, 0x13F5, 1, 0x13F8), (0x1C90, 0x1CBA, 1, 0x10D0), (0x1CBD, 0x1CBF, 1, 0x10FD),
   (0x1E00, 0x1E94, 2, 0x1E01), (0x1E9E, 0x1E9E, 1, 0x00DF), (0x1EA0, 0x1EFE, 2, 0x1EA1),
   (0x1F08, 0x1F0F, 1, 0x1F00), (0x1F18, 0x1F1D, 1, 0x1F10), (0x1F28, 0x1F2F, 1, 0x1F20),
   (0x1F38, 0x1F3F, 1, 0x1F30), (0x1F48, 0x1F4D, 1, 0x1F40), (0x1F59, 0x1F5F, 2, 0x1F51),
   (0x1F68, 0x1F6F, 1, 0x1F60), (0x1F88, 0x1F8F, 1, 0x1F80), (0x1F98, 0x1F9F, 1, 0x1F90),
   (0x1FA8, 0x1FAF, 1, 0x1FA0), (0x1FB8, 0x1FB9, 1, 0x1FB0), (0x1FBA, 0x1FBB, 1, 0x1F70),
   (0x1FBC, 0x1FBC, 1, 0x1FB3), (0x1FC8, 0x1FCB, 1, 0x1F72), (0x1FCC, 0x1FCC, 1, 0x1FC3),
   (0x1FD8, 0x1FD9, 1, 0x1FD0), (0x1FDA, 0x1FDB, 1, 0x1F76), (0x1FE8, 0x1FE9, 1, 0x1FE0),
   (0x1FEA, 0x1FEB, 1, 0x1F7A), (0x1FEC, 0x1FEC, 1, 0x1FE5), (0x1FF8, 0x1FF9, 1, 0x1F78),
   (0x1FFA, 0x1FFB, 1, 0x1F7C), (0x1FFC, 0x1FFC, 1, 0x1FF3), (0x2126, 0x2126, 1, 0x03C9),
   (0x212A, 0x212A, 1, 0x006B), (0x212B, 0x212B, 1, 0x00E5), (0x2132, 0x2132, 1, 0x214E),
   (0x2160, 0x216F, 1, 0x2170), (0x2183, 0x2183, 1, 0x2184), (0x24B6, 0x24CF, 1, 0x24D0),
   (0x2C00, 0x2C2F, 1, 0x2C30), (0x2C60, 0x2C60, 1, 0x2C61), (0x2C62, 0x2C62, 1, 0x026B),
   (0x2C63, 0x2C63, 1, 0x1D7D), (0x2C64, 0x2C64, 1, 0x027D), (0x2C67, 0x2C6B, 2, 0x2C68),
   (0x2C6D, 0x2C6D, 1, 0x0251), (0x2C6E, 0x2C6E, 1, 0x0271), (0x2C6F, 0x2C6F, 1, 0x0250),
   (0x2C70, 0x2C70, 1, 0x0252), (0x2C72, 0x2C72, 1, 0x2C73), (0x2C75, 0x2C75, 1, 0x2C76),
   (0x2C7E, 0x2C7F, 1, 0x023F), (0x2C80, 0x2CE2, 2, 0x2C81), (0x2CEB, 0x2CED, 2, 0x2CEC),
   (0x2CF2, 0x2CF2, 1, 0x2CF3), (0xA640, 0xA66C, 2, 0xA641), (0xA680, 0xA69A, 2, 0xA681),
   (0xA722, 0xA72E, 2, 0xA723), (0xA732, 0xA76E, 2, 0xA733), (0xA779, 0xA77B, 2, 0xA77A),
   (0xA77D, 0xA77D, 1, 0x1D79), (0xA77E, 0xA786, 2, 0xA77F), (0xA78B, 0xA78B, 1, 0xA78C),
   (0xA78D, 0xA78D, 1, 0x0265), (0xA790, 0xA792, 2, 0xA791), (0xA796, 0xA7A8, 2, 0xA797),
   (0xA7AA, 0xA7AA, 1, 0x0266), (0xA7AB, 0xA7AB, 1, 0x025C), (0xA7AC, 0xA7AC, 1, 0x0261),
   (0xA7AD, 0xA7AD, 1, 0x026C), (0xA7AE, 0xA7AE, 1, 0x026A), (0xA7B0, 0xA7B0, 1, 0x029E),
   (0xA7B1, 0xA7B1, 1, 0x0287), (0xA7B2, 0xA7B2, 1, 0x029D), (0xA7B3, 0xA7B3, 1, 0xAB53),
   (0xA7B4, 0xA7C2, 2, 0xA7B5), (0xA7C4, 0xA7C4, 1, 0xA794), (0xA7C5, 0xA7C5, 1, 0x0282),
   (0xA7C6, 0xA7C6, 1, 0x1D8E), (0xA7C7, 0xA7C9, 2, 0xA7C8), (0xA7D0, 0xA7D0, 1, 0xA7D1),
   (0xA7D6, 0xA7D8, 2, 0xA7D7), (0xA7F5, 0xA7F5, 1, 0xA7F6), (0xFF21, 0xFF3A, 1, 0xFF41),
   (0x10400, 0x10427, 1, 0x10428), (0x104B0, 0x104D3, 1, 0x104D8), (0x10570, 0x10594, 2, 0x10597),
   (0x10571, 0x1057A, 1, 0x10598), (0x1057C, 0x1058A, 1, 0x105A3), (0x1058C, 0x10592, 1, 0x105B3),
   (0x10594, 0x10595, 1, 0x105BB), (0x10C80, 0x10CB2, 1, 0x10CC0), (0x118A0, 0x118BF, 1, 0x118C0),
   (0x16E40, 0x16E5F, 1, 0x16E60), (0x1E900, 0x1E921, 1, 0x1E922)]

/-- The code points with the property `Cased` (`DerivedCoreProperties.txt`),
as inclusive ranges. -/
def casedRanges : List (Nat × Nat) :=
  [(0x0041, 0x005A), (0x0061, 0x007A), (0x00AA, 0x00AA), (0x00B5, 0x00B5), (0x00BA, 0x00BA),
   (0x00C0, 0x00D6), (0x00D8, 0x00F6), (0x00F8, 0x01BA), (0x01BC, 0x01BF), (0x01C4, 0x0293),
   (0x0295, 0x02B8), (0x02C0, 0x02C1), (0x02E0, 0x02E4), (0x0345, 0x0345), (0x0370, 0x0373),
   (0x0376, 0x0377), (0x037A, 0x037D), (0x037F, 0x037F), (0x0386, 0x0386), (0x0388, 0x038A),
   (0x038C, 0x038C), (0x038E, 0x03A1), (0x03A3, 0x03F5), (0x03F7, 0x0481), (0x048A, 0x052F),
   (0x0531, 0x0556), (0x0560, 0x0588), (0x10A0, 0x10C5), (0x10C7, 0x10C7), (0x10CD, 0x10CD),
   (0x10D0, 0x10FA), (0x10FD, 0x10FF), (0x13A0, 0x13F5), (0x13F8, 0x13FD), (0x1C80, 0x1C88),
   (0x1C90, 0x1CBA), (0x1CBD, 0x1CBF), (0x1D00, 0x1DBF), (0x1E00, 0x1F15), (0x1F18, 0x1F1D),
   (0x1F20, 0x1F45), (0x1F48, 0x1F4D), (0x1F50, 0x1F57), (0x1F59, 0x1F59), (0x1F5B, 0x1F5B),
   (0x1F5D, 0x1F5D), (0x1F5F, 0x1F7D), (0x1F80, 0x1FB4), (0x1FB6, 0x1FBC), (0x1FBE, 0x1FBE),
   (0x1FC2, 0x1FC4), (0x1FC6, 0x1FCC), (0x1FD0, 0x1FD3), (0x1FD6, 0x1FDB), (0x1FE0, 0x1FEC),
   (0x1FF2, 0x1FF4), (0x1FF6, 0x1FFC), (0x2071, 0x2071), (0x207F, 0x207F), (0x2090, 0x209C),
   (0x2102, 0x2102), (0x2107, 0x2107), (0x210A, 0x2113), (0x2115, 0x2115), (0x2119, 0x211D),
   (0x2124, 0x2124), (0x2126, 0x2126), (0x2128, 0x2128), (0x212A, 0x212D), (0x212F, 0x2134),
   (0x2139, 0x2139), (0x213C, 0x213F), (0x2145, 0x2149), (0x214E, 0x214E), (0x2160, 0x217F),
   (0x2183, 0x2184), (0x24B6, 0x24E9), (0x2C00, 0x2CE4), (0x2CEB, 0x2CEE), (0x2CF2, 0x2CF3),
   (0x2D00, 0x2D25), (0x2D27, 0x2D27), (0x2D2D, 0x2D2D), (0xA640, 0xA66D), (0xA680, 0xA69D),
   (0xA722, 0xA787), (0xA78B, 0xA78E), (0xA790, 0xA7CA), (0xA7D0, 0xA7D1), (0xA7D3, 0xA7D3),
   (0xA7D5, 0xA7D9), (0xA7F5, 0xA7F6), (0xA7F8, 0xA7FA), (0xAB30, 0xAB5A), (0xAB5C, 0xAB68),
   (0xAB70, 0xABBF), (0xFB00, 0xFB06), (0xFB13, 0xFB17), (0xFF21, 0xFF3A), (0xFF41, 0xFF5A),
   (0x10400, 0x1044F), (0x104B0, 0x104D3), (0x104D8, 0x104FB), (0x10570, 0x1057A),
   (0x1057C, 0x1058A), (0x1058C, 0x10592), (0x10594, 0x10595), (0x10597, 0x105A1),
   (0x105A3, 0x105B1), (0x105B3, 0x105B9), (0x105BB, 0x105BC), (0x10780, 0x10780),
   (0x10783, 0x10785), (0x10787, 0x107B0), (0x107B2, 0x107BA), (0x10C80, 0x10CB2),
   (0x10CC0, 0x10CF2), (0x118A0, 0x118DF), (0x16E40, 0x16E7F), (0x1D400, 0x1D454),
   (0x1D456, 0x1D49C), (0x1D49E, 0x1D49F), (0x1D4A2, 0x1D4A2), (0x1D4A5, 0x1D4A6),
   (0x1D4A9, 0x1D4AC), (0x1D4AE, 0x1D4B9), (0x1D4BB, 0x1D4BB), (0x1D4BD, 0x1D4C3),
   (0x1D4C5, 0x1D505), (0x1D507, 0x1D50A), (0x1D50D, 0x1D514), (0x1D516, 0x1D51C),
   (0x1D51E, 0x1D539), (0x1D53B, 0x1D53E), (0x1D540, 0x1D544), (0x1D546, 0x1D546),
   (0x1D54A, 0x1D550), (0x1D552, 0x1D6A5), (0x1D6A8, 0x1D6C0), (0x1D6C2, 0x1D6DA),
   (0x1D6DC, 0x1D6FA), (0x1D6FC, 0x1D714), (0x1D716, 0x1D734), (0x1D736, 0x1D74E),
   (0x1D750, 0x1D76E), (0x1D770, 0x1D788), (0x1D78A, 0x1D7A8), (0x1D7AA, 0x1D7C2),
   (0x1D7C4, 0x1D7CB), (0x1DF00, 0x1DF09), (0x1DF0B, 0x1DF1E), (0x1E900, 0x1E943),
   (0x1F130, 0x1F149), (0x1F150, 0x1F169), (0x1F170, 0x1F189)]

/-- The code points with the property `Case_Ignorable`
(`DerivedCoreProperties.txt`), as inclusive ranges. -/
def caseIgnorableRanges : List (Nat × Nat) :=
  [(0x0027, 0x0027), (0x002E, 0x002E), (0x003A, 0x003A), (0x005E, 0x005E), (0x0060, 0x0060),
   (0x00A8, 0x00A8), (0x00AD, 0x00AD), (0x00AF, 0x00AF), (0x00B4, 0x00B4), (0x00B7, 0x00B8),
   (0x02B0, 0x036F), (0x0374, 0x0375), (0x037A, 0x037A), (0x0384, 0x0385), (0x0387, 0x0387),
   (0x0483, 0x0489), (0x0559, 0x0559), (0x055F, 0x055F), (0x0591, 0x05BD), (0x05BF, 0x05BF),
   (0x05C1, 0x05C2), (0x05C4, 0x05C5), (0x05C7, 0x05C7), (0x05F4, 0x05F4), (0x0600, 0x0605),
   (0x0610, 0x061A), (0x061C, 0x061C), (0x0640, 0x0640), (0x064B, 0x065F), (0x0670, 0x0670),
   (0x06D6, 0x06DD), (0x06DF, 0x06E8), (0x06EA, 0x06ED), (0x070F, 0x070F), (0x0711, 0x0711),
   (0x0730, 0x074A), (0x07A6, 0x07B0), (0x07EB, 0x07F5), (0x07FA, 0x07FA), (0x07FD, 0x07FD),
   (0x0816, 0x082D), (0x0859, 0x085B), (0x0888, 0x0888), (0x0890, 0x0891), (0x0898, 0x089F),
   (0x08C9, 0x0902), (0x093A, 0x093A), (0x093C, 0x093C), (0x0941, 0x0948), (0x094D, 0x094D),
   (0x0951, 0x0957), (0x0962, 0x0963), (0x0971, 0x0971), (0x0981, 0x0981), (0x09BC, 0x09BC),
   (0x09C1, 0x09C4), (0x09CD, 0x09CD), (0x09E2, 0x09E3), (0x09FE, 0x09FE), (0x0A01, 0x0A02),
   (0x0A3C, 0x0A3C), (0x0A41, 0x0A42), (0x0A47, 0x0A48), (0x0A4B, 0x0A4D), (0x0A51, 0x0A51),
   (0x0A70, 0x0A71), (0x0A75, 0x0A75), (0x0A81, 0x0A82), (0x0ABC, 0x0ABC), (0x0AC1, 0x0AC5),
   (0x0AC7, 0x0AC8), (0x0ACD, 0x0ACD), (0x0AE2, 0x0AE3), (0x0AFA, 0x0AFF), (0x0B01, 0x0B01),
   (0x0B3C, 0x0B3C), (0x0B3F, 0x0B3F), (0x0B41, 0x0B44), (0x0B4D, 0x0B4D), (0x0B55, 0x0B56),
   (0x0B62, 0x0B63), (0x0B82, 0x0B82), (0x0BC0, 0x0BC0), (0x0BCD, 0x0BCD), (0x0C00, 0x0C00),
   (0x0C04, 0x0C04), (0x0C3C, 0x0C3C), (0x0C3E, 0x0C40), (0x0C46, 0x0C48), (0x0C4A, 0x0C4D),
   (0x0C55, 0x0C56), (0x0C62, 0x0C63), (0x0C81, 0x0C81), (0x0CBC, 0x0CBC), (0x0CBF, 0x0CBF),
   (0x0CC6, 0x0CC6), (0x0CCC, 0x0CCD), (0x0CE2, 0x0CE3), (0x0D00, 0x0D01), (0x0D3B, 0x0D3C),
   (0x0D41, 0x0D44), (0x0D4D, 0x0D4D), (0x0D62, 0x0D63), (0x0D81, 0x0D81), (0x0DCA, 0x0DCA),
   (0x0DD2, 0x0DD4), (0x0DD6, 0x0DD6), (0x0E31, 0x0E31), (0x0E34, 0x0E3A), (0x0E46, 0x0E4E),
   (0x0EB1, 0x0EB1), (0x0EB4, 0x0EBC), (0x0EC6, 0x0EC6), (0x0EC8, 0x0ECD), (0x0F18, 0x0F19),
   (0x0F35, 0x0F35), (0x0F37, 0x0F37), (0x0F39, 0x0F39), (0x0F71, 0x0F7E), (0x0F80, 0x0F84),
   (0x0F86, 0x0F87), (0x0F8D, 0x0F97), (0x0F99, 0x0FBC), (0x0FC6, 0x0FC6), (0x102D, 0x1030),
   (0x1032, 0x1037), (0x1039, 0x103A), (0x103D, 0x103E), (0x1058, 0x1059), (0x105E, 0x1060),
   (0x1071, 0x1074), (0x1082, 0x1082), (0x1085, 0x1086), (0x108D, 0x108D), (0x109D, 0x109D),
   (0x10FC, 0x10FC), (0x135D, 0x135F), (0x1712, 0x1714), (0x1732, 0x1733), (0x1752, 0x1753),
   (0x1772, 0x1773), (0x17B4, 0x17B5), (0x17B7, 0x17BD), (0x17C6, 0x17C6), (0x17C9, 0x17D3),
   (0x17D7, 0x17D7), (0x17DD, 0x17DD), (0x180B, 0x180F), (0x1843, 0x1843), (0x1885, 0x1886),
   (0x18A9, 0x18A9), (0x1920, 0x1922), (0x1927, 0x1928), (0x1932, 0x1932), (0x1939, 0x193B),
   (0x1A17, 0x1A18), (0x1A1B, 0x1A1B), (0x1A56, 0x1A56), (0x1A58, 0x1A5E), (0x1A60, 0x1A60),
   (0x1A62, 0x1A62), (0x1A65, 0x1A6C), (0x1A73, 0x1A7C), (0x1A7F, 0x1A7F), (0x1AA7, 0x1AA7),
   (0x1AB0, 0x1ACE), (0x1B00, 0x1B03), (0x1B34, 0x1B34), (0x1B36, 0x1B3A), (0x1B3C, 0x1B3C),
   (0x1B42, 0x1B42), (0x1B6B, 0x1B73), (0x1B80, 0x1B81), (0x1BA2, 0x1BA5), (0x1BA8, 0x1BA9),
   (0x1BAB, 0x1BAD), (0x1BE6, 0x1BE6), (0x1BE8, 0x1BE9), (0x1BED, 0x1BED), (0x1BEF, 0x1BF1),
   (0x1C2C, 0x1C33), (0x1C36, 0x1C37), (0x1C78, 0x1C7D), (0x1CD0, 0x1CD2), (0x1CD4, 0x1CE0),
   (0x1CE2, 0x1CE8), (0x1CED, 0x1CED), (0x1CF4, 0x1CF4), (0x1CF8, 0x1CF9), (0x1D2C, 0x1D6A),
   (0x1D78, 0x1D78), (0x1D9B, 0x1DFF), (0x1FBD, 0x1FBD), (0x1FBF, 0x1FC1), (0x1FCD, 0x1FCF),
   (0x1FDD, 0x1FDF), (0x1FED, 0x1FEF), (0x1FFD, 0x1FFE), (0x200B, 0x200F), (0x2018, 0x2019),
   (0x2024, 0x2024), (0x2027, 0x2027), (0x202A, 0x202E), (0x2060, 0x2064), (0x2066, 0x206F),
   (0x2071, 0x2071), (0x207F, 0x207F), (0x2090, 0x209C), (0x20D0, 0x20F0), (0x2C7C, 0x2C7D),
   (0x2CEF, 0x2CF1), (0x2D6F, 0x2D6F), (0x2D7F, 0x2D7F), (0x2DE0, 0x2DFF), (0x2E2F, 0x2E2F),
   (0x3005, 0x3005), (0x302A, 0x302D), (0x3031, 0x3035), (0x303B, 0x303B), (0x3099, 0x309E),
   (0x30FC, 0x30FE), (0xA015, 0xA015), (0xA4F8, 0xA4FD), (0xA60C, 0xA60C), (0xA66F, 0xA672),
   (0xA674, 0xA67D), (0xA67F, 0xA67F), (0xA69C, 0xA69F), (0xA6F0, 0xA6F1), (0xA700, 0xA721),
   (0xA770, 0xA770), (0xA788, 0xA78A), (0xA7F2, 0xA7F4), (0xA7F8, 0xA7F9), (0xA802, 0xA802),
   (0xA806, 0xA806), (0xA80B, 0xA80B), (0xA825, 0xA826), (0xA82C, 0xA82C), (0xA8C4, 0xA8C5),
   (0xA8E0, 0xA8F1), (0xA8FF, 0xA8FF), (0xA926, 0xA92D), (0xA947, 0xA951), (0xA980, 0xA982),
   (0xA9B3, 0xA9B3), (0xA9B6, 0xA9B9), (0xA9BC, 0xA9BD), (0xA9CF, 0xA9CF), (0xA9E5, 0xA9E6),
   (0xAA29, 0xAA2E), (0xAA31, 0xAA32), (0xAA35, 0xAA36), (0xAA43, 0xAA43), (0xAA4C, 0xAA4C),
   (0xAA70, 0xAA70), (0xAA7C, 0xAA7C), (0xAAB0, 0xAAB0), (0xAAB2, 0xAAB4), (0xAAB7, 0xAAB8),
   (0xAABE, 0xAABF), (0xAAC1, 0xAAC1), (0xAADD, 0xAADD), (0xAAEC, 0xAAED), (0xAAF3, 0xAAF4),
   (0xAAF6, 0xAAF6), (0xAB5B, 0xAB5F), (0xAB69, 0xAB6B), (0xABE5, 0xABE5), (0xABE8, 0xABE8),
   (0xABED, 0xABED), (0xFB1E, 0xFB1E), (0xFBB2, 0xFBC2), (0xFE00, 0xFE0F), (0xFE13, 0xFE13),
   (0xFE20, 0xFE2F), (0xFE52, 0xFE52), (0xFE55, 0xFE55), (0xFEFF, 0xFEFF), (0xFF07, 0xFF07),
   (0xFF0E, 0xFF0E), (0xFF1A, 0xFF1A), (0xFF3E, 0xFF3E), (0xFF40, 0xFF40), (0xFF70, 0xFF70),
   (0xFF9E, 0xFF9F), (0xFFE3, 0xFFE3), (0xFFF9, 0xFFFB), (0x101FD, 0x101FD), (0x102E0, 0x102E0),
   (0x10376, 0x1037A), (0x10780, 0x10785), (0x10787, 0x107B0), (0x107B2, 0x107BA),
   (0x10A01, 0x10A03), (0x10A05, 0x10A06), (0x10A0C, 0x10A0F), (0x10A38, 0x10A3A),
   (0x10A3F, 0x10A3F), (0x10AE5, 0x10AE6), (0x10D24, 0x10D27), (0x10EAB, 0x10EAC),
   (0x10F46, 0x10F50), (0x10F82, 0x10F85), (0x11001, 0x11001), (0x11038, 0x11046),
   (0x11070, 0x11070), (0x11073, 0x11074), (0x1107F, 0x11081), (0x110B3, 0x110B6),
   (0x110B9, 0x110BA), (0x110BD, 0x110BD), (0x110C2, 0x110C2), (0x110CD, 0x110CD),
   (0x11100, 0x11102), (0x11127, 0x1112B), (0x1112D, 0x11134), (0x11173, 0x11173),
   (0x11180, 0x11181), (0x111B6, 0x111BE), (0x111C9, 0x111CC), (0x111CF, 0x111CF),
   (0x1122F, 0x11231), (0x11234, 0x11234), (0x11236, 0x11237), (0x1123E, 0x1123E),
   (0x112DF, 0x112DF), (0x112E3, 0x112EA), (0x11300, 0x11301), (0x1133B, 0x1133C),
   (0x11340, 0x11340), (0x11366, 0x1136C), (0x11370, 0x11374), (0x11438, 0x1143F),
   (0x11442, 0x11444), (0x11446, 0x11446), (0x1145E, 0x1145E), (0x114B3, 0x114B8),
   (0x114BA, 0x114BA), (0x114BF, 0x114C0), (0x114C2, 0x114C3), (0x115B2, 0x115B5),
   (0x115BC, 0x115BD), (0x115BF, 0x115C0), (0x115DC, 0x115DD), (0x11633, 0x1163A),
   (0x1163D, 0x1163D), (0x1163F, 0x11640), (0x116AB, 0x116AB), (0x116AD, 0x116AD),
   (0x116B0, 0x116B5), (0x116B7, 0x116B7), (0x1171D, 0x1171F), (0x11722, 0x11725),
   (0x11727, 0x1172B), (0x1182F, 0x11837), (0x11839, 0x1183A), (0x1193B, 0x1193C),
   (0x1193E, 0x1193E), (0x11943, 0x11943), (0x119D4, 0x119D7), (0x119DA, 0x119DB),
   (0x119E0, 0x119E0), (0x11A01, 0x11A0A), (0x11A33, 0x11A38), (0x11A3B, 0x11A3E),
   (0x11A47, 0x11A47), (0x11A51, 0x11A56), (0x11A59, 0x11A5B), (0x11A8A, 0x11A96),
   (0x11A98, 0x11A99), (0x11C30, 0x11C36), (0x11C38, 0x11C3D), (0x11C3F, 0x11C3F),
   (0x11C92, 0x11CA7), (0x11CAA, 0x11CB0), (0x11CB2, 0x11CB3), (0x11CB5, 0x11CB6),
   (0x11D31, 0x11D36), (0x11D3A, 0x11D3A), (0x11D3C, 0x11D3D), (0x11D3F, 0x11D45),
   (0x11D47, 0x11D47), (0x11D90, 0x11D91), (0x11D95, 0x11D95), (0x11D97, 0x11D97),
   (0x11EF3, 0x11EF4), (0x13430, 0x13438), (0x16AF0, 0x16AF4), (0x16B30, 0x16B36),
   (0x16B40, 0x16B43), (0x16F4F, 0x16F4F), (0x16F8F, 0x16F9F), (0x16FE0, 0x16FE1),
   (0x16FE3, 0x16FE4), (0x1AFF0, 0x1AFF3), (0x1AFF5, 0x1AFFB), (0x1AFFD, 0x1AFFE),
   (0x1BC9D, 0x1BC9E), (0x1BCA0, 0x1BCA3), (0x1CF00, 0x1CF2D), (0x1CF30, 0x1CF46),
   (0x1D167, 0x1D169), (0x1D173, 0x1D182), (0x1D185, 0x1D18B), (0x1D1AA, 0x1D1AD),
   (0x1D242, 0x1D244), (0x1DA00, 0x1DA36), (0x1DA3B, 0x1DA6C), (0x1DA75, 0x1DA75),
   (0x1DA84, 0x1DA84), (0x1DA9B, 0x1DA9F), (0x1DAA1, 0x1DAAF), (0x1E000, 0x1E006),
   (0x1E008, 0x1E018), (0x1E01B, 0x1E021), (0x1E023, 0x1E024), (0x1E026, 0x1E02A),
   (0x1E130, 0x1E13D), (0x1E2AE, 0x1E2AE), (0x1E2EC, 0x1E2EF), (0x1E8D0, 0x1E8D6),
   (0x1E944, 0x1E94B), (0x1F3FB, 0x1F3FF), (0xE0001, 0xE0001), (0xE0020, 0xE007F),
   (0xE0100, 0xE01EF)]

/-- Whether a code point lies in one of the inclusive ranges. -/
def inRanges (ranges : List (Nat × Nat)) (n : Nat) : Bool :=
  ranges.any (fun r => r.1 ≤ n && n ≤ r.2)

/-- The simple lower-case mapping of one code point: below `U+0080` the
letters `A`-`Z` go to `a`-`z` and nothing else moves; from there on the image
is the one given by `lowerRuns`, the code point itself when no run holds it. -/
def lowerChar (c : Char) : Char :=
  if c.toNat < 0x80 then
    (if 65 ≤ c.toNat ∧ c.toNat ≤ 90 then Char.ofNat (c.toNat + 32) else c)
  else
    match lowerRuns.find? (fun r => r.1 ≤ c.toNat && c.toNat ≤ r.2.1 &&
        (c.toNat - r.1) % r.2.2.1 == 0) with
    | some r => Char.ofNat (r.2.2.2 + (c.toNat - r.1))
    | none => c

/-- Property `Cased` of a code point. -/
def isCased (c : Char) : Bool :=
  inRanges casedRanges c.toNat

/-- Property `Case_Ignorable` of a code point. -/
def isCaseIgnorable (c : Char) : Bool :=
  inRanges caseIgnorableRanges c.toNat

/-- The condition `Final_Sigma` of `SpecialCasing.txt`, for a capital sigma
with the characters `before` it (nearest first) and `after` it: going back
over case-ignorable characters there is a cased letter, and going forward over
case-ignorable characters there is none. -/
def isFinalSigma (before after : List Char) : Bool :=
  (match before.dropWhile isCaseIgnorable with
    | c :: _ => isCased c
    | [] => false) &&
  (match after.dropWhile isCaseIgnorable with
    | c :: _ => !isCased c
    | [] => true)

/-- The lower-case form of one character in its context (the Unicode
`toLowercase` of the default case conversion): `U+03A3` gives the final sigma
`U+03C2` under `Final_Sigma` and `U+03C3` otherwise, `U+0130` gives `U+0069
U+0307` (the one unconditional entry of `SpecialCasing.txt` for lower case),
any other character its simple mapping. -/
def lowerAt (before : List Char) (c : Char) (after : List Char) : List Char :=
  if c.toNat = 0x03A3 then [if isFinalSigma before after then Char.ofNat 0x03C2
    else Char.ofNat 0x03C3]
  else if c.toNat = 0x0130 then [Char.ofNat 0x0069, Char.ofNat 0x0307]
  else [lowerChar c]

/-- Lower-casing of a text, left to right; `before` holds the characters
already passed, nearest first. -/
def toLowerChars (before : List Char) : List Char → List Char
  | [] => []
  | c :: cs => lowerAt before c cs ++ toLowerChars (c :: before) cs

/-- The method `String.prototype.toLowerCase`: the locale-insensitive
lower-case mapping of the Unicode Character Database, code point by code
point. -/
def toLowerCase (s : String) : String :=
  ⟨toLowerChars [] s.data⟩

/-- Whether `pat` occurs in the text as a contiguous run of characters. -/
def hasSubstr (pat : List Char) : List Char → Bool
  | [] => pat.isEmpty
  | c :: cs => pat.isPrefixOf (c :: cs) || hasSubstr pat cs

/-! ## JavaScript numbers and the two parsers -/

/-- A JavaScript number: `NaN`, `Infinity`, `-Infinity` or a finite value. -/
inductive JsNumber where
  | nan
  | posInf
  | negInf
  | fin (q : ℚ)
  deriving DecidableEq

/-- The global `isNaN`, on a number. -/
def JsNumber.isNaN : JsNumber → Bool
  | .nan => true
  | _ => false

/-- Value of a decimal digit character. -/
def decDigit? (c : Char) : Option Nat :=
  if 48 ≤ c.toNat ∧ c.toNat ≤ 57 then some (c.toNat - 48) else none

/-- Value of a hexadecimal digit character. -/
def hexDigit? (c : Char) : Option Nat :=
  if 48 ≤ c.toNat ∧ c.toNat ≤ 57 then some (c.toNat - 48)
  else if 97 ≤ c.toNat ∧ c.toNat ≤ 102 then some (c.toNat - 87)
  else if 65 ≤ c.toNat ∧ c.toNat ≤ 70 then some (c.toNat - 55)
  else none

/-- The longest prefix of digits (read by `digit?`) and what follows it. -/
def spanDigits (digit? : Char → Option Nat) : List Char → List Nat × List Char
  | [] => ([], [])
  | c :: cs =>
    match digit? c with
    | some d => ((spanDigits digit? cs).1.cons d, (spanDigits digit? cs).2)
    | none => ([], c :: cs)

/-- The number a digit list denotes in the given radix. -/
def digitsValue (radix : Nat) (ds : List Nat) : Nat :=
  ds.foldl (fun acc d => acc * radix + d) 0

/-- An optional leading sign: whether it is `-`, and the rest. -/
def stripSign : List Char → Bool × List Char
  | '-' :: t => (true, t)
  | '+' :: t => (false, t)
  | s => (false, s)

/-- The sign as a factor. -/
def signFactor (neg : Bool) : Int :=
  if neg then -1 else 1

/-- Number of binary digits of a natural number, by repeated halving. -/
def bitLengthAux : Nat → Nat → Nat
  | 0, _ => 0
  | fuel + 1, n => if n = 0 then 0 else bitLengthAux fuel (n / 2) + 1

/-- Number of binary digits of a natural number (`0` for `0`). -/
def bitLength (n : Nat) : Nat :=
  bitLengthAux n n

/-- The binary exponent of the positive rational `n / d`: the integer `e`
with `2 ^ e ≤ n / d < 2 ^ (e + 1)`. -/
def binaryExponent (n d : Nat) : Int :=
  let e0 : Int := (bitLength n : Int) - (bitLength d : Int)
  if d * 2 ^ e0.toNat ≤ n * 2 ^ (-e0).toNat then e0 else e0 - 1

/-- The natural number nearest to `n / d`, a tie going to the even one. -/
def roundHalfEven (n d : Nat) : Nat :=
  if d < 2 * (n % d) ∨ (2 * (n % d) = d ∧ (n / d) % 2 = 1) then n / d + 1 else n / d

/-- The double nearest to `± n / d` among the multiples of `2 ^ p`, ties to
even; an infinity when that multiple is `2 ^ 1024` or more. -/
def roundScaled (neg : Bool) (n d : Nat) (p : Int) : JsNumber :=
  let k := roundHalfEven (n * 2 ^ (-p).toNat) (d * 2 ^ p.toNat)
  if 1024 < (bitLength k : Int) + p then (if neg then .negInf else .posInf)
  else .fin (mkRat (signFactor neg * ((k * 2 ^ p.toNat : Nat) : Int)) (2 ^ (-p).toNat))

/-- The Number value of a real (ECMAScript `𝔽`): IEEE-754 binary64
round-to-nearest, ties to even.  A value with binary exponent `e` is rounded
to a multiple of `2 ^ (e - 52)` (53 significant bits), of `2 ^ (-1074)` in the
subnormal range; a result of `2 ^ 1024` or more is an infinity. -/
def roundToDouble (q : ℚ) : JsNumber :=
  if q.num = 0 then .fin 0
  else roundScaled (decide (q.num < 0)) q.num.natAbs q.den
    (max (binaryExponent q.num.natAbs q.den) (-1022) - 52)

/-- Steps 11-16 of `parseInt`: `NaN` when the run of digits is empty,
otherwise the Number value of the signed value of the run in the radix.  The
value of the run is taken exactly, as V8 does; ECMAScript would also allow an
engine to read the decimal digits after the twentieth as zeros. -/
def intOfDigits (neg : Bool) (radix : Nat) (z : List Nat) : JsNumber :=
  if z.isEmpty then .nan
  else roundToDouble (mkRat (signFactor neg * (digitsValue radix z : Int)) 1)

/-- The global `parseInt(string)` with no radix argument: leading white
space is skipped, a sign is read, a `0x`/`0X` prefix selects radix 16
(radix 10 otherwise), and the longest run of digits is the value; whatever
follows is ignored.  `NaN` when that run is empty. -/
def parseIntChars (input : List Char) : JsNumber :=
  let signed := stripSign (trimStart input)
  match signed.2 with
  | '0' :: 'x' :: t => intOfDigits signed.1 16 (spanDigits hexDigit? t).1
  | '0' :: 'X' :: t => intOfDigits signed.1 16 (spanDigits hexDigit? t).1
  | s => intOfDigits signed.1 10 (spanDigits decDigit? s).1

/-- Function `parseInt` on a string. -/
def parseInt (s : String) : JsNumber :=
  parseIntChars s.data

/-- The exponent part `e`/`E`, optional sign, digits; `0` when the text does
not continue with a complete exponent part. -/
def exponentPart : List Char → Int
  | c :: t =>
    if c = 'e' ∨ c = 'E' then
      let signed := stripSign t
      let ds := (spanDigits decDigit? signed.2).1
      if ds.isEmpty then 0 else signFactor signed.1 * (digitsValue 10 ds : Int)
    else 0
  | [] => 0

/-- The characters of the literal `Infinity`. -/
def infinityChars : List Char :=
  "Infinity".data

/-- The global `parseFloat(string)`: leading white space is skipped and the
longest prefix that is a `StrDecimalLiteral` (sign, `Infinity` or digits with
an optional fraction and exponent) is read; the result is the Number value of
what it denotes; whatever follows is ignored.  `NaN` when no prefix is such a
literal. -/
def parseFloatChars (input : List Char) : JsNumber :=
  let signed := stripSign (trimStart input)
  if infinityChars.isPrefixOf signed.2 then
    (if signed.1 then .negInf else .posInf)
  else
    let ip := spanDigits decDigit? signed.2
    let fp : List Nat × List Char :=
      match ip.2 with
      | '.' :: t => spanDigits decDigit? t
      | r => ([], r)
    if ip.1.isEmpty && fp.1.isEmpty then .nan
    else
      let e : Int := exponentPart fp.2 - (fp.1.length : Int)
      let m : Int := signFactor signed.1 * (digitsValue 10 (ip.1 ++ fp.1) : Int)
      roundToDouble (mkRat (m * 10 ^ e.toNat) (10 ^ (-e).toNat))

/-- Function `parseFloat` on a string. -/
def parseFloat (s : String) : JsNumber :=
  parseFloatChars s.data

/-! ## The upload file filter (`src/app.js`, lines 43-56) -/

/-- State of the right-to-left scan of Node's `path.extname` (POSIX
flavour): `startDot` and `stop` are `none` for the source's `-1`. -/
structure ExtScan where
  startDot : Option Nat
  startPart : Nat
  stop : Option Nat
  matchedSlash : Bool
  preDotState : Int
  deriving DecidableEq

/-- The loop of `path.extname`, over the characters still to visit in
reverse order; the index of the visited character is the number of
characters before it.  A slash after the last path component was entered
ends the loop. -/
def extScan : List Char → ExtScan → ExtScan
  | [], st => st
  | c :: rest, st =>
    let i := rest.length
    if c = '/' then
      if !st.matchedSlash then { st with startPart := i + 1 }
      else extScan rest st
    else
      let st1 : ExtScan :=
        if st.stop = none then { st with matchedSlash := false, stop := some (i + 1) } else st
      let st2 : ExtScan :=
        if c = '.' then
          (if st1.startDot = none then { st1 with startDot := some i }
           else if st1.preDotState ≠ 1 then { st1 with preDotState := 1 }
           else st1)
        else if st1.startDot ≠ none then { st1 with preDotState := -1 }
        else st1
      extScan rest st2

/-- Node's `path.extname`: from the last `.` of the last path component to
its end, empty when there is no such dot or the component starts with it. -/
def extname (p : String) : String :=
  let st := extScan p.data.reverse ⟨none, 0, none, true, 0⟩
  match st.startDot, st.stop with
  | some d, some e =>
    if st.preDotState = 0 ∨ (st.preDotState = 1 ∧ d = e - 1 ∧ d = st.startPart + 1) then ""
    else ⟨(p.data.drop d).take (e - d)⟩
  | _, _ => ""

/-- What the file filter reads of an incoming file. -/
structure UploadFile where
  mimetype : String
  originalname : String
  deriving DecidableEq

/-- The test `/jpeg|jpg|png|gif/.test(s)`: the pattern has no anchors, so it
succeeds when one of the four alternatives occurs anywhere in `s`. -/
def filetypesTest (s : String) : Bool :=
  hasSubstr "jpeg".data s.data || hasSubstr "jpg".data s.data ||
  hasSubstr "png".data s.data || hasSubstr "gif".data s.data

/-- The message of the error the file filter rejects with. -/
def fileFilterError : String :=
  "Error: File upload only supports images (jpeg, jpg, png, gif)!"

/-- What the file filter tells multer through its callback: `cb(null, true)`
accepts the file (it is then staged), `cb(new Error(...))` rejects it. -/
inductive FilterVerdict where
  | accept
  | reject (error : String)
  deriving DecidableEq

/-- The `fileFilter` of the multer instance. -/
def fileFilter (file : UploadFile) : FilterVerdict :=
  let mimetype := filetypesTest file.mimetype
  let ext := filetypesTest (toLowerCase (extname file.originalname))
  if mimetype && ext then .accept else .reject fileFilterError

/-- The file types the filter's error message says are supported. -/
def allowedMimeTypes : List String :=
  ["image/jpeg", "image/jpg", "image/png", "image/gif"]

/-- The extensions of the supported file types. -/
def allowedExtensions : List String :=
  [".jpeg", ".jpg", ".png", ".gif"]

/-! ## Requests, responses and the world -/

/-- A value found under a key of `req.body`.  A text field of the form is a
string; the multipart parser builds a non-string value (an array for a
repeated name, an object for a bracketed name) of which the handler uses
only that it is not a string and its conversion to a string, `none` when
that conversion throws. -/
inductive JsValue where
  | undefined
  | str (s : String)
  | other (toStr : Option String)
  deriving DecidableEq

/-- The parsed form fields, `req.body`: `req.body[field]` is `body field`. -/
abbrev Body := String → JsValue

/-- A body from its entries; a key without entry is `undefined`. -/
def Body.ofList (entries : List (String × JsValue)) : Body :=
  fun field => ((entries.find? (fun e => e.1 == field)).map Prod.snd).getD .undefined

/-- The staged upload as the handler sees it, `req.file`. -/
structure StagedFile where
  path : String
  filename : String
  deriving DecidableEq

/-- What the `POST /listings` handler reads of the request. -/
structure Request where
  file : Option StagedFile
  body : Body

/-- A value of a JSON response body. -/
inductive Json where
  | str (s : String)
  | bool (b : Bool)
  | num (n : Nat)
  deriving DecidableEq

/-- A response: `res.status(status).json(body)`, the body by its keys. -/
structure Response where
  status : Nat
  body : List (String × Json)
  deriving DecidableEq

/-- The fifteen values `createNote` receives, in its parameter order; the
column `created_at` is set by the store (`NOW()`) and is not part of it. -/
structure ListingRow where
  title : JsValue
  listing_type : JsValue
  housing_type : JsValue
  campus : JsValue
  bedrooms : JsNumber
  bathrooms : JsNumber
  square_footage : JsNumber
  address : JsValue
  postal_code : JsValue
  property_description : JsValue
  image_url : String
  price : JsNumber
  agent_name : JsValue
  agent_email : JsValue
  agent_phone : JsValue
  deriving DecidableEq

/-- Where a thrown error comes from, as far as the handler tells them apart. -/
inductive ErrorKind where
  | multer
  | typeError
  | database
  | fileSystem
  deriving DecidableEq

/-- A thrown JavaScript error: its class, `error.code` and `error.message`. -/
structure JsError where
  kind : ErrorKind
  code : Option String
  message : String
  deriving DecidableEq

deriving instance DecidableEq for Except

/-- An error of the storage layer (a rejected `pool.query`). -/
structure DbError where
  code : String
  message : String
  deriving DecidableEq

/-- The state around the handler: the paths present in the upload directory,
the rows of the `listings` table with their identifiers, the next generated
identifier, and the storage layer's verdict on an insert (`some e` when it
fails with `e`). -/
structure World where
  files : List String
  listings : List (Nat × ListingRow)
  nextId : Nat
  insertFault : ListingRow → Option DbError

/-- An effect issued while a request is handled: a deletion in the upload
directory, or the `INSERT` of a row into `listings`. -/
inductive Effect where
  | unlink (path : String)
  | insert (row : ListingRow)
  deriving DecidableEq

/-- Result of running a handler. -/
structure Outcome where
  response : Response
  world : World
  trace : List Effect

/-- The call `fs.unlink(path)`: removes the file, or fails with `ENOENT`
when there is no such file. -/
def unlink (path : String) (w : World) : Except JsError World :=
  if path ∈ w.files then .ok { w with files := w.files.filter (fun p => p ≠ path) }
  else .error ⟨.fileSystem, some "ENOENT", "ENOENT: no such file or directory, unlink"⟩

/-- The expression `fs.unlink(path).catch(err => console.error(...))`: a
failed deletion is logged and the world is left as it was. -/
def unlinkCaught (path : String) (w : World) : World :=
  match unlink path w with
  | .ok w1 => w1
  | .error _ => w

/-! ## Persistence (`src/Database.js`) -/

/-- Result of a call of the persistence layer. -/
structure CallResult where
  result : Except JsError Nat
  world : World
  trace : List Effect

/-- The function `createNote`: one `INSERT` whose value array lists the
fifteen parameters in the order of the column list (the fields of
`ListingRow`).  It returns the generated identifier (`result.insertId`) and
the table with the row added, or throws the storage error and leaves the
table as it was. -/
def createNote (title listing_type housing_type campus : JsValue)
    (bedrooms bathrooms square_footage : JsNumber)
    (address postal_code property_description : JsValue)
    (image_url : String) (price : JsNumber)
    (agent_name agent_email agent_phone : JsValue) (w : World) : CallResult :=
  let row : ListingRow :=
    ⟨title, listing_type, housing_type, campus, bedrooms, bathrooms,
     square_footage, address, postal_code,
     property_description,
     image_url, price,
     agent_name, agent_email, agent_phone⟩
  match w.insertFault row with
  | some e => ⟨.error ⟨.database, some e.code, e.message⟩, w, [.insert row]⟩
  | none =>
    ⟨.ok w.nextId,
      { w with listings := w.listings ++ [(w.nextId, row)], nextId := w.nextId + 1 },
      [.insert row]⟩

/-- The function `getListingById`: the first row with the identifier,
`rows[0]`. -/
def getListingById (id : Nat) (w : World) : Option ListingRow :=
  ((w.listings.filter (fun r => r.1 == id)).head?).map Prod.snd

/-- Identifiers of stored rows are below the next generated identifier. -/
def World.FreshIds (w : World) : Prop :=
  ∀ r ∈ w.listings, r.1 < w.nextId

/-! ## The handler of `POST /listings` (`src/app.js`, lines 64-144) -/

/-- The constant `requiredFields`. -/
def requiredFields : List String :=
  ["title", "listing_type", "housing_type", "campus", "bedrooms", "bathrooms",
   "square_footage", "address", "postal_code", "property_description", "price",
   "agent_name", "agent_email", "agent_phone"]

/-- The filter predicate of `missingFields`:
`value === undefined || (typeof value === 'string' && value.trim() === '')`. -/
def isMissing (value : JsValue) : Bool :=
  match value with
  | .undefined => true
  | .str s => jsTrim s == ""
  | .other _ => false

/-- The constant `missingFields`. -/
def missingFields (body : Body) : List String :=
  requiredFields.filter (fun field => isMissing (body field))

/-- Conversion of a value to a string, as `parseInt` and `parseFloat` apply
it to their argument; a value that cannot be converted throws a
`TypeError`. -/
def toStringValue : JsValue → Except JsError String
  | .undefined => .ok "undefined"
  | .str s => .ok s
  | .other (some s) => .ok s
  | .other none => .error ⟨.typeError, none, "Cannot convert object to primitive value"⟩

/-- The call `parseInt(value)` on a body value. -/
def parseIntValue (v : JsValue) : Except JsError JsNumber :=
  (toStringValue v).map parseInt

/-- The call `parseFloat(value)` on a body value. -/
def parseFloatValue (v : JsValue) : Except JsError JsNumber :=
  (toStringValue v).map parseFloat

/-- The four coerced numbers. -/
structure Numerics where
  bedrooms : JsNumber
  bathrooms : JsNumber
  square_footage : JsNumber
  price : JsNumber
  deriving DecidableEq

/-- Lines 94-97: the four coercions, in the order of the source. -/
def coerceNumerics (body : Body) : Except JsError Numerics := do
  let bedrooms ← parseIntValue (body "bedrooms")
  let bathrooms ← parseFloatValue (body "bathrooms")
  let square_footage ← parseIntValue (body "square_footage")
  let price ← parseFloatValue (body "price")
  pure ⟨bedrooms, bathrooms, square_footage, price⟩

/-- The condition of line 100. -/
def Numerics.anyNaN (n : Numerics) : Bool :=
  n.bedrooms.isNaN || n.bathrooms.isNaN || n.square_footage.isNaN || n.price.isNaN

/-- The image path of line 91. -/
def imageUrlOf (file : StagedFile) : String :=
  "/uploads/" ++ file.filename

/-- Error text of the file presence gate. -/
def noFileMessage : String :=
  "No image file uploaded or invalid file type. Please upload a JPEG, JPG, PNG, or GIF image (Max 5MB)."

/-- Error text of the required-field gate. -/
def missingFieldsMessage (missing : List String) : String :=
  "Missing or empty required fields: " ++ ", ".intercalate missing

/-- Error text of the numeric gate. -/
def invalidNumericMessage : String :=
  "Invalid numeric value for bedrooms, bathrooms, square footage, or price."

/-- A thrown error together with the world and the trace at the throw. -/
structure Thrown where
  error : JsError
  world : World
  trace : List Effect

/-- The `try` block, lines 66-128: either it responds, or it throws. -/
def tryBlock (req : Request) (w : World) : Except Thrown Outcome :=
  match req.file with
  | none => .ok ⟨⟨400, [("error", .str noFileMessage)]⟩, w, []⟩
  | some file =>
    let missing := missingFields req.body
    if missing.length > 0 then
      .ok ⟨⟨400, [("error", .str (missingFieldsMessage missing))]⟩,
        unlinkCaught file.path w, [.unlink file.path]⟩
    else
      let imageUrl := imageUrlOf file
      match coerceNumerics req.body with
      | .error e => .error ⟨e, w, []⟩
      | .ok n =>
        if n.anyNaN then
          .ok ⟨⟨400, [("error", .str invalidNumericMessage)]⟩,
            unlinkCaught file.path w, [.unlink file.path]⟩
        else
          let result :=
            createNote
              (req.body "title")
              (req.body "listing_type")
              (req.body "housing_type")
              (req.body "campus")
              n.bedrooms
              n.bathrooms
              n.square_footage
              (req.body "address")
              (req.body "postal_code")
              (req.body "property_description")
              imageUrl
              n.price
              (req.body "agent_name")
              (req.body "agent_email")
              (req.body "agent_phone") w
          match result.result with
          | .error e => .error ⟨e, result.world, result.trace⟩
          | .ok insertId =>
            .ok ⟨⟨201, [("success", .bool true),
                        ("message", .str "Listing created successfully"),
                        ("listingId", .num insertId),
                        ("imageUrl", .str imageUrl)]⟩, result.world, result.trace⟩

/-- The `catch` block, lines 130-143. -/
def catchBlock (req : Request) (t : Thrown) : Outcome :=
  let cleaned : World × List Effect :=
    match req.file with
    | some file => (unlinkCaught file.path t.world, t.trace ++ [.unlink file.path])
    | none => (t.world, t.trace)
  if t.error.kind = .multer ∧ t.error.code = some "LIMIT_FILE_SIZE" then
    ⟨⟨400, [("error", .str "File size too large. Max 5MB allowed."),
            ("details", .str t.error.message)]⟩, cleaned.1, cleaned.2⟩
  else
    ⟨⟨500, [("error", .str "Internal server error during listing creation"),
            ("details", .str t.error.message)]⟩, cleaned.1, cleaned.2⟩

/-- The handler of `POST /listings`. -/
def postListings (req : Request) (w : World) : Outcome :=
  match tryBlock req w with
  | .ok o => o
  | .error t => catchBlock req t

/-! ## Numerals, as the specification reads a submitted text -/

/-- The integer a text denotes when the whole of it is an integer numeral:
an optional sign and one or more decimal digits, nothing else. -/
def integerValue? (s : String) : Option Int :=
  let signed := stripSign s.data
  let ds := spanDigits decDigit? signed.2
  if ds.1.isEmpty || !ds.2.isEmpty then none
  else some (signFactor signed.1 * (digitsValue 10 ds.1 : Int))

/-- The number a text denotes when the whole of it is a decimal numeral: an
optional sign, one or more digits and an optional fraction of one or more
digits, nothing else. -/
def decimalValue? (s : String) : Option ℚ :=
  let signed := stripSign s.data
  let ip := spanDigits decDigit? signed.2
  if ip.1.isEmpty then none
  else
    match ip.2 with
    | [] => some (mkRat (signFactor signed.1 * (digitsValue 10 ip.1 : Int)) 1)
    | '.' :: t =>
      let fp := spanDigits decDigit? t
      if fp.1.isEmpty || !fp.2.isEmpty then none
      else some (mkRat (signFactor signed.1 * (digitsValue 10 (ip.1 ++ fp.1) : Int))
        (10 ^ fp.1.length))
    | _ => none

/-! ## Counting effects -/

/-- Whether the effect is a deletion. -/
def Effect.isUnlink : Effect → Bool
  | .unlink _ => true
  | .insert _ => false

/-- Whether the effect is an insert. -/
def Effect.isInsert : Effect → Bool
  | .unlink _ => false
  | .insert _ => true

/-- The numeric gate passes: the four coercions complete and none of the
numbers is `NaN`. -/
def NumericGatePasses (body : Body) : Prop :=
  ∃ n, coerceNumerics body = .ok n ∧ n.anyNaN = false

/-! ## The row of an accepted submission -/

/-- The row an accepted submission leads to, column by column. -/
def rowOf (body : Body) (imageUrl : String) (n : Numerics) : ListingRow :=
  { title := body "title"
    listing_type := body "listing_type"
    housing_type := body "housing_type"
    campus := body "campus"
    bedrooms := n.bedrooms
    bathrooms := n.bathrooms
    square_footage := n.square_footage
    address := body "address"
    postal_code := body "postal_code"
    property_description := body "property_description"
    image_url := imageUrl
    price := n.price
    agent_name := body "agent_name"
    agent_email := body "agent_email"
    agent_phone := body "agent_phone" }

/-! ## Sample data -/

/-- A complete form: the fourteen required fields, all well-formed. -/
def sampleEntries : List (String × JsValue) :=
  [("title", .str "Studio A"), ("listing_type", .str "rent"),
   ("housing_type", .str "apartment"), ("campus", .str "Keele"),
   ("bedrooms", .str "1"), ("bathrooms", .str "1.5"),
   ("square_footage", .str "400"), ("address", .str "4700 Keele St"),
   ("postal_code", .str "M3J 1P3"), ("property_description", .str "Bright studio"),
   ("price", .str "900"), ("agent_name", .str "Sam Lee"),
   ("agent_email", .str "sam@example.com"), ("agent_phone", .str "416-555-0100")]

/-- The staged upload of the samples. -/
def sampleFile : StagedFile :=
  ⟨"/srv/app/uploads/1700000000000-k3j9x2a.jpg", "1700000000000-k3j9x2a.jpg"⟩

/-- A world holding the staged upload, an empty table and a store that
accepts every insert. -/
def sampleWorld : World :=
  ⟨[sampleFile.path], [], 1, fun _ => none⟩

/-- The sample world with a store that refuses every insert. -/
def failingWorld : World :=
  { sampleWorld with insertFault := fun _ => some ⟨"ER_DATA_TOO_LONG", "Data too long for column"⟩ }

/-- A request with the staged upload and the given form entries put in
front of the complete form (an entry here overrides the sample's). -/
def sampleRequest (overrides : List (String × JsValue)) : Request :=
  ⟨some sampleFile, Body.ofList (overrides ++ sampleEntries)⟩

/-- A request with the staged upload and exactly the given entries. -/
def requestOf (entries : List (String × JsValue)) : Request :=
  ⟨some sampleFile, Body.ofList entries⟩

/-! ## The client: listings as fetched (`src/script.js`) -/

/-- Comparison `a >= b` of two numbers: false as soon as one is `NaN`. -/
def JsNumber.ge : JsNumber → JsNumber → Bool
  | .nan, _ => false
  | _, .nan => false
  | .posInf, _ => true
  | _, .negInf => true
  | .negInf, _ => false
  | .fin _, .posInf => false
  | .fin p, .fin q => decide (q ≤ p)

/-- Strict equality `a === b` of two numbers: `NaN` equals nothing. -/
def JsNumber.strictEq (a b : JsNumber) : Bool :=
  !a.isNaN && !b.isNaN && a == b

/-- A numeric column of a fetched listing: a JSON number, or a value that is
not a number (null, or a string as the driver sends decimals), of which the
filter uses only that it is not a number and its conversion to a number. -/
inductive NumColumn where
  | num (n : JsNumber)
  | nonNum (toNumber : JsNumber)
  deriving DecidableEq

/-- Conversion of the column's value to a number, as `>=` applies it. -/
def NumColumn.toNumber : NumColumn → JsNumber
  | .num n => n
  | .nonNum t => t

/-- The test `column >= bound`. -/
def NumColumn.ge (c : NumColumn) (bound : JsNumber) : Bool :=
  c.toNumber.ge bound

/-- The test `column === n` against a number: a value of another type is
never strictly equal to it. -/
def NumColumn.strictEq (c : NumColumn) (n : JsNumber) : Bool :=
  match c with
  | .num m => m.strictEq n
  | .nonNum _ => false

/-- A listing as the client receives it in the JSON of `GET /listings`.  A
text column is a string, or `none` for null (an absent key behaves alike);
`created_at` is the time value of `new Date(listing.created_at)`, in
milliseconds. -/
structure Listing where
  id : Nat
  title : Option String
  listing_type : Option String
  housing_type : Option String
  campus : Option String
  bedrooms : NumColumn
  bathrooms : NumColumn
  address : Option String
  postal_code : Option String
  property_description : Option String
  created_at : Int
  deriving DecidableEq

/-- The method call `value.toLowerCase()` on a text column: a `TypeError`
when the value is null. -/
def lowerOf (v : Option String) : Except JsError String :=
  match v with
  | some s => .ok (toLowerCase s)
  | none => .error ⟨.typeError, none, "Cannot read properties of null (reading 'toLowerCase')"⟩

/-- The method `String.prototype.includes`. -/
def includes (s term : String) : Bool :=
  hasSubstr term.data s.data

/-- Truthiness of a text column: null and the empty string are falsy. -/
def truthy (v : Option String) : Bool :=
  match v with
  | some s => s != ""
  | none => false

/-- The six filter controls of the listings page; `none` when the element is
not in the document, otherwise its current `value`. -/
structure Controls where
  searchBar : Option String
  homeType : Option String
  housingType : Option String
  campus : Option String
  beds : Option String
  baths : Option String
  deriving DecidableEq

/-- The pattern `element ? element.value : ''`. -/
def valueOf (element : Option String) : String :=
  element.getD ""

/-- The constant `searchTerm`: `searchBar ? searchBar.value.toLowerCase() : ''`. -/
def searchTermOf (ctl : Controls) : String :=
  match ctl.searchBar with
  | some v => toLowerCase v
  | none => ""

/-- The constant `matchesSearch`; the disjunction stops at its first true
operand, and lower-casing a null column throws. -/
def matchesSearch (searchTerm : String) (listing : Listing) : Except JsError Bool :=
  if searchTerm == "" then .ok true
  else do
    let address ← lowerOf listing.address
    if includes address searchTerm then pure true
    else do
      let postal ← lowerOf listing.postal_code
      if includes postal searchTerm then pure true
      else do
        let title ← lowerOf listing.title
        if includes title searchTerm then pure true
        else
          match listing.property_description with
          | some d => pure (d != "" && includes (toLowerCase d) searchTerm)
          | none => pure false

/-- The constant `matchesHomeType`. -/
def matchesHomeType (selectedHomeType : String) (listing : Listing) : Bool :=
  selectedHomeType == "" || listing.listing_type == some selectedHomeType

/-- The right operand `column && column.toLowerCase() === selected.toLowerCase()`. -/
def lowerEquals (column : Option String) (selected : String) : Bool :=
  match column with
  | some s => s != "" && toLowerCase s == toLowerCase selected
  | none => false

/-- The constant `matchesHousingType`. -/
def matchesHousingType (selectedHousingType : String) (listing : Listing) : Bool :=
  selectedHousingType == "" || lowerEquals listing.housing_type selectedHousingType

/-- The constant `matchesCampus`. -/
def matchesCampus (selectedCampus : String) (listing : Listing) : Bool :=
  selectedCampus == "" || lowerEquals listing.campus selectedCampus

/-- The constant `matchesBeds`. -/
def matchesBeds (selectedBeds : String) (listing : Listing) : Bool :=
  selectedBeds == "" ||
    (if selectedBeds == "4+" then listing.bedrooms.ge (.fin 4)
     else listing.bedrooms.strictEq (parseInt selectedBeds))

/-- The constant `matchesBaths`. -/
def matchesBaths (selectedBaths : String) (listing : Listing) : Bool :=
  selectedBaths == "" ||
    (if selectedBaths == "4+" then listing.bathrooms.ge (.fin 4)
     else listing.bathrooms.strictEq (parseFloat selectedBaths))

/-- The callback handed to `allListingsData.filter`: the six constants are
computed in the order of the source, then combined with `&&`. -/
def filterCallback (ctl : Controls) (listing : Listing) : Except JsError Bool := do
  let search ← matchesSearch (searchTermOf ctl) listing
  let homeType := matchesHomeType (valueOf ctl.homeType) listing
  let housingType := matchesHousingType (valueOf ctl.housingType) listing
  let campus := matchesCampus (valueOf ctl.campus) listing
  let beds := matchesBeds (valueOf ctl.beds) listing
  let baths := matchesBaths (valueOf ctl.baths) listing
  pure (search && homeType && housingType && campus && beds && baths)

/-- The method `Array.prototype.filter`: the callback is called on the
elements in order and the elements it accepts are kept in that order; a throw
of the callback ends the call. -/
def arrayFilter {α : Type} (callback : α → Except JsError Bool) :
    List α → Except JsError (List α)
  | [] => .ok []
  | x :: rest =>
    match callback x with
    | .error e => .error e
    | .ok keep =>
      match arrayFilter callback rest with
      | .error e => .error e
      | .ok kept => .ok (if keep then x :: kept else kept)

/-- The function `filterListings`, on the current controls and the cached
collection `allListingsData`: the list it hands to `displayListings`, or the
error it throws. -/
def filterListings (ctl : Controls) (allListingsData : List Listing) :
    Except JsError (List Listing) :=
  arrayFilter (filterCallback ctl) allListingsData

/-- The comparator of the featured sort,
`new Date(b.created_at) - new Date(a.created_at)`. -/
def compareCreated (a b : Listing) : Int :=
  b.created_at - a.created_at

/-- The method `Array.prototype.sort` with a consistent comparator: the
stable sort that puts `a` before `b` when `comparator a b ≤ 0`. -/
def arraySort {α : Type} (comparator : α → α → Int) (l : List α) : List α :=
  l.insertionSort (fun a b => comparator a b ≤ 0)

/-- The listings `fetchAndDisplayFeaturedListings` renders, for a fetched
collection that is not empty: the first `Math.min(listings.length, 3)` of the
collection sorted by creation date, newest first. -/
def featuredListings (listings : List Listing) : List Listing :=
  let sorted := arraySort compareCreated listings
  let featuredCount := min sorted.length 3
  sorted.take featuredCount

/-- What the landing page shows in the featured container once the
collection is fetched: the notice for an empty collection, or the cards. -/
inductive FeaturedView where
  | noListings
  | cards (shown : List Listing)
  deriving DecidableEq

/-- The function `fetchAndDisplayFeaturedListings`, from the fetched
collection on. -/
def fetchAndDisplayFeaturedListings (listings : List Listing) : FeaturedView :=
  if listings.length = 0 then .noListings else .cards (featuredListings listings)

/-- A listing satisfies all six predicates of the filter. -/
def satisfiesAll (ctl : Controls) (listing : Listing) : Bool :=
  matchesSearch (searchTermOf ctl) listing == .ok true &&
  matchesHomeType (valueOf ctl.homeType) listing &&
  matchesHousingType (valueOf ctl.housingType) listing &&
  matchesCampus (valueOf ctl.campus) listing &&
  matchesBeds (valueOf ctl.beds) listing &&
  matchesBaths (valueOf ctl.baths) listing

/-- The text columns the search reads are strings. -/
def Listing.TextPresent (listing : Listing) : Prop :=
  listing.address.isSome = true ∧ listing.postal_code.isSome = true ∧
    listing.title.isSome = true

/-- All six controls present and unset. -/
def noFilter : Controls :=
  ⟨some "", some "", some "", some "", some "", some ""⟩

/-- A sample listing with the given identifier, bedrooms and time of creation. -/
def sampleListing (id : Nat) (bedrooms : ℚ) (created : Int) : Listing :=
  { id := id, title := some "Studio A", listing_type := some "rent",
    housing_type := some "Apartment", campus := some "Keele",
    bedrooms := .num (.fin bedrooms), bathrooms := .num (.fin 1),
    address := some "4700 Keele St", postal_code := some "M3J 1P3",
    property_description := none, created_at := created }

/-- Five listings, two with four bedrooms and one with five. -/
def fiveListings : List Listing :=
  [sampleListing 1 4 50, sampleListing 2 2 40, sampleListing 3 5 30,
   sampleListing 4 1 20, sampleListing 5 4 10]

/-! ## Registration and login (`src/Database.js`, `src/app.js` lines 173-218) -/

/-- A row of the `users` table, without the columns the store sets itself
(`id`, `created_at`). -/
structure UserRow where
  full_name : String
  email : String
  password_hash : String
  deriving DecidableEq

/-- The credential hasher, `bcrypt`: `hash data rounds` is the result of
`bcrypt.hash(data, rounds)` (the salt is drawn by the library), and
`compare data hash` that of `bcrypt.compare(data, hash)`. -/
structure Hasher where
  hash : String → Nat → String
  compare : String → String → Bool

/-- The `users` table in insertion order with the identifiers, the next
generated identifier, and the storage layer's verdict on an insert and on a
lookup (`some e` when the query fails with `e`). -/
structure UserStore where
  users : List (Nat × UserRow)
  nextId : Nat
  insertFault : UserRow → Option DbError
  selectFault : String → Option DbError

/-- A call the auth pipeline makes to one of its two collaborators. -/
inductive AuthEffect where
  | hash (data : String) (rounds : Nat)
  | compare (data : String) (hash : String)
  | insertUser (row : UserRow)
  | selectUsers (email : String)
  deriving DecidableEq

/-- A value of the JSON body of an auth response; `user` is a row of the
`users` table as an object. -/
inductive AuthJson where
  | str (s : String)
  | bool (b : Bool)
  | num (n : Nat)
  | user (id : Nat) (row : UserRow)
  deriving DecidableEq

/-- A response of `/register` or `/login`. -/
structure AuthResponse where
  status : Nat
  body : List (String × AuthJson)
  deriving DecidableEq

/-- Result of running an auth handler. -/
structure AuthOutcome where
  response : AuthResponse
  store : UserStore
  trace : List AuthEffect

/-- Result of a call into `Database.js`: what it returns or throws, the
store afterwards and the calls it made. -/
structure AuthCall (α : Type) where
  result : Except JsError α
  store : UserStore
  trace : List AuthEffect

/-- The function `registerUser`: the password is hashed with cost 10, then
the row is inserted; the result carries the generated identifier. -/
def registerUser (hasher : Hasher) (full_name email password : String)
    (st : UserStore) : AuthCall Nat :=
  let password_hash := hasher.hash password 10
  let row : UserRow := ⟨full_name, email, password_hash⟩
  match st.insertFault row with
  | some e =>
    ⟨.error ⟨.database, some e.code, e.message⟩, st,
      [.hash password 10, .insertUser row]⟩
  | none =>
    ⟨.ok st.nextId,
      { st with users := st.users ++ [(st.nextId, row)], nextId := st.nextId + 1 },
      [.hash password 10, .insertUser row]⟩

/-- What `loginUser` returns. -/
inductive LoginResult where
  | failure (message : String)
  | success (id : Nat) (user : UserRow)
  deriving DecidableEq

/-- The function `loginUser`: the rows with the email are looked up; with no
row the result is `User not found`; otherwise the password is compared with
the hash of the last row, and the result is `Invalid password` or that row. -/
def loginUser (hasher : Hasher) (email password : String) (st : UserStore) :
    AuthCall LoginResult :=
  match st.selectFault email with
  | some e => ⟨.error ⟨.database, some e.code, e.message⟩, st, [.selectUsers email]⟩
  | none =>
    let rows := st.users.filter (fun u => u.2.email == email)
    match rows.getLast? with
    | none => ⟨.ok (.failure "User not found"), st, [.selectUsers email]⟩
    | some user =>
      let passwordMatch := hasher.compare password user.2.password_hash
      if !passwordMatch then
        ⟨.ok (.failure "Invalid password"), st,
          [.selectUsers email, .compare password user.2.password_hash]⟩
      else
        ⟨.ok (.success user.1 user.2), st,
          [.selectUsers email, .compare password user.2.password_hash]⟩

/-- The JSON body of `POST /register`; a field is `none` when its key is
missing (or null). -/
structure RegisterBody where
  full_name : Option String
  email : Option String
  password : Option String
  deriving DecidableEq

/-- The JSON body of `POST /login`. -/
structure LoginBody where
  email : Option String
  password : Option String
  deriving DecidableEq

/-- The test `!field` on a text field: true when it is missing or empty. -/
def isBlankField (field : Option String) : Bool :=
  match field with
  | some s => s == ""
  | none => true

/-- The handler of `POST /register`. -/
def postRegister (hasher : Hasher) (body : RegisterBody) (st : UserStore) : AuthOutcome :=
  if isBlankField body.full_name || isBlankField body.email || isBlankField body.password then
    ⟨⟨400, [("error", .str "All fields are required.")]⟩, st, []⟩
  else
    let call := registerUser hasher (body.full_name.getD "") (body.email.getD "")
      (body.password.getD "") st
    match call.result with
    | .ok insertId =>
      ⟨⟨201, [("success", .bool true), ("message", .str "Registration successful"),
              ("userId", .num insertId)]⟩, call.store, call.trace⟩
    | .error error =>
      if error.code = some "ER_DUP_ENTRY" then
        ⟨⟨409, [("error", .str "Registration failed"),
                ("details",
                  .str "Email already registered. Please use a different email or log in.")]⟩,
          call.store, call.trace⟩
      else
        ⟨⟨500, [("error", .str "Registration failed"), ("details", .str error.message)]⟩,
          call.store, call.trace⟩

/-- The expression `result.message || 'Invalid email or password'`. -/
def messageOr (message : String) : String :=
  if message == "" then "Invalid email or password" else message

/-- The handler of `POST /login`. -/
def postLogin (hasher : Hasher) (body : LoginBody) (st : UserStore) : AuthOutcome :=
  if isBlankField body.email || isBlankField body.password then
    ⟨⟨400, [("error", .str "Email and password are required.")]⟩, st, []⟩
  else
    let call := loginUser hasher (body.email.getD "") (body.password.getD "") st
    match call.result with
    | .ok (.failure message) =>
      ⟨⟨401, [("error", .str (messageOr message))]⟩, call.store, call.trace⟩
    | .ok (.success id user) =>
      ⟨⟨200, [("success", .bool true), ("message", .str "Login successful"),
              ("user", .user id user)]⟩, call.store, call.trace⟩
    | .error error =>
      ⟨⟨500, [("error", .str "Login failed"), ("details", .str error.message)]⟩,
        call.store, call.trace⟩

/-- The rows a lookup by email returns, in insertion order. -/
def UserStore.lookup (st : UserStore) (email : String) : List (Nat × UserRow) :=
  st.users.filter (fun u => u.2.email == email)

/-- A toy hasher for the samples: the hash is the reversed text with the
cost in front, and a text verifies against its own hash of cost 10. -/
def sampleHasher : Hasher :=
  ⟨fun data rounds => toString rounds ++ "$" ++ String.mk data.data.reverse,
   fun data hash => hash == "10$" ++ String.mk data.data.reverse⟩

/-- A store with two rows for the same email, the older with the password
`first`, the newer with the password `second`; it accepts every query. -/
def sampleUsers : UserStore :=
  ⟨[(1, ⟨"Sam Lee", "sam@example.com", "10$tsrif"⟩),
    (2, ⟨"Sam Lee", "sam@example.com", "10$dnoces"⟩)], 3, fun _ => none, fun _ => none⟩

/-- The sample store with a unique index on the email: an insert of an email
already present fails with `ER_DUP_ENTRY`. -/
def uniqueUsers : UserStore :=
  { sampleUsers with
    insertFault := fun row =>
      if row.email == "sam@example.com" then
        some ⟨"ER_DUP_ENTRY", "Duplicate entry for key users.email"⟩
      else none }

/-! ## The upload middleware in front of the handler -/

/-- A file part of an incoming multipart request: the name of its form
field, its declared content type, its original filename and its size in
bytes. -/
structure FilePart where
  fieldname : String
  mimetype : String
  originalname : String
  size : Nat
  deriving DecidableEq

/-- An incoming `POST /listings`: at most one file part, the text fields, and
the name the storage's `filename` callback assigns to the upload
(`Date.now()`, a random run and the original extension). -/
structure Incoming where
  file : Option FilePart
  body : Body
  assignedName : String

/-- The constant `limits.fileSize`, 5 MiB. -/
def fileSizeLimit : Nat :=
  5 * 1024 * 1024

/-- An error the middleware passes to `next`: the error of the file filter,
or a `MulterError` with its code. -/
inductive UploadError where
  | filterError (message : String)
  | multerError (code : String)
  deriving DecidableEq

/-- The middleware `upload.single('image_file')` with the disk storage and
the directory `uploadDir`.  Without a file part the request goes on with no
`req.file`, and so it does when the part has an empty filename, which the
middleware drains and ignores.  The filter sees the content type in lower
case, as the multipart parser reports it.  A file part under another field
name, one the filter rejects, and one larger than the limit end in an error
with no file left in the directory; otherwise the file is written under its
assigned name and `req.file` describes it. -/
def uploadSingle (uploadDir : String) (inc : Incoming) (w : World) :
    Except UploadError (Request × World) :=
  match inc.file with
  | none => .ok (⟨none, inc.body⟩, w)
  | some part =>
    if part.originalname = "" then .ok (⟨none, inc.body⟩, w)
    else if part.fieldname ≠ "image_file" then .error (.multerError "LIMIT_UNEXPECTED_FILE")
    else
      match fileFilter ⟨toLowerCase part.mimetype, part.originalname⟩ with
      | .reject message => .error (.filterError message)
      | .accept =>
        if part.size > fileSizeLimit then .error (.multerError "LIMIT_FILE_SIZE")
        else
          let path := uploadDir ++ "/" ++ inc.assignedName
          .ok (⟨some ⟨path, inc.assignedName⟩, inc.body⟩,
            { w with files := w.files ++ [path] })

/-- The default error handler of Express, which answers an error passed to
`next` when the application registers no error middleware: the status is
`err.status` when the error has one, 500 otherwise; neither error of the
upload middleware has one.  The HTML body is left out. -/
def defaultErrorHandler (_error : UploadError) : Response :=
  ⟨500, []⟩

/-- The route `app.post('/listings', upload.single('image_file'), handler)`:
the handler runs only when the middleware passes the request on. -/
def postListingsRoute (uploadDir : String) (inc : Incoming) (w : World) : Outcome :=
  match uploadSingle uploadDir inc w with
  | .error e => ⟨defaultErrorHandler e, w, []⟩
  | .ok (req, w1) => postListings req w1

/-- An upload of the complete form with the given file part. -/
def incomingWith (part : FilePart) : Incoming :=
  ⟨some part, Body.ofList sampleEntries, "1700000000001-q8w2e4r.bin"⟩

/-- A world with an empty upload directory, an empty table and a store that
accepts every insert. -/
def emptyWorld : World :=
  ⟨[], [], 1, fun _ => none⟩

/-! ## The client access gate (`src/script.js`) -/

/-- The session storage of the page: its keys with their values. -/
abbrev SessionStorage := List (String × String)

/-- The method `sessionStorage.getItem`: `none` for `null`. -/
def getItem (s : SessionStorage) (key : String) : Option String :=
  (s.find? (fun e => e.1 == key)).map Prod.snd

/-- The method `sessionStorage.removeItem`. -/
def removeItem (s : SessionStorage) (key : String) : SessionStorage :=
  s.filter (fun e => e.1 != key)

/-- The method `sessionStorage.setItem`. -/
def setItem (s : SessionStorage) (key value : String) : SessionStorage :=
  (key, value) :: removeItem s key

/-- The method `sessionStorage.clear`. -/
def clearStorage (_s : SessionStorage) : SessionStorage :=
  []

/-- What a handler of the page does besides writing the session storage. -/
inductive PageEffect where
  | alert (message : String) (type : String)
  | navigate (url : String)
  | preventDefault
  | revealForm
  | loadPropertyDetails
  deriving DecidableEq

/-- Result of running a handler of the page. -/
structure PageOutcome where
  session : SessionStorage
  effects : List PageEffect
  deriving DecidableEq

/-- The test `sessionStorage.getItem('isLoggedIn') === 'true'`. -/
def isLoggedIn (s : SessionStorage) : Bool :=
  getItem s "isLoggedIn" == some "true"

/-- The access check of the create-listing page (lines 487-499), run on page
load with `window.location.pathname`, `window.location.href` and whether the
element `listingFormContainer` exists. -/
def createListingAccess (pathname href : String) (hasContainer : Bool)
    (s : SessionStorage) : PageOutcome :=
  if includes pathname "create-listing.html" then
    if !isLoggedIn s then
      ⟨setItem s "redirectAfterLogin" href,
        [.alert "You need to log in to create a listing!" "warning", .navigate "login.html"]⟩
    else if hasContainer then ⟨s, [.revealForm]⟩
    else ⟨s, []⟩
  else ⟨s, []⟩

/-- The function `handleViewDetailsClick`, on the `href` of the clicked
button; without `preventDefault` the browser follows the link. -/
def handleViewDetailsClick (href : String) (s : SessionStorage) : PageOutcome :=
  if getItem s "isLoggedIn" != some "true" then
    ⟨setItem s "redirectAfterLogin" href,
      [.preventDefault, .alert "You need to log in to view property details." "warning",
       .navigate "login.html"]⟩
  else ⟨s, []⟩

/-- The access check of the property-detail page (lines 629-638). -/
def propertyDetailAccess (pathname href : String) (s : SessionStorage) : PageOutcome :=
  if includes pathname "property-detail.html" then
    if !isLoggedIn s then
      ⟨setItem s "redirectAfterLogin" href,
        [.alert "You need to log in to view property details." "warning",
         .navigate "login.html"]⟩
    else ⟨s, [.loadPropertyDetails]⟩
  else ⟨s, []⟩

/-- The parsed body of a `/login` reply, as far as the page reads it:
`res.ok`, `result.error`, and `result.user` with its name and email. -/
structure LoginReply where
  ok : Bool
  error : Option String
  user : Option (String × String)
  deriving DecidableEq

/-- What the `fetch` of the login form ends in: a rejection (network error,
or a body that is not JSON) with its message, or a reply. -/
inductive FetchResult where
  | rejected (message : String)
  | reply (r : LoginReply)
  deriving DecidableEq

/-- The expression `result.error || 'Login failed'`. -/
def errorOr (error : Option String) : String :=
  match error with
  | some e => if e == "" then "Login failed" else e
  | none => "Login failed"

/-- The submit handler of the login form (lines 351-403), from the outcome of
its validation and of its `fetch` on.  The flag is written right after the
`res.ok` test; a reply without `user` then throws into the `catch`. -/
def loginSubmit (isValid : Bool) (fetched : FetchResult) (s : SessionStorage) :
    PageOutcome :=
  if !isValid then
    ⟨s, [.preventDefault, .alert "Please fill in both email and password." "danger"]⟩
  else
    match fetched with
    | .rejected message =>
      ⟨s, [.preventDefault, .alert ("Error: " ++ message) "danger"]⟩
    | .reply r =>
      if !r.ok then
        ⟨s, [.preventDefault, .alert ("Error: " ++ errorOr r.error) "danger"]⟩
      else
        let s1 := setItem s "isLoggedIn" "true"
        match r.user with
        | none =>
          ⟨s1, [.preventDefault,
            .alert "Error: Cannot read properties of undefined (reading 'full_name')" "danger"]⟩
        | some user =>
          let s2 := setItem s1 "userName" user.1
          let s3 := setItem s2 "userEmail" user.2
          let welcome := PageEffect.alert ("Welcome back, " ++ user.1 ++ "!") "success"
          match getItem s3 "redirectAfterLogin" with
          | some redirect =>
            if redirect != "" then
              ⟨removeItem s3 "redirectAfterLogin",
                [.preventDefault, welcome, .navigate redirect]⟩
            else ⟨s3, [.preventDefault, welcome, .navigate "index.html"]⟩
          | none => ⟨s3, [.preventDefault, welcome, .navigate "index.html"]⟩

/-- The click handler of the logout button (lines 101-109). -/
def logoutClick (s : SessionStorage) : PageOutcome :=
  ⟨clearStorage s, [.alert "You have been logged out." "info", .navigate "login.html"]⟩

/-- The handlers of the script that write the session storage or gate a
page, each with its inputs. -/
inductive PageAction where
  | createListingLoad (pathname href : String) (hasContainer : Bool)
  | propertyDetailLoad (pathname href : String)
  | viewDetailsClick (href : String)
  | loginFormSubmit (isValid : Bool) (fetched : FetchResult)
  | logout
  deriving DecidableEq

/-- Running a handler. -/
def runAction (a : PageAction) (s : SessionStorage) : PageOutcome :=
  match a with
  | .createListingLoad pathname href hasContainer =>
    createListingAccess pathname href hasContainer s
  | .propertyDetailLoad pathname href => propertyDetailAccess pathname href s
  | .viewDetailsClick href => handleViewDetailsClick href s
  | .loginFormSubmit isValid fetched => loginSubmit isValid fetched s
  | .logout => logoutClick s

/-- The session of a visitor who was sent to the login page from a detail
page. -/
def guestSession : SessionStorage :=
  [("redirectAfterLogin", "http://localhost/property-detail.html?id=7")]

/-! ## Lemmas on the string helpers -/

theorem trimEnd_eq_nil_iff (cs : List Char) :
    trimEnd cs = [] ↔ ∀ c ∈ cs, isStrWhiteSpace c = true := by
  simp [trimEnd, List.dropWhile_eq_nil_iff]

theorem trimStart_all_iff (cs : List Char) :
    (∀ c ∈ trimStart cs, isStrWhiteSpace c = true) ↔ ∀ c ∈ cs, isStrWhiteSpace c = true := by
  induction cs with
  | nil => simp [trimStart]
  | cons a t ih =>
    by_cases ha : isStrWhiteSpace a = true
    · have : trimStart (a :: t) = trimStart t := by simp [trimStart, List.dropWhile, ha]
      rw [this, ih]
      simp [ha]
    · have : trimStart (a :: t) = a :: t := by simp [trimStart, List.dropWhile, ha]
      rw [this]

/-- A string trims to the empty string exactly when all its characters are
white space. -/
theorem jsTrim_eq_empty_iff (s : String) :
    jsTrim s = "" ↔ ∀ c ∈ s.data, isStrWhiteSpace c = true := by
  have h : jsTrim s = "" ↔ trimEnd (trimStart s.data) = [] := by
    constructor
    · intro h; simpa [jsTrim] using congrArg String.data h
    · intro h; simp [jsTrim, h]
  rw [h, trimEnd_eq_nil_iff, trimStart_all_iff]

/-- The predicate of the required-field gate, spelled out. -/
theorem isMissing_iff (v : JsValue) :
    isMissing v = true ↔ v = .undefined ∨ ∃ s, v = .str s ∧ jsTrim s = "" := by
  cases v <;> simp [isMissing]

/-! ## The handler, gate by gate -/

theorem postListings_no_file (req : Request) (w : World) (h : req.file = none) :
    postListings req w = ⟨⟨400, [("error", .str noFileMessage)]⟩, w, []⟩ := by
  simp [postListings, tryBlock, h]

theorem postListings_missing (req : Request) (w : World) (file : StagedFile)
    (h : req.file = some file) (hm : missingFields req.body ≠ []) :
    postListings req w =
      ⟨⟨400, [("error", .str (missingFieldsMessage (missingFields req.body)))]⟩,
        unlinkCaught file.path w, [.unlink file.path]⟩ := by
  have hlen : (missingFields req.body).length > 0 := List.length_pos.mpr hm
  simp [postListings, tryBlock, h, hlen]

theorem postListings_coerce_throws (req : Request) (w : World) (file : StagedFile)
    (e : JsError) (h : req.file = some file) (hm : missingFields req.body = [])
    (hc : coerceNumerics req.body = .error e) :
    postListings req w = catchBlock req ⟨e, w, []⟩ := by
  simp [postListings, tryBlock, h, hm, hc]

theorem postListings_nan (req : Request) (w : World) (file : StagedFile)
    (n : Numerics) (h : req.file = some file) (hm : missingFields req.body = [])
    (hc : coerceNumerics req.body = .ok n) (hn : n.anyNaN = true) :
    postListings req w =
      ⟨⟨400, [("error", .str invalidNumericMessage)]⟩,
        unlinkCaught file.path w, [.unlink file.path]⟩ := by
  simp [postListings, tryBlock, h, hm, hc, hn]

theorem postListings_insert_fails (req : Request) (w : World) (file : StagedFile)
    (n : Numerics) (e : DbError) (h : req.file = some file)
    (hm : missingFields req.body = [])
    (hc : coerceNumerics req.body = .ok n) (hn : n.anyNaN = false)
    (hf : w.insertFault (rowOf req.body (imageUrlOf file) n) = some e) :
    postListings req w =
      ⟨⟨500, [("error", .str "Internal server error during listing creation"),
              ("details", .str e.message)]⟩,
        unlinkCaught file.path w,
        [.insert (rowOf req.body (imageUrlOf file) n), .unlink file.path]⟩ := by
  unfold rowOf at hf
  simp [postListings, tryBlock, catchBlock, createNote, rowOf, h, hm, hc, hn, hf]

theorem postListings_success (req : Request) (w : World) (file : StagedFile)
    (n : Numerics) (h : req.file = some file) (hm : missingFields req.body = [])
    (hc : coerceNumerics req.body = .ok n) (hn : n.anyNaN = false)
    (hf : w.insertFault (rowOf req.body (imageUrlOf file) n) = none) :
    postListings req w =
      ⟨⟨201, [("success", .bool true), ("message", .str "Listing created successfully"),
              ("listingId", .num w.nextId), ("imageUrl", .str (imageUrlOf file))]⟩,
        { w with
          listings := w.listings ++ [(w.nextId, rowOf req.body (imageUrlOf file) n)]
          nextId := w.nextId + 1 },
        [.insert (rowOf req.body (imageUrlOf file) n)]⟩ := by
  unfold rowOf at hf
  simp [postListings, tryBlock, createNote, rowOf, h, hm, hc, hn, hf]

theorem unlinkCaught_not_mem (path : String) (w : World) :
    path ∉ (unlinkCaught path w).files := by
  unfold unlinkCaught unlink
  by_cases h : path ∈ w.files
  · simp [h]
  · simp [h]

theorem unlinkCaught_listings (path : String) (w : World) :
    (unlinkCaught path w).listings = w.listings := by
  unfold unlinkCaught unlink
  by_cases h : path ∈ w.files <;> simp [h]

/-! ## The required-field gate -/

/-- C1. With a staged file, the missing-field list is the sub-list of the
fourteen required names, in their fixed order, made of exactly the fields
whose value is absent or a string that trims to the empty string; when it is
not empty the response is 400 and its error text lists all of them, joined by
a comma and a blank. -/
theorem missing_fields_listed (req : Request) (w : World) (file : StagedFile)
    (hfile : req.file = some file) :
    requiredFields =
        ["title", "listing_type", "housing_type", "campus", "bedrooms", "bathrooms",
         "square_footage", "address", "postal_code", "property_description", "price",
         "agent_name", "agent_email", "agent_phone"] ∧
      (missingFields req.body).Sublist requiredFields ∧
      (∀ field, field ∈ missingFields req.body ↔
        field ∈ requiredFields ∧
          (req.body field = .undefined ∨ ∃ s, req.body field = .str s ∧ jsTrim s = "")) ∧
      (missingFields req.body ≠ [] →
        (postListings req w).response =
          ⟨400, [("error", .str ("Missing or empty required fields: " ++
              ", ".intercalate (missingFields req.body)))]⟩) := by
  refine ⟨rfl, List.filter_sublist _, ?_, ?_⟩
  · intro field
    simp only [missingFields, List.mem_filter, isMissing_iff]
  · intro hm
    rw [postListings_missing req w file hfile hm]
    rfl

/-- C1 at a form whose title is blank and whose price and agent phone are
absent. -/
theorem missing_fields_listed_witness :
    (requestOf [("title", .str " \t "), ("listing_type", .str "rent"),
        ("housing_type", .str "apartment"), ("campus", .str "Keele"),
        ("bedrooms", .str "x"), ("bathrooms", .str "1"),
        ("square_footage", .str "400"), ("address", .str "4700 Keele St"),
        ("postal_code", .str "M3J 1P3"), ("property_description", .str "Bright"),
        ("agent_name", .str "Sam Lee"), ("agent_email", .str "sam@example.com")]).file
        = some sampleFile ∧
      (postListings
        (requestOf [("title", .str " \t "), ("listing_type", .str "rent"),
          ("housing_type", .str "apartment"), ("campus", .str "Keele"),
          ("bedrooms", .str "x"), ("bathrooms", .str "1"),
          ("square_footage", .str "400"), ("address", .str "4700 Keele St"),
          ("postal_code", .str "M3J 1P3"), ("property_description", .str "Bright"),
          ("agent_name", .str "Sam Lee"), ("agent_email", .str "sam@example.com")])
        sampleWorld).response =
        ⟨400, [("error",
          .str "Missing or empty required fields: title, price, agent_phone")]⟩ := by
  refine ⟨rfl, ?_⟩
  rw [(missing_fields_listed _ sampleWorld sampleFile rfl).2.2.2 (by decide)]
  decide

/-- C2. With a staged file and at least one required field missing or blank,
the handler issues no insert and exactly one effect, the deletion of the
staged file; afterwards the table is as before and the staged file is not in
the upload directory. -/
theorem missing_fields_rollback (req : Request) (w : World) (file : StagedFile)
    (hfile : req.file = some file) (hm : missingFields req.body ≠ []) :
    (postListings req w).trace = [.unlink file.path] ∧
      (∀ row, Effect.insert row ∉ (postListings req w).trace) ∧
      (postListings req w).world.listings = w.listings ∧
      file.path ∉ (postListings req w).world.files := by
  rw [postListings_missing req w file hfile hm]
  refine ⟨rfl, ?_, unlinkCaught_listings _ _, unlinkCaught_not_mem _ _⟩
  intro row
  simp

/-- C2 at a form without a title, on a world that holds the staged file. -/
theorem missing_fields_rollback_witness :
    sampleFile.path ∈ sampleWorld.files ∧
      (postListings (sampleRequest [("title", .str "")]) sampleWorld).trace
        = [.unlink sampleFile.path] ∧
      (postListings (sampleRequest [("title", .str "")]) sampleWorld).world.listings = [] ∧
      sampleFile.path ∉
        (postListings (sampleRequest [("title", .str "")]) sampleWorld).world.files := by
  have h := missing_fields_rollback (sampleRequest [("title", .str "")]) sampleWorld
    sampleFile rfl (by decide)
  exact ⟨by decide, h.1, h.2.2.1, h.2.2.2⟩

/-! ## The numeric gate -/

theorem coerceNumerics_ok (body : Body) (sb sba ssq sp : String)
    (hb : toStringValue (body "bedrooms") = .ok sb)
    (hba : toStringValue (body "bathrooms") = .ok sba)
    (hsq : toStringValue (body "square_footage") = .ok ssq)
    (hp : toStringValue (body "price") = .ok sp) :
    coerceNumerics body = .ok ⟨parseInt sb, parseFloat sba, parseInt ssq, parseFloat sp⟩ := by
  simp [coerceNumerics, parseIntValue, parseFloatValue, hb, hba, hsq, hp, bind, Except.bind,
    Except.map, pure, Except.pure]

theorem coerceNumerics_inv (body : Body) (n : Numerics) (h : coerceNumerics body = .ok n) :
    ∃ sb sba ssq sp,
      toStringValue (body "bedrooms") = .ok sb ∧
      toStringValue (body "bathrooms") = .ok sba ∧
      toStringValue (body "square_footage") = .ok ssq ∧
      toStringValue (body "price") = .ok sp ∧
      n = ⟨parseInt sb, parseFloat sba, parseInt ssq, parseFloat sp⟩ := by
  unfold coerceNumerics parseIntValue parseFloatValue at h
  cases hb : toStringValue (body "bedrooms") with
  | error e => simp [hb, bind, Except.bind, Except.map] at h
  | ok sb =>
    cases hba : toStringValue (body "bathrooms") with
    | error e => simp [hb, hba, bind, Except.bind, Except.map] at h
    | ok sba =>
      cases hsq : toStringValue (body "square_footage") with
      | error e => simp [hb, hba, hsq, bind, Except.bind, Except.map] at h
      | ok ssq =>
        cases hp : toStringValue (body "price") with
        | error e => simp [hb, hba, hsq, hp, bind, Except.bind, Except.map] at h
        | ok sp =>
          simp [hb, hba, hsq, hp, bind, Except.bind, Except.map, pure, Except.pure] at h
          exact ⟨sb, sba, ssq, sp, rfl, rfl, rfl, rfl, h.symm⟩

theorem toStringValue_error_kind (v : JsValue) (e : JsError)
    (h : toStringValue v = .error e) : e.kind = .typeError := by
  cases v with
  | undefined => simp [toStringValue] at h
  | str s => simp [toStringValue] at h
  | other o =>
    cases o with
    | none => simp [toStringValue] at h; rw [← h]
    | some s => simp [toStringValue] at h

theorem coerceNumerics_error_kind (body : Body) (e : JsError)
    (h : coerceNumerics body = .error e) : e.kind = .typeError := by
  unfold coerceNumerics parseIntValue parseFloatValue at h
  cases hb : toStringValue (body "bedrooms") with
  | error e1 =>
    simp [hb, bind, Except.bind, Except.map] at h
    exact h ▸ toStringValue_error_kind _ _ hb
  | ok sb =>
    cases hba : toStringValue (body "bathrooms") with
    | error e1 =>
      simp [hb, hba, bind, Except.bind, Except.map] at h
      exact h ▸ toStringValue_error_kind _ _ hba
    | ok sba =>
      cases hsq : toStringValue (body "square_footage") with
      | error e1 =>
        simp [hb, hba, hsq, bind, Except.bind, Except.map] at h
        exact h ▸ toStringValue_error_kind _ _ hsq
      | ok ssq =>
        cases hp : toStringValue (body "price") with
        | error e1 =>
          simp [hb, hba, hsq, hp, bind, Except.bind, Except.map] at h
          exact h ▸ toStringValue_error_kind _ _ hp
        | ok sp =>
          simp [hb, hba, hsq, hp, bind, Except.bind, Except.map, pure, Except.pure] at h

theorem isNaN_iff (x : JsNumber) : x.isNaN = true ↔ x = .nan := by
  cases x <;> simp [JsNumber.isNaN]

theorem anyNaN_iff (n : Numerics) :
    n.anyNaN = true ↔
      n.bedrooms = .nan ∨ n.bathrooms = .nan ∨ n.square_footage = .nan ∨ n.price = .nan := by
  simp [Numerics.anyNaN, isNaN_iff, or_assoc]

/-- C3, as stated, fails: a form whose bedrooms text is `3abc` (not an
integer numeral) passes the numeric gate; the response is 201 and a row with
bedrooms 3 is inserted. -/
theorem invalid_numeric_counterexample :
    (sampleRequest [("bedrooms", .str "3abc")]).file = some sampleFile ∧
      missingFields (sampleRequest [("bedrooms", .str "3abc")]).body = [] ∧
      (sampleRequest [("bedrooms", .str "3abc")]).body "bedrooms" = .str "3abc" ∧
      integerValue? "3abc" = none ∧
      (postListings (sampleRequest [("bedrooms", .str "3abc")]) sampleWorld).response.status
        = 201 ∧
      (postListings (sampleRequest [("bedrooms", .str "3abc")]) sampleWorld).trace =
        [.insert (rowOf (sampleRequest [("bedrooms", .str "3abc")]).body
          "/uploads/1700000000000-k3j9x2a.jpg" ⟨.fin 3, .fin (mkRat 3 2), .fin 400, .fin 900⟩)] := by
  refine ⟨rfl, by decide, by decide, by decide, by decide, by decide⟩

/-- C3, amended. With a staged file and no required field missing, if the
four numeric fields convert to strings and `parseInt` of bedrooms or of
square_footage, or `parseFloat` of bathrooms or of price, is `NaN`, then the
response is the 400 of the numeric gate, no insert is issued, and the staged
file is deleted. -/
theorem invalid_numeric_rejected (req : Request) (w : World) (file : StagedFile)
    (sb sba ssq sp : String)
    (hfile : req.file = some file) (hm : missingFields req.body = [])
    (hb : toStringValue (req.body "bedrooms") = .ok sb)
    (hba : toStringValue (req.body "bathrooms") = .ok sba)
    (hsq : toStringValue (req.body "square_footage") = .ok ssq)
    (hp : toStringValue (req.body "price") = .ok sp)
    (hnan : parseInt sb = .nan ∨ parseFloat sba = .nan ∨ parseInt ssq = .nan ∨
      parseFloat sp = .nan) :
    (postListings req w).response =
        ⟨400, [("error",
          .str "Invalid numeric value for bedrooms, bathrooms, square footage, or price.")]⟩ ∧
      (postListings req w).trace = [.unlink file.path] ∧
      (∀ row, Effect.insert row ∉ (postListings req w).trace) ∧
      (postListings req w).world.listings = w.listings ∧
      file.path ∉ (postListings req w).world.files := by
  have hc := coerceNumerics_ok req.body sb sba ssq sp hb hba hsq hp
  have hn : (Numerics.mk (parseInt sb) (parseFloat sba) (parseInt ssq) (parseFloat sp)).anyNaN
      = true := (anyNaN_iff _).mpr hnan
  rw [postListings_nan req w file _ hfile hm hc hn]
  refine ⟨rfl, rfl, ?_, unlinkCaught_listings _ _, unlinkCaught_not_mem _ _⟩
  intro row
  simp

/-- C3, amended, at a form whose price is the text `cheap`. -/
theorem invalid_numeric_rejected_witness :
    parseFloat "cheap" = .nan ∧
      (postListings (sampleRequest [("price", .str "cheap")]) sampleWorld).response.status
        = 400 ∧
      (postListings (sampleRequest [("price", .str "cheap")]) sampleWorld).trace
        = [.unlink sampleFile.path] ∧
      sampleFile.path ∉
        (postListings (sampleRequest [("price", .str "cheap")]) sampleWorld).world.files := by
  have h := invalid_numeric_rejected (sampleRequest [("price", .str "cheap")]) sampleWorld
    sampleFile "1" "1.5" "400" "cheap" rfl (by decide) (by decide) (by decide) (by decide)
    (by decide) (by decide)
  exact ⟨by decide, by rw [h.1], h.2.1, h.2.2.2.2⟩

/-! ## Persistence failure and success -/

/-- C4. When the file, required-field and numeric gates pass and the insert
fails, the response is 500 with an error text and the storage error's
message as details, it carries no listing identifier, the insert was issued
before the one deletion of the staged file, the table is as before and the
staged file is gone. -/
theorem persistence_failure_rollback (req : Request) (w : World) (file : StagedFile)
    (n : Numerics) (e : DbError)
    (hfile : req.file = some file) (hm : missingFields req.body = [])
    (hc : coerceNumerics req.body = .ok n) (hn : n.anyNaN = false)
    (hf : w.insertFault (rowOf req.body (imageUrlOf file) n) = some e) :
    (postListings req w).response =
        ⟨500, [("error", .str "Internal server error during listing creation"),
               ("details", .str e.message)]⟩ ∧
      (∀ v, ("listingId", v) ∉ (postListings req w).response.body) ∧
      (postListings req w).trace =
        [.insert (rowOf req.body (imageUrlOf file) n), .unlink file.path] ∧
      (postListings req w).world.listings = w.listings ∧
      file.path ∉ (postListings req w).world.files := by
  rw [postListings_insert_fails req w file n e hfile hm hc hn hf]
  refine ⟨rfl, ?_, rfl, unlinkCaught_listings _ _, unlinkCaught_not_mem _ _⟩
  intro v
  simp

/-- C4 at the complete form on a store that refuses every insert. -/
theorem persistence_failure_rollback_witness :
    coerceNumerics (sampleRequest []).body = .ok ⟨.fin 1, .fin (mkRat 3 2), .fin 400, .fin 900⟩ ∧
      (postListings (sampleRequest []) failingWorld).response =
        ⟨500, [("error", .str "Internal server error during listing creation"),
               ("details", .str "Data too long for column")]⟩ ∧
      (postListings (sampleRequest []) failingWorld).world.listings = [] ∧
      sampleFile.path ∉ (postListings (sampleRequest []) failingWorld).world.files := by
  have h := persistence_failure_rollback (sampleRequest []) failingWorld sampleFile
    ⟨.fin 1, .fin (mkRat 3 2), .fin 400, .fin 900⟩ ⟨"ER_DATA_TOO_LONG", "Data too long for column"⟩
    rfl (by decide) (by decide) (by decide) rfl
  exact ⟨by decide, h.1, h.2.2.2.1, h.2.2.2.2⟩

/-- C5. When all gates pass and the insert succeeds, the response is 201 with
success true, the generated identifier as listingId and `/uploads/` followed
by the staged filename as imageUrl; the one effect is the insert of one row,
whose image path is that imageUrl; the table grows by exactly that row under
the generated identifier, and the upload directory is untouched. -/
theorem listing_created (req : Request) (w : World) (file : StagedFile)
    (n : Numerics)
    (hfile : req.file = some file) (hm : missingFields req.body = [])
    (hc : coerceNumerics req.body = .ok n) (hn : n.anyNaN = false)
    (hf : w.insertFault (rowOf req.body (imageUrlOf file) n) = none) :
    (postListings req w).response =
        ⟨201, [("success", .bool true), ("message", .str "Listing created successfully"),
               ("listingId", .num w.nextId),
               ("imageUrl", .str ("/uploads/" ++ file.filename))]⟩ ∧
      (∃ row, (postListings req w).trace = [.insert row] ∧
        row.image_url = "/uploads/" ++ file.filename ∧
        (postListings req w).world.listings = w.listings ++ [(w.nextId, row)]) ∧
      (∀ p, Effect.unlink p ∉ (postListings req w).trace) ∧
      (postListings req w).world.files = w.files := by
  rw [postListings_success req w file n hfile hm hc hn hf]
  refine ⟨rfl, ⟨_, rfl, rfl, rfl⟩, ?_, rfl⟩
  intro p
  simp

/-- C5 at the complete form on a store that accepts it. -/
theorem listing_created_witness :
    (postListings (sampleRequest []) sampleWorld).response =
        ⟨201, [("success", .bool true), ("message", .str "Listing created successfully"),
               ("listingId", .num 1),
               ("imageUrl", .str "/uploads/1700000000000-k3j9x2a.jpg")]⟩ ∧
      (postListings (sampleRequest []) sampleWorld).world.files = [sampleFile.path] := by
  have h := listing_created (sampleRequest []) sampleWorld sampleFile
    ⟨.fin 1, .fin (mkRat 3 2), .fin 400, .fin 900⟩ rfl (by decide) (by decide) (by decide) rfl
  exact ⟨h.1.trans (by decide), h.2.2.2⟩

/-! ## The file presence gate -/

/-- C6. Without an uploaded file the response is 400 whatever the form
fields are, no effect is issued (no insert, no deletion), and the world, its
upload directory included, is as before. -/
theorem no_file_rejected (req : Request) (w : World) (hfile : req.file = none) :
    (postListings req w).response.status = 400 ∧
      (postListings req w).response.body = [("error", .str noFileMessage)] ∧
      (postListings req w).trace = [] ∧
      (postListings req w).world = w := by
  rw [postListings_no_file req w hfile]
  exact ⟨rfl, rfl, rfl, rfl⟩

/-- C6 at a complete form that comes without a file. -/
theorem no_file_rejected_witness :
    (postListings ⟨none, Body.ofList sampleEntries⟩ sampleWorld).response.status = 400 ∧
      (postListings ⟨none, Body.ofList sampleEntries⟩ sampleWorld).trace = [] ∧
      (postListings ⟨none, Body.ofList sampleEntries⟩ sampleWorld).world.files
        = [sampleFile.path] := by
  have h := no_file_rejected ⟨none, Body.ofList sampleEntries⟩ sampleWorld rfl
  exact ⟨h.1, h.2.2.1, by rw [h.2.2.2]; rfl⟩

/-! ## The file filter -/

theorem fileFilter_accepts_allowed (file : UploadFile)
    (hm : file.mimetype ∈ allowedMimeTypes)
    (he : toLowerCase (extname file.originalname) ∈ allowedExtensions) :
    fileFilter file = .accept := by
  have h1 : filetypesTest file.mimetype = true := by
    simp only [allowedMimeTypes, List.mem_cons, List.mem_singleton, List.not_mem_nil,
      or_false] at hm
    rcases hm with h | h | h | h <;> rw [h] <;> decide
  have h2 : filetypesTest (toLowerCase (extname file.originalname)) = true := by
    simp only [allowedExtensions, List.mem_cons, List.mem_singleton, List.not_mem_nil,
      or_false] at he
    rcases he with h | h | h | h <;> rw [h] <;> decide
  simp [fileFilter, h1, h2]

/-- C7 fails on the code: the filter accepts the file `notes.pngx` declared
as `image/png`, whose extension `.pngx` is none of `.jpeg`, `.jpg`, `.png`,
`.gif`, and the file `a.gif` declared as `application/x-gifsicle`, whose
content type is none of the image types: the pattern is matched anywhere in
the text, not against the whole of it. -/
theorem file_filter_accepts_other_types :
    fileFilter ⟨"image/png", "notes.pngx"⟩ = .accept ∧
      toLowerCase (extname "notes.pngx") = ".pngx" ∧
      ".pngx" ∉ allowedExtensions ∧
      fileFilter ⟨"application/x-gifsicle", "a.gif"⟩ = .accept ∧
      "application/x-gifsicle" ∉ allowedMimeTypes := by
  refine ⟨by decide, by decide, by decide, by decide, by decide⟩

/-! ## Effects of the handler -/

theorem catchBlock_typeError (req : Request) (file : StagedFile) (t : Thrown)
    (hfile : req.file = some file) (hk : t.error.kind = .typeError) :
    catchBlock req t =
      ⟨⟨500, [("error", .str "Internal server error during listing creation"),
              ("details", .str t.error.message)]⟩,
        unlinkCaught file.path t.world, t.trace ++ [.unlink file.path]⟩ := by
  simp [catchBlock, hfile, hk]

/-- The five exits of the handler. -/
theorem postListings_cases (req : Request) (w : World) :
    (req.file = none ∧
      postListings req w = ⟨⟨400, [("error", .str noFileMessage)]⟩, w, []⟩) ∨
    (∃ file, req.file = some file ∧ missingFields req.body ≠ [] ∧
      postListings req w =
        ⟨⟨400, [("error", .str (missingFieldsMessage (missingFields req.body)))]⟩,
          unlinkCaught file.path w, [.unlink file.path]⟩) ∨
    (∃ file e, req.file = some file ∧ missingFields req.body = [] ∧
      coerceNumerics req.body = .error e ∧
      postListings req w =
        ⟨⟨500, [("error", .str "Internal server error during listing creation"),
                ("details", .str e.message)]⟩,
          unlinkCaught file.path w, [.unlink file.path]⟩) ∨
    (∃ file n, req.file = some file ∧ missingFields req.body = [] ∧
      coerceNumerics req.body = .ok n ∧ n.anyNaN = true ∧
      postListings req w =
        ⟨⟨400, [("error", .str invalidNumericMessage)]⟩,
          unlinkCaught file.path w, [.unlink file.path]⟩) ∨
    (∃ file n e, req.file = some file ∧ missingFields req.body = [] ∧
      coerceNumerics req.body = .ok n ∧ n.anyNaN = false ∧
      w.insertFault (rowOf req.body (imageUrlOf file) n) = some e ∧
      postListings req w =
        ⟨⟨500, [("error", .str "Internal server error during listing creation"),
                ("details", .str e.message)]⟩,
          unlinkCaught file.path w,
          [.insert (rowOf req.body (imageUrlOf file) n), .unlink file.path]⟩) ∨
    (∃ file n, req.file = some file ∧ missingFields req.body = [] ∧
      coerceNumerics req.body = .ok n ∧ n.anyNaN = false ∧
      w.insertFault (rowOf req.body (imageUrlOf file) n) = none ∧
      postListings req w =
        ⟨⟨201, [("success", .bool true), ("message", .str "Listing created successfully"),
                ("listingId", .num w.nextId), ("imageUrl", .str (imageUrlOf file))]⟩,
          { w with
            listings := w.listings ++ [(w.nextId, rowOf req.body (imageUrlOf file) n)]
            nextId := w.nextId + 1 },
          [.insert (rowOf req.body (imageUrlOf file) n)]⟩) := by
  cases hfile : req.file with
  | none => exact Or.inl ⟨rfl, postListings_no_file req w hfile⟩
  | some file =>
    right
    by_cases hm : missingFields req.body = []
    · right
      cases hc : coerceNumerics req.body with
      | error e =>
        left
        refine ⟨file, e, rfl, hm, rfl, ?_⟩
        rw [postListings_coerce_throws req w file e hfile hm hc,
          catchBlock_typeError req file _ hfile (coerceNumerics_error_kind _ _ hc)]
        rfl
      | ok n =>
        right
        cases hn : n.anyNaN with
        | true => exact Or.inl ⟨file, n, rfl, hm, rfl, hn, postListings_nan req w file n hfile hm hc hn⟩
        | false =>
          right
          cases hf : w.insertFault (rowOf req.body (imageUrlOf file) n) with
          | some e =>
            exact Or.inl ⟨file, n, e, rfl, hm, rfl, hn, hf,
              postListings_insert_fails req w file n e hfile hm hc hn hf⟩
          | none =>
            exact Or.inr ⟨file, n, rfl, hm, rfl, hn, hf,
              postListings_success req w file n hfile hm hc hn hf⟩
    · exact Or.inl ⟨file, rfl, hm, postListings_missing req w file hfile hm⟩

/-- C8. Every run of the handler issues at most one deletion and at most one
insert; it issues an insert exactly when a file is present, no required field
is missing and the numeric gate passes; a deletion is issued only for a
request with a staged file whose response is 400 or 500, and never when the
response is 201. -/
theorem effects_bounded (req : Request) (w : World) :
    ((postListings req w).trace.filter Effect.isUnlink).length ≤ 1 ∧
      ((postListings req w).trace.filter Effect.isInsert).length ≤ 1 ∧
      ((∃ row, Effect.insert row ∈ (postListings req w).trace) ↔
        (req.file ≠ none ∧ missingFields req.body = [] ∧ NumericGatePasses req.body)) ∧
      (∀ p, Effect.unlink p ∈ (postListings req w).trace →
        req.file ≠ none ∧
          ((postListings req w).response.status = 400 ∨
            (postListings req w).response.status = 500)) ∧
      ((postListings req w).response.status = 201 →
        ∀ p, Effect.unlink p ∉ (postListings req w).trace) := by
  rcases postListings_cases req w with
    ⟨hfile, h⟩ | ⟨file, hfile, hm, h⟩ | ⟨file, e, hfile, hm, hc, h⟩ |
    ⟨file, n, hfile, hm, hc, hn, h⟩ | ⟨file, n, e, hfile, hm, hc, hn, hf, h⟩ |
    ⟨file, n, hfile, hm, hc, hn, hf, h⟩
  · rw [h]; simp [hfile, Effect.isUnlink, Effect.isInsert]
  · rw [h]; simp [hfile, hm, Effect.isUnlink, Effect.isInsert]
  · rw [h]; simp [hfile, hm, hc, NumericGatePasses, Effect.isUnlink, Effect.isInsert]
  · rw [h]; simp [hfile, hm, hc, hn, NumericGatePasses, Effect.isUnlink, Effect.isInsert]
  · rw [h]; simp [hfile, hm, hc, hn, NumericGatePasses, Effect.isUnlink, Effect.isInsert]
  · rw [h]; simp [hfile, hm, hc, hn, NumericGatePasses, Effect.isUnlink, Effect.isInsert]

/-! ## What the parsers return -/

theorem bitLengthAux_le_iff (fuel : Nat) : ∀ n b : Nat, n ≤ fuel →
    (bitLengthAux fuel n ≤ b ↔ n < 2 ^ b) := by
  induction fuel with
  | zero =>
    intro n b h
    have hn : n = 0 := by omega
    subst hn
    simp [bitLengthAux]
  | succ fuel ih =>
    intro n b h
    unfold bitLengthAux
    by_cases hn : n = 0
    · subst hn; simp
    · rw [if_neg hn]
      cases b with
      | zero => simp; omega
      | succ b =>
        have h2 : n / 2 ≤ fuel := by omega
        rw [Nat.add_le_add_iff_right, ih (n / 2) b h2, pow_succ]
        omega

theorem bitLength_le_iff (n b : Nat) : bitLength n ≤ b ↔ n < 2 ^ b :=
  bitLengthAux_le_iff n n b le_rfl

theorem bitLength_two_pow (j : Nat) : bitLength (2 ^ j) = j + 1 := by
  have h1 : bitLength (2 ^ j) ≤ j + 1 :=
    (bitLength_le_iff _ _).mpr (Nat.pow_lt_pow_right (by norm_num) (Nat.lt_succ_self j))
  have h2 : ¬ bitLength (2 ^ j) ≤ j := fun h => lt_irrefl _ ((bitLength_le_iff _ _).mp h)
  omega

theorem binaryExponent_le (n d : Nat) :
    binaryExponent n d ≤ (bitLength n : Int) - (bitLength d : Int) := by
  unfold binaryExponent
  simp only
  split <;> omega

theorem roundHalfEven_of_dvd (n d : Nat) (hd : 0 < d) (h : d ∣ n) :
    roundHalfEven n d = n / d := by
  unfold roundHalfEven
  have h0 : n % d = 0 := Nat.mod_eq_zero_of_dvd h
  rw [h0]
  have : ¬ (d < 2 * 0 ∨ (2 * 0 = d ∧ n / d % 2 = 1)) := by omega
  rw [if_neg this]

theorem roundToDouble_ne_nan (q : ℚ) : roundToDouble q ≠ .nan := by
  unfold roundToDouble roundScaled
  simp only
  split
  · simp
  · split
    · split <;> simp
    · simp

theorem signFactor_mul_natAbs (z : ℤ) : signFactor (decide (z < 0)) * (z.natAbs : ℤ) = z := by
  unfold signFactor
  by_cases h : z < 0
  · simp only [h, decide_True, if_true]; omega
  · simp only [h, decide_False, Bool.false_eq_true, if_false]; omega

theorem roundToDouble_exact (q : ℚ) (j : Nat) (hj : j ≤ 1074) (hden : q.den = 2 ^ j)
    (hnum : q.num.natAbs < 2 ^ 53) : roundToDouble q = .fin q := by
  unfold roundToDouble
  by_cases h0 : q.num = 0
  · rw [if_pos h0, Rat.zero_of_num_zero h0]
  · rw [if_neg h0]
    have hb : (bitLength q.num.natAbs : ℤ) ≤ 53 := by
      exact_mod_cast (bitLength_le_iff _ _).mpr hnum
    have he := binaryExponent_le q.num.natAbs q.den
    rw [hden, bitLength_two_pow] at he
    rw [hden]
    generalize binaryExponent q.num.natAbs (2 ^ j) = e at he ⊢
    obtain ⟨c, hc⟩ : ∃ c : ℕ, max e (-1022) - 52 = -((c + j : ℕ) : ℤ) := by
      refine ⟨(-(max e (-1022) - 52) - j).toNat, ?_⟩
      push_cast; omega
    rw [hc]
    unfold roundScaled
    have hp1 : (-((c + j : ℕ) : ℤ)).toNat = 0 := by omega
    have hp2 : (- -((c + j : ℕ) : ℤ)).toNat = c + j := by omega
    simp only [hp1, hp2, pow_zero, mul_one]
    have hk : roundHalfEven (q.num.natAbs * 2 ^ (c + j)) (2 ^ j) = q.num.natAbs * 2 ^ c := by
      rw [roundHalfEven_of_dvd _ _ (by positivity) ⟨q.num.natAbs * 2 ^ c, by ring⟩]
      rw [pow_add, ← mul_assoc]; exact Nat.mul_div_cancel _ (by positivity)
    rw [hk]
    have hlen : bitLength (q.num.natAbs * 2 ^ c) ≤ 53 + c := by
      rw [bitLength_le_iff, pow_add]; exact Nat.mul_lt_mul_of_pos_right hnum (by positivity)
    rw [if_neg (by push_cast; omega)]
    congr 1
    rw [Rat.mkRat_eq_div]
    have hq : q = (q.num : ℚ) / (q.den : ℚ) := (Rat.num_div_den q).symm
    have hs := signFactor_mul_natAbs q.num
    conv_rhs => rw [hq, hden, ← hs]
    push_cast
    rw [pow_add]; field_simp; ring

theorem roundHalfEven_one (n : Nat) : roundHalfEven n 1 = n := by
  rw [roundHalfEven_of_dvd n 1 (by norm_num) (one_dvd n), Nat.div_one]

/-- The Number value of an integer is an integer or an infinity. -/
theorem roundToDouble_int (z : ℤ) :
    roundToDouble z = .posInf ∨ roundToDouble z = .negInf ∨
      ∃ k : ℤ, roundToDouble z = .fin k := by
  unfold roundToDouble
  rw [Rat.num_intCast, Rat.den_intCast]
  split
  · exact Or.inr (Or.inr ⟨0, by simp⟩)
  · generalize max (binaryExponent z.natAbs 1) (-1022) - 52 = p
    unfold roundScaled
    simp only
    split
    · cases decide (z < 0) <;> simp
    · refine Or.inr (Or.inr ?_)
      rcases le_or_lt 0 p with hp | hp
      · have h1 : (-p).toNat = 0 := by omega
        rw [h1, pow_zero, Rat.mkRat_one]
        exact ⟨_, rfl⟩
      · have h1 : p.toNat = 0 := by omega
        rw [h1, pow_zero, mul_one, mul_one, roundHalfEven_one]
        refine ⟨signFactor (decide (z < 0)) * (z.natAbs : ℤ), ?_⟩
        congr 1
        rw [Rat.mkRat_eq_div]
        push_cast
        field_simp
        ring

theorem roundToDouble_int_exact (z : ℤ) (h : z.natAbs < 2 ^ 53) :
    roundToDouble z = .fin z :=
  roundToDouble_exact z 0 (by norm_num) (by simp) (by simpa using h)

theorem intOfDigits_nan_or_rounded (neg : Bool) (radix : Nat) (z : List Nat) :
    intOfDigits neg radix z = .nan ∨ ∃ k : ℤ, intOfDigits neg radix z = roundToDouble k := by
  unfold intOfDigits
  split
  · exact Or.inl rfl
  · exact Or.inr ⟨_, by rw [Rat.mkRat_one]⟩

/-- The function `parseInt` returns `NaN` or the Number value of an integer. -/
theorem parseInt_nan_or_rounded (s : String) :
    parseInt s = .nan ∨ ∃ z : ℤ, parseInt s = roundToDouble z := by
  unfold parseInt parseIntChars
  simp only
  split <;> exact intOfDigits_nan_or_rounded _ _ _

/-- The function `parseInt` returns `NaN`, an infinity or an integer. -/
theorem parseInt_nan_or_integral (s : String) :
    parseInt s = .nan ∨ parseInt s = .posInf ∨ parseInt s = .negInf ∨
      ∃ z : ℤ, parseInt s = .fin z := by
  rcases parseInt_nan_or_rounded s with h | ⟨z, h⟩
  · exact Or.inl h
  · rw [h]; exact Or.inr (roundToDouble_int z)

theorem stripSign_cases (cs : List Char) :
    (cs = '-' :: (stripSign cs).2 ∧ (stripSign cs).1 = true) ∨
      (cs = '+' :: (stripSign cs).2 ∧ (stripSign cs).1 = false) ∨
      stripSign cs = (false, cs) := by
  unfold stripSign
  split <;> simp

theorem spanDigits_fst_ne_nil (f : Char → Option Nat) (cs : List Char)
    (h : (spanDigits f cs).1 ≠ []) : ∃ c t d, cs = c :: t ∧ f c = some d := by
  cases cs with
  | nil => simp [spanDigits] at h
  | cons c t =>
    cases hc : f c with
    | none => simp [spanDigits, hc] at h
    | some d => exact ⟨c, t, d, rfl, hc⟩

theorem decDigit_not_whiteSpace (c : Char) (d : Nat) (h : decDigit? c = some d) :
    isStrWhiteSpace c = false := by
  unfold decDigit? at h
  split at h
  · rename_i hr
    unfold isStrWhiteSpace
    simp only [Bool.or_eq_false_iff, Bool.and_eq_false_iff, beq_eq_false_iff_ne,
      decide_eq_false_iff_not]
    refine ⟨⟨⟨⟨⟨⟨⟨⟨⟨⟨⟨⟨⟨⟨?_, ?_⟩, ?_⟩, ?_⟩, ?_⟩, ?_⟩, ?_⟩, ?_⟩, ?_⟩, ?_⟩, ?_⟩, ?_⟩, ?_⟩, ?_⟩, ?_⟩
    all_goals omega
  · simp at h

theorem trimStart_cons_of_not_whiteSpace (c : Char) (t : List Char)
    (h : isStrWhiteSpace c = false) : trimStart (c :: t) = c :: t := by
  simp [trimStart, List.dropWhile, h]

/-- A text that starts, after an optional sign, with a decimal digit has no
leading white space. -/
theorem trimStart_of_numeral (cs : List Char)
    (h : (spanDigits decDigit? (stripSign cs).2).1 ≠ []) : trimStart cs = cs := by
  rcases stripSign_cases cs with ⟨hc, _⟩ | ⟨hc, _⟩ | hc
  · rw [hc]; exact trimStart_cons_of_not_whiteSpace _ _ (by decide)
  · rw [hc]; exact trimStart_cons_of_not_whiteSpace _ _ (by decide)
  · rw [hc] at h
    obtain ⟨c, t, d, rfl, hd⟩ := spanDigits_fst_ne_nil _ _ h
    exact trimStart_cons_of_not_whiteSpace _ _ (decDigit_not_whiteSpace c d hd)

theorem isEmpty_eq_false_of_ne_nil {α : Type} (l : List α) (h : l ≠ []) :
    l.isEmpty = false := by
  cases l with
  | nil => exact absurd rfl h
  | cons a t => rfl

/-- On a text that is, as a whole, an integer numeral, `parseInt` returns the
Number value of the integer it denotes. -/
theorem parseInt_of_integerValue (s : String) (z : ℤ) (h : integerValue? s = some z) :
    parseInt s = roundToDouble z := by
  unfold integerValue? at h
  simp only at h
  split at h
  · exact absurd h (by simp)
  · rename_i hcond
    simp only [Bool.or_eq_true, Bool.not_eq_true', not_or, Bool.not_eq_true,
      Bool.not_eq_false] at hcond
    obtain ⟨hne, hrest⟩ := hcond
    have hne' : (spanDigits decDigit? (stripSign s.data).2).1 ≠ [] := by
      intro h0; rw [h0] at hne; simp at hne
    have hrest' : (spanDigits decDigit? (stripSign s.data).2).2 = [] := by
      simpa using hrest
    have htrim := trimStart_of_numeral s.data hne'
    unfold parseInt parseIntChars
    simp only [htrim]
    split
    · rename_i t heq
      rw [heq] at hrest'
      simp [spanDigits, show decDigit? '0' = some 0 from rfl,
        show decDigit? 'x' = none from rfl] at hrest'
    · rename_i t heq
      rw [heq] at hrest'
      simp [spanDigits, show decDigit? '0' = some 0 from rfl,
        show decDigit? 'X' = none from rfl] at hrest'
    · simp only [intOfDigits, isEmpty_eq_false_of_ne_nil _ hne', Bool.false_eq_true,
        if_false, Rat.mkRat_one]
      simp only [Option.some.injEq] at h
      rw [h]

theorem infinity_not_leading (cs : List Char)
    (h : (spanDigits decDigit? cs).1 ≠ []) : infinityChars.isPrefixOf cs = false := by
  obtain ⟨c, t, d, rfl, hd⟩ := spanDigits_fst_ne_nil _ _ h
  have hc : c ≠ 'I' := by
    rintro rfl
    have hI : decDigit? 'I' = none := by decide
    rw [hI] at hd
    exact absurd hd (by simp)
  have hc' : ('I' == c) = false := by
    simp only [beq_eq_false_iff_ne, ne_eq]
    exact fun h => hc h.symm
  simp [infinityChars, List.isPrefixOf, hc']

/-- On a text that is, as a whole, a decimal numeral, `parseFloat` returns
the Number value of the number it denotes. -/
theorem parseFloat_of_decimalValue (s : String) (q : ℚ) (h : decimalValue? s = some q) :
    parseFloat s = roundToDouble q := by
  unfold decimalValue? at h
  simp only at h
  split at h
  · exact absurd h (by simp)
  · rename_i hcond
    have hne : (spanDigits decDigit? (stripSign s.data).2).1 ≠ [] := by
      intro h0; rw [h0] at hcond; simp at hcond
    have hemp := isEmpty_eq_false_of_ne_nil _ hne
    have htrim := trimStart_of_numeral s.data hne
    have hinf := infinity_not_leading _ hne
    unfold parseFloat parseFloatChars
    simp only [htrim, hinf]
    split at h
    · rename_i heq
      simp only [Option.some.injEq] at h
      simp [heq, hemp, exponentPart, h]
    · rename_i t heq
      split at h
      · exact absurd h (by simp)
      · rename_i hfp
        simp only [Bool.or_eq_true, Bool.not_eq_true', not_or, Bool.not_eq_true,
          Bool.not_eq_false] at hfp
        obtain ⟨hf1, hf2⟩ := hfp
        have hf2' : (spanDigits decDigit? t).2 = [] := by simpa using hf2
        simp only [Option.some.injEq] at h
        simp [heq, hemp, hf1, hf2', exponentPart, h]
    · exact absurd h (by simp)

/-- A text without any decimal digit is `NaN` to `parseInt`. -/
theorem parseInt_nan_of_no_digit (s : String) (h : ∀ c ∈ s.data, decDigit? c = none) :
    parseInt s = .nan := by
  have h1 : ∀ c ∈ trimStart s.data, decDigit? c = none :=
    fun c hc => h c ((List.dropWhile_sublist _).subset hc)
  have h2 : ∀ c ∈ (stripSign (trimStart s.data)).2, decDigit? c = none := by
    intro c hc
    rcases stripSign_cases (trimStart s.data) with ⟨he, _⟩ | ⟨he, _⟩ | he
    · exact h1 c (by rw [he]; exact List.mem_cons_of_mem _ hc)
    · exact h1 c (by rw [he]; exact List.mem_cons_of_mem _ hc)
    · rw [he] at hc; exact h1 c hc
  have h0 : decDigit? '0' ≠ none := by decide
  unfold parseInt parseIntChars
  simp only
  split
  · rename_i t heq
    exact absurd (h2 '0' (by rw [heq]; exact List.mem_cons_self _ _)) h0
  · rename_i t heq
    exact absurd (h2 '0' (by rw [heq]; exact List.mem_cons_self _ _)) h0
  · cases hr : (stripSign (trimStart s.data)).2 with
    | nil => simp [spanDigits, intOfDigits]
    | cons c t =>
      have hc : decDigit? c = none := h2 c (by rw [hr]; exact List.mem_cons_self _ _)
      simp [spanDigits, intOfDigits, hc]

/-- Above `2 ^ 53` in magnitude `parseInt` rounds to the nearest double. -/
theorem parseInt_rounds : parseInt "9007199254740993" = .fin 9007199254740992 := by
  decide

/-- A fraction that is not binary is rounded by `parseFloat`: `0.1` is read
as the double `3602879701896397 / 2 ^ 55`. -/
theorem parseFloat_rounds :
    parseFloat "0.1" = .fin (mkRat 3602879701896397 36028797018963968) := by
  decide

set_option maxRecDepth 100000 in
set_option exponentiation.threshold 5000 in
/-- A numeral of 310 digits is `Infinity` to `parseInt`. -/
theorem parseInt_overflows :
    parseInt (String.mk ('1' :: List.replicate 309 '0')) = .posInf := by
  decide

set_option maxRecDepth 100000 in
set_option exponentiation.threshold 5000 in
/-- The numeral `1e400` is `Infinity` to `parseFloat`, `-1e400` is
`-Infinity`. -/
theorem parseFloat_overflows :
    parseFloat "1e400" = .posInf ∧ parseFloat "-1e400" = .negInf := by
  refine ⟨by decide, by decide⟩

set_option maxRecDepth 100000 in
set_option exponentiation.threshold 5000 in
/-- A bedrooms numeral of 310 digits passes the `isNaN` gate: on a store that
accepts the insert the form is answered 201 and the row handed to the store
holds `Infinity`. -/
theorem overflowing_bedrooms_accepted :
    (postListings (sampleRequest [("bedrooms",
        .str (String.mk ('1' :: List.replicate 309 '0')))]) sampleWorld).response.status
        = 201 ∧
      (getListingById 1
        (postListings (sampleRequest [("bedrooms",
          .str (String.mk ('1' :: List.replicate 309 '0')))]) sampleWorld).world).map
          (fun r => r.bedrooms) = some .posInf := by
  refine ⟨by decide, by decide⟩

/-- On an integer numeral `parseInt` returns the nearest double, which is the
integer itself below `2 ^ 53` in magnitude. -/
theorem parseInt_exact_of_integerValue (s : String) (z : ℤ) (h : integerValue? s = some z) :
    parseInt s = roundToDouble z ∧ (z.natAbs < 2 ^ 53 → parseInt s = .fin z) := by
  have h1 := parseInt_of_integerValue s z h
  exact ⟨h1, fun hz => by rw [h1]; exact roundToDouble_int_exact z hz⟩

/-- On a decimal numeral `parseFloat` returns the nearest double, which is the
number itself when it is a binary fraction with a numerator below `2 ^ 53`
in magnitude. -/
theorem parseFloat_exact_of_decimalValue (s : String) (q : ℚ)
    (h : decimalValue? s = some q) :
    parseFloat s = roundToDouble q ∧
      (q.num.natAbs < 2 ^ 53 → (∃ j, j ≤ 1074 ∧ q.den = 2 ^ j) → parseFloat s = .fin q) := by
  have h1 := parseFloat_of_decimalValue s q h
  refine ⟨h1, fun hn hj => ?_⟩
  obtain ⟨j, hj, hd⟩ := hj
  rw [h1]
  exact roundToDouble_exact q j hj hd hn

/-! ## The numeric columns of an inserted row -/

/-- C9, as stated, fails: the form with bedrooms `-2`, bathrooms `-1.5`,
square_footage `0` and price `-900` is accepted with 201, and the row stored
for it holds exactly these numbers: a negative bedrooms and bathrooms, a
square_footage that is not positive and a negative price. -/
theorem numeric_constraints_counterexample :
    (postListings (sampleRequest [("bedrooms", .str "-2"), ("bathrooms", .str "-1.5"),
        ("square_footage", .str "0"), ("price", .str "-900")]) sampleWorld).response.status
        = 201 ∧
      (postListings (sampleRequest [("bedrooms", .str "-2"), ("bathrooms", .str "-1.5"),
        ("square_footage", .str "0"), ("price", .str "-900")]) sampleWorld).world.listings =
        [(1, rowOf (sampleRequest [("bedrooms", .str "-2"), ("bathrooms", .str "-1.5"),
            ("square_footage", .str "0"), ("price", .str "-900")]).body
          "/uploads/1700000000000-k3j9x2a.jpg"
          ⟨.fin (-2), .fin (mkRat (-3) 2), .fin 0, .fin (-900)⟩)] ∧
      ¬ (0 : ℚ) ≤ -2 ∧ ¬ (0 : ℚ) ≤ mkRat (-3) 2 ∧ ¬ (0 : ℚ) < 0 ∧ ¬ (0 : ℚ) < -900 := by
  refine ⟨by decide, by decide, by decide, by decide, by decide, by decide⟩

/-- C9, amended. Every row the handler inserts holds, in its four numeric
columns, the results of `parseInt` (bedrooms, square_footage) and
`parseFloat` (bathrooms, price) on the submitted values, none of them `NaN`:
bedrooms and square_footage are each an integer or an infinity (a numeral too
large for a double), bathrooms and price are numbers other than `NaN`.  No
sign or range is checked. -/
theorem inserted_numbers_parsed (req : Request) (w : World) (row : ListingRow)
    (h : Effect.insert row ∈ (postListings req w).trace) :
    ∃ sb sba ssq sp,
      toStringValue (req.body "bedrooms") = .ok sb ∧
      toStringValue (req.body "bathrooms") = .ok sba ∧
      toStringValue (req.body "square_footage") = .ok ssq ∧
      toStringValue (req.body "price") = .ok sp ∧
      row.bedrooms = parseInt sb ∧ row.bathrooms = parseFloat sba ∧
      row.square_footage = parseInt ssq ∧ row.price = parseFloat sp ∧
      (row.bedrooms = .posInf ∨ row.bedrooms = .negInf ∨ ∃ z : ℤ, row.bedrooms = .fin z) ∧
      (row.square_footage = .posInf ∨ row.square_footage = .negInf ∨
        ∃ z : ℤ, row.square_footage = .fin z) ∧
      row.bedrooms ≠ .nan ∧ row.bathrooms ≠ .nan ∧
      row.square_footage ≠ .nan ∧ row.price ≠ .nan := by
  have key : ∀ (file : StagedFile) (n : Numerics), coerceNumerics req.body = .ok n →
      n.anyNaN = false → row = rowOf req.body (imageUrlOf file) n →
      ∃ sb sba ssq sp,
        toStringValue (req.body "bedrooms") = .ok sb ∧
        toStringValue (req.body "bathrooms") = .ok sba ∧
        toStringValue (req.body "square_footage") = .ok ssq ∧
        toStringValue (req.body "price") = .ok sp ∧
        row.bedrooms = parseInt sb ∧ row.bathrooms = parseFloat sba ∧
        row.square_footage = parseInt ssq ∧ row.price = parseFloat sp ∧
        (row.bedrooms = .posInf ∨ row.bedrooms = .negInf ∨ ∃ z : ℤ, row.bedrooms = .fin z) ∧
        (row.square_footage = .posInf ∨ row.square_footage = .negInf ∨
          ∃ z : ℤ, row.square_footage = .fin z) ∧
        row.bedrooms ≠ .nan ∧ row.bathrooms ≠ .nan ∧
        row.square_footage ≠ .nan ∧ row.price ≠ .nan := by
    intro file n hc hn hrow
    obtain ⟨sb, sba, ssq, sp, hb, hba, hsq, hp, hnum⟩ := coerceNumerics_inv _ _ hc
    have hnot : ¬ (n.bedrooms = .nan ∨ n.bathrooms = .nan ∨ n.square_footage = .nan ∨
        n.price = .nan) := by
      rw [← anyNaN_iff, hn]; simp
    rw [hnum] at hnot
    simp only [not_or] at hnot
    obtain ⟨n1, n2, n3, n4⟩ := hnot
    refine ⟨sb, sba, ssq, sp, hb, hba, hsq, hp, ?_, ?_, ?_, ?_, ?_, ?_, ?_, ?_, ?_, ?_⟩
    · rw [hrow, hnum]; rfl
    · rw [hrow, hnum]; rfl
    · rw [hrow, hnum]; rfl
    · rw [hrow, hnum]; rfl
    · rw [hrow, hnum]
      exact (parseInt_nan_or_integral sb).resolve_left n1
    · rw [hrow, hnum]
      exact (parseInt_nan_or_integral ssq).resolve_left n3
    · rw [hrow, hnum]; exact n1
    · rw [hrow, hnum]; exact n2
    · rw [hrow, hnum]; exact n3
    · rw [hrow, hnum]; exact n4
  rcases postListings_cases req w with
    ⟨hfile, e⟩ | ⟨file, hfile, hm, e⟩ | ⟨file, err, hfile, hm, hc, e⟩ |
    ⟨file, n, hfile, hm, hc, hn, e⟩ | ⟨file, n, err, hfile, hm, hc, hn, hf, e⟩ |
    ⟨file, n, hfile, hm, hc, hn, hf, e⟩
  · rw [e] at h; simp at h
  · rw [e] at h; simp at h
  · rw [e] at h; simp at h
  · rw [e] at h; simp at h
  · rw [e] at h
    simp only [List.mem_cons, Effect.insert.injEq, List.mem_singleton, reduceCtorEq,
      or_false, List.not_mem_nil] at h
    exact key file n hc hn h
  · rw [e] at h
    simp only [List.mem_singleton, Effect.insert.injEq] at h
    exact key file n hc hn h

/-- C9, amended, at the complete form: the inserted row holds bedrooms 1 and
square_footage 400. -/
theorem inserted_numbers_parsed_witness :
    Effect.insert (rowOf (sampleRequest []).body "/uploads/1700000000000-k3j9x2a.jpg"
        ⟨.fin 1, .fin (mkRat 3 2), .fin 400, .fin 900⟩) ∈
        (postListings (sampleRequest []) sampleWorld).trace ∧
      ∃ sb sba ssq sp,
        toStringValue ((sampleRequest []).body "bedrooms") = .ok sb ∧
        toStringValue ((sampleRequest []).body "bathrooms") = .ok sba ∧
        toStringValue ((sampleRequest []).body "square_footage") = .ok ssq ∧
        toStringValue ((sampleRequest []).body "price") = .ok sp ∧
        parseInt sb = .fin 1 ∧ parseFloat sba = .fin (mkRat 3 2) ∧
        parseInt ssq = .fin 400 ∧ parseFloat sp = .fin 900 := by
  have hmem : Effect.insert (rowOf (sampleRequest []).body "/uploads/1700000000000-k3j9x2a.jpg"
      ⟨.fin 1, .fin (mkRat 3 2), .fin 400, .fin 900⟩) ∈
      (postListings (sampleRequest []) sampleWorld).trace := by decide
  obtain ⟨sb, sba, ssq, sp, h1, h2, h3, h4, h5, h6, h7, h8, _⟩ :=
    inserted_numbers_parsed (sampleRequest []) sampleWorld _ hmem
  exact ⟨hmem, sb, sba, ssq, sp, h1, h2, h3, h4, h5.symm, h6.symm, h7.symm, h8.symm⟩

/-! ## Round trip through the store -/

theorem getListingById_after_insert (w : World) (row : ListingRow) (hw : w.FreshIds) :
    getListingById w.nextId
      { w with listings := w.listings ++ [(w.nextId, row)], nextId := w.nextId + 1 }
      = some row := by
  have hnil : w.listings.filter (fun r => r.1 == w.nextId) = [] := by
    rw [List.filter_eq_nil_iff]
    intro r hr
    have := hw r hr
    simp only [beq_iff_eq]
    omega
  simp [getListingById, List.filter_append, hnil]

/-- C10, as stated, fails: the form with bedrooms `3.9` is accepted with 201
and listingId 1, and the row fetched by that identifier holds bedrooms 3,
not the submitted 3.9. -/
theorem round_trip_counterexample :
    (sampleRequest [("bedrooms", .str "3.9")]).body "bedrooms" = .str "3.9" ∧
      decimalValue? "3.9" = some (mkRat 39 10) ∧
      (postListings (sampleRequest [("bedrooms", .str "3.9")]) sampleWorld).response =
        ⟨201, [("success", .bool true), ("message", .str "Listing created successfully"),
               ("listingId", .num 1),
               ("imageUrl", .str "/uploads/1700000000000-k3j9x2a.jpg")]⟩ ∧
      (getListingById 1
        (postListings (sampleRequest [("bedrooms", .str "3.9")]) sampleWorld).world).map
          (fun r => r.bedrooms) = some (.fin 3) ∧
      JsNumber.fin 3 ≠ JsNumber.fin (mkRat 39 10) := by
  refine ⟨by decide, by decide, by decide, by decide, by decide⟩

/-- C10, amended. For every accepted submission (response 201) on a store
whose identifiers are fresh, one row is inserted and fetching the returned
identifier yields it; its ten text columns are the submitted values of the
fields of the same name, unchanged; its image path is the derived one; its
numeric columns are `parseInt` of bedrooms and square_footage and
`parseFloat` of bathrooms and price.  When the text as a whole is an integer
numeral (bedrooms, square_footage) or a decimal numeral (bathrooms, price),
that is the double nearest to the submitted value (an infinity on overflow):
the submitted value itself when it is a double with a significand below
`2 ^ 53` in magnitude, so every integer below `2 ^ 53` in magnitude and every
half-step. -/
theorem accepted_round_trip (req : Request) (w : World)
    (hacc : (postListings req w).response.status = 201) (hw : w.FreshIds) :
    ∃ row file sb sba ssq sp,
      req.file = some file ∧
      (postListings req w).trace = [.insert row] ∧
      (postListings req w).response.body.lookup "listingId" = some (.num w.nextId) ∧
      getListingById w.nextId (postListings req w).world = some row ∧
      row.title = req.body "title" ∧
      row.listing_type = req.body "listing_type" ∧
      row.housing_type = req.body "housing_type" ∧
      row.campus = req.body "campus" ∧
      row.address = req.body "address" ∧
      row.postal_code = req.body "postal_code" ∧
      row.property_description = req.body "property_description" ∧
      row.agent_name = req.body "agent_name" ∧
      row.agent_email = req.body "agent_email" ∧
      row.agent_phone = req.body "agent_phone" ∧
      row.image_url = "/uploads/" ++ file.filename ∧
      toStringValue (req.body "bedrooms") = .ok sb ∧
      toStringValue (req.body "bathrooms") = .ok sba ∧
      toStringValue (req.body "square_footage") = .ok ssq ∧
      toStringValue (req.body "price") = .ok sp ∧
      row.bedrooms = parseInt sb ∧ row.bathrooms = parseFloat sba ∧
      row.square_footage = parseInt ssq ∧ row.price = parseFloat sp ∧
      (∀ z : ℤ, integerValue? sb = some z →
        row.bedrooms = roundToDouble z ∧ (z.natAbs < 2 ^ 53 → row.bedrooms = .fin z)) ∧
      (∀ q : ℚ, decimalValue? sba = some q →
        row.bathrooms = roundToDouble q ∧
          (q.num.natAbs < 2 ^ 53 → (∃ j, j ≤ 1074 ∧ q.den = 2 ^ j) →
            row.bathrooms = .fin q)) ∧
      (∀ z : ℤ, integerValue? ssq = some z →
        row.square_footage = roundToDouble z ∧
          (z.natAbs < 2 ^ 53 → row.square_footage = .fin z)) ∧
      (∀ q : ℚ, decimalValue? sp = some q →
        row.price = roundToDouble q ∧
          (q.num.natAbs < 2 ^ 53 → (∃ j, j ≤ 1074 ∧ q.den = 2 ^ j) →
            row.price = .fin q)) := by
  rcases postListings_cases req w with
    ⟨hfile, e⟩ | ⟨file, hfile, hm, e⟩ | ⟨file, err, hfile, hm, hc, e⟩ |
    ⟨file, n, hfile, hm, hc, hn, e⟩ | ⟨file, n, err, hfile, hm, hc, hn, hf, e⟩ |
    ⟨file, n, hfile, hm, hc, hn, hf, e⟩
  · rw [e] at hacc; simp at hacc
  · rw [e] at hacc; simp at hacc
  · rw [e] at hacc; simp at hacc
  · rw [e] at hacc; simp at hacc
  · rw [e] at hacc; simp at hacc
  · obtain ⟨sb, sba, ssq, sp, hb, hba, hsq, hp, hnum⟩ := coerceNumerics_inv _ _ hc
    refine ⟨rowOf req.body (imageUrlOf file) n, file, sb, sba, ssq, sp, hfile, ?_, ?_, ?_,
      rfl, rfl, rfl, rfl, rfl, rfl, rfl, rfl, rfl, rfl, rfl, hb, hba, hsq, hp, ?_, ?_, ?_, ?_,
      ?_, ?_, ?_, ?_⟩
    · rw [e]
    · rw [e]; simp [List.lookup]
    · rw [e]; exact getListingById_after_insert w _ hw
    · rw [hnum]; rfl
    · rw [hnum]; rfl
    · rw [hnum]; rfl
    · rw [hnum]; rfl
    · intro z hz; rw [hnum]; exact parseInt_exact_of_integerValue sb z hz
    · intro q hq; rw [hnum]; exact parseFloat_exact_of_decimalValue sba q hq
    · intro z hz; rw [hnum]; exact parseInt_exact_of_integerValue ssq z hz
    · intro q hq; rw [hnum]; exact parseFloat_exact_of_decimalValue sp q hq

/-- C10, amended, at the complete form: the row fetched by the returned
identifier 1 holds the submitted title, the submitted half-step of 1.5
bathrooms and the submitted price 900. -/
theorem accepted_round_trip_witness :
    (postListings (sampleRequest []) sampleWorld).response.status = 201 ∧
      sampleWorld.FreshIds ∧
      ∃ row, getListingById 1 (postListings (sampleRequest []) sampleWorld).world = some row ∧
        row.title = .str "Studio A" ∧ row.bathrooms = .fin (mkRat 3 2) ∧
        row.price = .fin 900 := by
  have hacc : (postListings (sampleRequest []) sampleWorld).response.status = 201 := by decide
  have hw : sampleWorld.FreshIds := by
    intro r hr
    simp [sampleWorld] at hr
  obtain ⟨row, file, sb, sba, ssq, sp, _, _, _, hget, htitle, _, _, _, _, _, _, _, _, _, _,
    _, hba, _, hp, _, _, _, _, _, hbath, _, hprice⟩ :=
    accepted_round_trip (sampleRequest []) sampleWorld hacc hw
  refine ⟨hacc, hw, row, hget, htitle, ?_, ?_⟩
  · have hsba : sba = "1.5" := by
      have h0 : toStringValue ((sampleRequest []).body "bathrooms") = .ok "1.5" := by decide
      rw [h0] at hba
      exact (Except.ok.inj hba).symm
    exact (hbath (mkRat 3 2) (by rw [hsba]; decide)).2 (by decide) ⟨1, by decide, by decide⟩
  · have hsp : sp = "900" := by
      have h0 : toStringValue ((sampleRequest []).body "price") = .ok "900" := by decide
      rw [h0] at hp
      exact (Except.ok.inj hp).symm
    have h900 := (hprice 900 (by rw [hsp]; decide)).2 (by decide) ⟨0, by decide, by decide⟩
    simpa using h900

/-! ## The filter of the listings page -/

theorem lowerAt_ne_nil (before : List Char) (c : Char) (after : List Char) :
    lowerAt before c after ≠ [] := by
  unfold lowerAt
  split
  · simp
  · split <;> simp

theorem toLowerChars_eq_nil (before cs : List Char) (h : toLowerChars before cs = []) :
    cs = [] := by
  cases cs with
  | nil => rfl
  | cons c t =>
    unfold toLowerChars at h
    exact absurd (List.append_eq_nil.mp h).1 (lowerAt_ne_nil before c t)

theorem toLowerCase_eq_empty_iff (s : String) : toLowerCase s = "" ↔ s = "" := by
  constructor
  · intro h
    have h1 : (toLowerCase s).data = [] := by rw [h]
    have h2 : s.data = [] := toLowerChars_eq_nil [] s.data h1
    cases s
    simp_all
  · rintro rfl
    rfl

set_option maxRecDepth 100000 in
/-- Lower-casing beyond ASCII: accented capitals, the dotted capital I (two
characters in lower case), and the capital sigma, final at the end of a word
and medial inside. -/
theorem toLowerCase_samples :
    toLowerCase "ÉLITE" = "élite" ∧ toLowerCase "élite" = "élite" ∧
      toLowerCase "İ" = String.mk ['i', Char.ofNat 0x0307] ∧
      toLowerCase "ΟΔΟΣ ΣΟΦΙΑΣ" = "οδος σοφιας" ∧ toLowerCase "ЖИЛЬЁ" = "жильё" := by
  refine ⟨by decide, by decide, by decide, by decide, by decide⟩

theorem searchTermOf_eq (ctl : Controls) :
    searchTermOf ctl = toLowerCase (valueOf ctl.searchBar) := by
  unfold searchTermOf valueOf
  cases ctl.searchBar <;> rfl

theorem hasSubstr_nil_right (pat : List Char) : hasSubstr pat [] = true ↔ pat = [] := by
  cases pat <;> simp [hasSubstr]

theorem includes_empty_left (term : String) : includes "" term = true ↔ term = "" := by
  unfold includes
  have h : ("" : String).data = [] := rfl
  rw [h, hasSubstr_nil_right]
  constructor
  · intro h0
    cases term
    simp_all
  · rintro rfl
    rfl

/-- C13. For a listing whose address, postal code and title are strings, the
text predicate returns, and it accepts exactly when the search text is empty
or its lower-cased form occurs in the lower-cased address, postal code or
title, or in the lower-cased description when there is one.  Lower-casing is
`String.prototype.toLowerCase` on the whole of Unicode, so the comparison
disregards the case of every cased letter, not only of `A`-`Z`. -/
theorem text_predicate_spec (ctl : Controls) (listing : Listing) (a p t : String)
    (ha : listing.address = some a) (hp : listing.postal_code = some p)
    (ht : listing.title = some t) :
    ∃ b, matchesSearch (searchTermOf ctl) listing = .ok b ∧
      (b = true ↔
        valueOf ctl.searchBar = "" ∨
        includes (toLowerCase a) (toLowerCase (valueOf ctl.searchBar)) = true ∨
        includes (toLowerCase p) (toLowerCase (valueOf ctl.searchBar)) = true ∨
        includes (toLowerCase t) (toLowerCase (valueOf ctl.searchBar)) = true ∨
        ∃ d, listing.property_description = some d ∧
          includes (toLowerCase d) (toLowerCase (valueOf ctl.searchBar)) = true) := by
  rw [searchTermOf_eq]
  generalize valueOf ctl.searchBar = text
  by_cases h0 : text = ""
  · subst h0
    exact ⟨true, by simp [matchesSearch, show toLowerCase "" = "" from rfl], by simp⟩
  · have hne : toLowerCase text ≠ "" := fun h => h0 ((toLowerCase_eq_empty_iff _).mp h)
    have hbeq : (toLowerCase text == "") = false := by simpa using hne
    by_cases h1 : includes (toLowerCase a) (toLowerCase text) = true
    · exact ⟨true, by simp [matchesSearch, hbeq, ha, lowerOf, h1, bind, Except.bind, pure,
        Except.pure], by simp [h1]⟩
    · by_cases h2 : includes (toLowerCase p) (toLowerCase text) = true
      · exact ⟨true, by simp [matchesSearch, hbeq, ha, hp, lowerOf, h1, h2, bind, Except.bind,
          pure, Except.pure], by simp [h2]⟩
      · by_cases h3 : includes (toLowerCase t) (toLowerCase text) = true
        · exact ⟨true, by simp [matchesSearch, hbeq, ha, hp, ht, lowerOf, h1, h2, h3, bind,
            Except.bind, pure, Except.pure], by simp [h3]⟩
        · cases hd : listing.property_description with
          | none =>
            exact ⟨false, by simp [matchesSearch, hbeq, ha, hp, ht, hd, lowerOf, h1, h2, h3,
              bind, Except.bind, pure, Except.pure], by simp [h0, h1, h2, h3]⟩
          | some d =>
            refine ⟨d != "" && includes (toLowerCase d) (toLowerCase text), by
              simp [matchesSearch, hbeq, ha, hp, ht, hd, lowerOf, h1, h2, h3, bind,
                Except.bind, pure, Except.pure], ?_⟩
            simp only [h0, h1, h2, h3, false_or, Bool.false_eq_true, Option.some.injEq,
              exists_eq_left', Bool.and_eq_true, bne_iff_ne, ne_eq]
            constructor
            · exact fun h => h.2
            · intro h
              refine ⟨?_, h⟩
              rintro rfl
              rw [show toLowerCase "" = "" from rfl, includes_empty_left] at h
              exact hne h

set_option maxRecDepth 100000 in
/-- C13 at the search text `KEELE` and a listing on Keele Street, and at the
search text `église` and a listing at `12 Rue de l'Église`: both are
accepted. -/
theorem text_predicate_spec_witness :
    matchesSearch (searchTermOf { noFilter with searchBar := some "KEELE" })
        (sampleListing 1 4 50) = .ok true ∧
      includes (toLowerCase "4700 Keele St") (toLowerCase "KEELE") = true ∧
      matchesSearch (searchTermOf { noFilter with searchBar := some "église" })
        { sampleListing 1 4 50 with address := some "12 Rue de l'Église" } = .ok true ∧
      toLowerCase "12 Rue de l'Église" = "12 rue de l'église" := by
  obtain ⟨b, hb, hiff⟩ := text_predicate_spec { noFilter with searchBar := some "KEELE" }
    (sampleListing 1 4 50) "4700 Keele St" "M3J 1P3" "Studio A" rfl rfl rfl
  have hinc : includes (toLowerCase "4700 Keele St") (toLowerCase "KEELE") = true := by decide
  have hb1 : b = true := hiff.mpr (Or.inr (Or.inl hinc))
  obtain ⟨c, hc, hciff⟩ := text_predicate_spec { noFilter with searchBar := some "église" }
    { sampleListing 1 4 50 with address := some "12 Rue de l'Église" }
    "12 Rue de l'Église" "M3J 1P3" "Studio A" rfl rfl rfl
  have hinc2 : includes (toLowerCase "12 Rue de l'Église") (toLowerCase "église") = true := by
    decide
  have hc1 : c = true := hciff.mpr (Or.inr (Or.inl hinc2))
  exact ⟨by rw [hb, hb1], hinc, by rw [hc, hc1], by decide⟩

theorem lowerEquals_iff (column : Option String) (sel : String) (hsel : sel ≠ "") :
    lowerEquals column sel = true ↔
      ∃ s, column = some s ∧ toLowerCase s = toLowerCase sel := by
  cases column with
  | none => simp [lowerEquals]
  | some s =>
    simp only [lowerEquals, Bool.and_eq_true, bne_iff_ne, ne_eq, beq_iff_eq,
      Option.some.injEq, exists_eq_left']
    constructor
    · exact fun h => h.2
    · intro h
      refine ⟨?_, h⟩
      rintro rfl
      exact hsel ((toLowerCase_eq_empty_iff sel).mp h.symm)

/-- C12 fails on the code for the listing type: with the filter `rent`, a
listing whose type is stored as `Rent` is rejected, although the two are equal
without regard to case, and no listing is shown.  The two predicates next to
it do lower-case both sides: the housing type `Apartment` passes the filter
`apartment` and the campus `Keele` the filter `KEELE`. -/
theorem type_filter_counterexample :
    toLowerCase "Rent" = toLowerCase "rent" ∧
      matchesHomeType "rent" { sampleListing 1 4 50 with listing_type := some "Rent" }
        = false ∧
      filterListings { noFilter with homeType := some "rent" }
        [{ sampleListing 1 4 50 with listing_type := some "Rent" }] = .ok [] ∧
      matchesHousingType "apartment" (sampleListing 1 4 50) = true ∧
      matchesCampus "KEELE" (sampleListing 1 4 50) = true := by
  refine ⟨by decide, by decide, by decide, by decide, by decide⟩

/-- What the three predicates compute.  Each accepts every listing when its
filter is unset; when the filter is set, the listing-type predicate accepts
exactly the listings whose type is the filter value, character for character,
and the housing-type and campus predicates accept exactly the listings whose
column is a string equal to the filter value after lower-casing both. -/
theorem type_filters_spec (listing : Listing) (sel : String) :
    (matchesHomeType "" listing = true ∧ matchesHousingType "" listing = true ∧
      matchesCampus "" listing = true) ∧
    (sel ≠ "" →
      (matchesHomeType sel listing = true ↔ listing.listing_type = some sel) ∧
      (matchesHousingType sel listing = true ↔
        ∃ s, listing.housing_type = some s ∧ toLowerCase s = toLowerCase sel) ∧
      (matchesCampus sel listing = true ↔
        ∃ s, listing.campus = some s ∧ toLowerCase s = toLowerCase sel)) := by
  refine ⟨⟨by simp [matchesHomeType], by simp [matchesHousingType],
    by simp [matchesCampus]⟩, ?_⟩
  intro hsel
  have hb : (sel == "") = false := by simpa using hsel
  refine ⟨?_, ?_, ?_⟩
  · simp [matchesHomeType, hb]
  · simp only [matchesHousingType, hb, Bool.false_or]
    exact lowerEquals_iff _ _ hsel
  · simp only [matchesCampus, hb, Bool.false_or]
    exact lowerEquals_iff _ _ hsel

theorem ge_four_iff (q : ℚ) : (NumColumn.num (.fin q)).ge (.fin 4) = true ↔ 4 ≤ q := by
  simp [NumColumn.ge, NumColumn.toNumber, JsNumber.ge]

theorem strictEq_fin_iff (q : ℚ) (n : JsNumber) :
    (NumColumn.num (.fin q)).strictEq n = true ↔ n = .fin q := by
  cases n with
  | nan => simp [NumColumn.strictEq, JsNumber.strictEq, JsNumber.isNaN]
  | posInf => simp [NumColumn.strictEq, JsNumber.strictEq, JsNumber.isNaN]
  | negInf => simp [NumColumn.strictEq, JsNumber.strictEq, JsNumber.isNaN]
  | fin r =>
    simp only [NumColumn.strictEq, JsNumber.strictEq, JsNumber.isNaN, Bool.not_false,
      Bool.true_and, beq_iff_eq, JsNumber.fin.injEq]
    exact eq_comm

theorem arrayFilter_eq_filter {α : Type} (callback : α → Except JsError Bool)
    (p : α → Bool) (l : List α) (h : ∀ x ∈ l, callback x = .ok (p x)) :
    arrayFilter callback l = .ok (l.filter p) := by
  induction l with
  | nil => rfl
  | cons x rest ih =>
    have hx := h x (List.mem_cons_self _ _)
    have hrest := ih (fun y hy => h y (List.mem_cons_of_mem _ hy))
    simp only [arrayFilter, hx, hrest, List.filter_cons]

theorem matchesSearch_unset (listing : Listing) : matchesSearch "" listing = .ok true := by
  simp [matchesSearch]

theorem matchesSearch_of_present (term : String) (listing : Listing)
    (h : listing.TextPresent) : ∃ b, matchesSearch term listing = .ok b := by
  obtain ⟨ha, hp, ht⟩ := h
  obtain ⟨a, ha⟩ := Option.isSome_iff_exists.mp ha
  obtain ⟨p, hp⟩ := Option.isSome_iff_exists.mp hp
  obtain ⟨t, ht⟩ := Option.isSome_iff_exists.mp ht
  unfold matchesSearch
  simp only [ha, hp, ht, lowerOf, bind, Except.bind, pure, Except.pure]
  split
  · exact ⟨_, rfl⟩
  · split
    · exact ⟨_, rfl⟩
    · split
      · exact ⟨_, rfl⟩
      · split
        · exact ⟨_, rfl⟩
        · split <;> exact ⟨_, rfl⟩

theorem filterCallback_of_search (ctl : Controls) (listing : Listing) (b : Bool)
    (h : matchesSearch (searchTermOf ctl) listing = .ok b) :
    filterCallback ctl listing = .ok (satisfiesAll ctl listing) := by
  unfold filterCallback satisfiesAll
  simp only [h, bind, Except.bind, pure, Except.pure]
  cases b <;> simp

/-- Where the text predicate returns on every listing, `filterListings`
returns the listings that satisfy the six predicates, in order. -/
theorem filterListings_of_search (ctl : Controls) (coll : List Listing)
    (h : ∀ l ∈ coll, ∃ b, matchesSearch (searchTermOf ctl) l = .ok b) :
    filterListings ctl coll = .ok (coll.filter (satisfiesAll ctl)) := by
  unfold filterListings
  apply arrayFilter_eq_filter
  intro l hl
  obtain ⟨b, hb⟩ := h l hl
  exact filterCallback_of_search ctl l b hb

theorem search_returns (ctl : Controls) (coll : List Listing)
    (h : valueOf ctl.searchBar = "" ∨ ∀ l ∈ coll, l.TextPresent) :
    ∀ l ∈ coll, ∃ b, matchesSearch (searchTermOf ctl) l = .ok b := by
  intro l hl
  rcases h with h | h
  · rw [searchTermOf_eq, h]
    exact ⟨true, matchesSearch_unset l⟩
  · exact matchesSearch_of_present _ l (h l hl)

/-- C11, as stated, fails: with the search text `keele` and a collection
holding a listing whose address is null, `filterListings` throws a
`TypeError` and hands nothing to `displayListings`. -/
theorem filter_counterexample :
    filterListings { noFilter with searchBar := some "keele" }
        [{ sampleListing 1 4 50 with address := none }] =
      .error ⟨.typeError, none, "Cannot read properties of null (reading 'toLowerCase')"⟩ := by
  decide

/-- C11, amended. When the search text is empty, or every listing of the
collection has a string address, postal code and title, `filterListings`
returns, and the list it displays is the collection filtered by the
conjunction of the six predicates: a sub-sequence of the collection, in the
original order, holding exactly the listings that satisfy all six.  It is a
function of the controls and the collection, and filtering its result once
more with the same controls leaves it unchanged. -/
theorem filter_spec (ctl : Controls) (coll : List Listing)
    (h : valueOf ctl.searchBar = "" ∨ ∀ l ∈ coll, l.TextPresent) :
    ∃ shown, filterListings ctl coll = .ok shown ∧
      shown = coll.filter (satisfiesAll ctl) ∧
      shown.Sublist coll ∧
      (∀ l, l ∈ shown ↔
        l ∈ coll ∧ matchesSearch (searchTermOf ctl) l = .ok true ∧
          matchesHomeType (valueOf ctl.homeType) l = true ∧
          matchesHousingType (valueOf ctl.housingType) l = true ∧
          matchesCampus (valueOf ctl.campus) l = true ∧
          matchesBeds (valueOf ctl.beds) l = true ∧
          matchesBaths (valueOf ctl.baths) l = true) ∧
      filterListings ctl shown = .ok shown := by
  refine ⟨coll.filter (satisfiesAll ctl),
    filterListings_of_search ctl coll (search_returns ctl coll h), rfl,
    List.filter_sublist _, ?_, ?_⟩
  · intro l
    simp only [List.mem_filter, satisfiesAll, Bool.and_eq_true, beq_iff_eq, and_assoc]
  · have h2 : valueOf ctl.searchBar = "" ∨ ∀ l ∈ coll.filter (satisfiesAll ctl),
        l.TextPresent := by
      rcases h with h | h
      · exact Or.inl h
      · exact Or.inr (fun l hl => h l (List.mem_filter.mp hl).1)
    rw [filterListings_of_search ctl _ (search_returns ctl _ h2), List.filter_filter]
    simp

/-- C11, amended, at the five sample listings and the search text `KEELE`:
all five are shown, in order. -/
theorem filter_spec_witness :
    (∀ l ∈ fiveListings, l.TextPresent) ∧
      filterListings { noFilter with searchBar := some "KEELE" } fiveListings
        = .ok fiveListings := by
  have hp : ∀ l ∈ fiveListings, l.TextPresent := by
    intro l hl
    simp only [fiveListings, List.mem_cons, List.mem_singleton, List.not_mem_nil,
      or_false] at hl
    rcases hl with rfl | rfl | rfl | rfl | rfl <;> exact ⟨rfl, rfl, rfl⟩
  obtain ⟨shown, hs, heq, _⟩ :=
    filter_spec { noFilter with searchBar := some "KEELE" } fiveListings (Or.inr hp)
  refine ⟨hp, ?_⟩
  rw [hs, heq]
  decide

theorem satisfiesAll_beds_only (ctl : Controls) (listing : Listing)
    (hs : valueOf ctl.searchBar = "") (hh : valueOf ctl.homeType = "")
    (hu : valueOf ctl.housingType = "") (hc : valueOf ctl.campus = "")
    (hb : valueOf ctl.beds = "4+") (ha : valueOf ctl.baths = "") :
    satisfiesAll ctl listing = listing.bedrooms.ge (.fin 4) := by
  have h4 : (("4+" : String) == "") = false := by decide
  simp [satisfiesAll, searchTermOf_eq, hs, hh, hu, hc, hb, ha,
    show toLowerCase "" = "" from rfl, matchesSearch_unset, matchesHomeType,
    matchesHousingType, matchesCampus, matchesBeds, matchesBaths, h4]

/-- C14. For a listing whose bedrooms and bathrooms are numbers, the beds
predicate accepts it exactly when the filter is unset, or is `4+` and
bedrooms is at least 4, or is another value whose `parseInt` is the number of
bedrooms; the baths predicate is the same with bathrooms and `parseFloat`.
With beds set to `4+` and the other filters unset, `filterListings` returns
the listings with at least four bedrooms, in their original order. -/
theorem beds_baths_spec (listing : Listing) (sel : String) (qb qa : ℚ)
    (hb : listing.bedrooms = .num (.fin qb)) (ha : listing.bathrooms = .num (.fin qa)) :
    (matchesBeds sel listing = true ↔
      sel = "" ∨ (sel = "4+" ∧ 4 ≤ qb) ∨
        (sel ≠ "" ∧ sel ≠ "4+" ∧ parseInt sel = .fin qb)) ∧
    (matchesBaths sel listing = true ↔
      sel = "" ∨ (sel = "4+" ∧ 4 ≤ qa) ∨
        (sel ≠ "" ∧ sel ≠ "4+" ∧ parseFloat sel = .fin qa)) ∧
    (∀ (ctl : Controls) (coll : List Listing),
      valueOf ctl.searchBar = "" → valueOf ctl.homeType = "" →
      valueOf ctl.housingType = "" → valueOf ctl.campus = "" →
      valueOf ctl.beds = "4+" → valueOf ctl.baths = "" →
      filterListings ctl coll = .ok (coll.filter (fun l => l.bedrooms.ge (.fin 4))) ∧
      ∀ (l : Listing) (q : ℚ), l.bedrooms = .num (.fin q) →
        (l.bedrooms.ge (.fin 4) = true ↔ 4 ≤ q)) := by
  refine ⟨?_, ?_, ?_⟩
  · unfold matchesBeds
    rw [hb]
    by_cases h0 : sel = ""
    · simp [h0]
    · by_cases h4 : sel = "4+"
      · subst h4
        have hne : (("4+" : String) == "") = false := by decide
        simp [hne, ge_four_iff]
      · have hb0 : (sel == "") = false := by simpa using h0
        have hb4 : (sel == "4+") = false := by simpa using h4
        simp [hb0, hb4, h0, h4, strictEq_fin_iff]
  · unfold matchesBaths
    rw [ha]
    by_cases h0 : sel = ""
    · simp [h0]
    · by_cases h4 : sel = "4+"
      · subst h4
        have hne : (("4+" : String) == "") = false := by decide
        simp [hne, ge_four_iff]
      · have hb0 : (sel == "") = false := by simpa using h0
        have hb4 : (sel == "4+") = false := by simpa using h4
        simp [hb0, hb4, h0, h4, strictEq_fin_iff]
  · intro ctl coll hs hh hu hc hbeds hbaths
    refine ⟨?_, ?_⟩
    · rw [filterListings_of_search ctl coll (search_returns ctl coll (Or.inl hs))]
      congr 1
      apply List.filter_congr
      intro l _
      exact satisfiesAll_beds_only ctl l hs hh hu hc hbeds hbaths
    · intro l q hq
      rw [hq]
      exact ge_four_iff q

/-- C14 at the scenario: of five listings with 4, 2, 5, 1 and 4 bedrooms, the
filter `4+` shows the first, third and fifth, in that order. -/
theorem beds_baths_spec_witness :
    (sampleListing 1 4 50).bedrooms = .num (.fin 4) ∧
      matchesBeds "4+" (sampleListing 1 4 50) = true ∧
      filterListings { noFilter with beds := some "4+" } fiveListings =
        .ok [sampleListing 1 4 50, sampleListing 3 5 30, sampleListing 5 4 10] := by
  have h := beds_baths_spec (sampleListing 1 4 50) "4+" 4 1 rfl rfl
  refine ⟨rfl, h.1.mpr (Or.inr (Or.inl ⟨rfl, le_refl _⟩)), ?_⟩
  rw [(h.2.2 { noFilter with beds := some "4+" } fiveListings rfl rfl rfl rfl rfl rfl).1]
  decide

/-! ## The featured listings of the landing page -/

theorem arraySort_created_sorted (listings : List Listing) :
    (arraySort compareCreated listings).Sorted (fun a b => compareCreated a b ≤ 0) := by
  haveI : IsTotal Listing (fun a b => compareCreated a b ≤ 0) :=
    ⟨fun a b => by unfold compareCreated; omega⟩
  haveI : IsTrans Listing (fun a b => compareCreated a b ≤ 0) :=
    ⟨fun a b c hab hbc => by unfold compareCreated at *; omega⟩
  exact List.sorted_insertionSort _ listings

theorem arraySort_perm {α : Type} (comparator : α → α → Int) (l : List α) :
    (arraySort comparator l).Perm l :=
  List.perm_insertionSort _ l

/-- C15. For a fetched collection of n listings that is not empty, the
landing page shows min(n, 3) cards; they are in non-increasing order of
creation time; together with the listings left out they make up the
collection, and no listing left out was created later than a listing shown.
The function takes the collection alone, no filter control. -/
theorem featured_spec (listings : List Listing) (h : listings ≠ []) :
    ∃ shown rest, fetchAndDisplayFeaturedListings listings = .cards shown ∧
      shown.length = min listings.length 3 ∧
      shown.Sorted (fun a b => b.created_at ≤ a.created_at) ∧
      (shown ++ rest).Perm listings ∧
      ∀ x ∈ shown, ∀ y ∈ rest, y.created_at ≤ x.created_at := by
  have hlen : (arraySort compareCreated listings).length = listings.length :=
    (arraySort_perm compareCreated listings).length_eq
  have hsorted := arraySort_created_sorted listings
  refine ⟨(arraySort compareCreated listings).take (min listings.length 3),
    (arraySort compareCreated listings).drop (min listings.length 3), ?_, ?_, ?_, ?_, ?_⟩
  · have h0 : listings.length ≠ 0 := fun h0 => h (List.length_eq_zero.mp h0)
    simp [fetchAndDisplayFeaturedListings, featuredListings, h0, hlen]
  · rw [List.length_take, hlen]
    omega
  · have hsub : ((arraySort compareCreated listings).take (min listings.length 3)).Sorted
        (fun a b => compareCreated a b ≤ 0) :=
      List.Pairwise.sublist (List.take_sublist _ _) hsorted
    refine List.Pairwise.imp ?_ hsub
    intro a b hab
    unfold compareCreated at hab
    omega
  · rw [List.take_append_drop]
    exact arraySort_perm compareCreated listings
  · intro x hx y hy
    have hr := hsorted.rel_of_mem_take_of_mem_drop hx hy
    unfold compareCreated at hr
    omega

/-- C15 at four listings created at times 10, 50, 30 and 40: the cards are
those of times 50, 40 and 30. -/
theorem featured_spec_witness :
    [sampleListing 1 4 10, sampleListing 2 4 50, sampleListing 3 4 30,
        sampleListing 4 1 40] ≠ [] ∧
      fetchAndDisplayFeaturedListings [sampleListing 1 4 10, sampleListing 2 4 50, sampleListing 3 4 30,
        sampleListing 4 1 40] =
        .cards [sampleListing 2 4 50, sampleListing 4 1 40, sampleListing 3 4 30] := by
  obtain ⟨shown, rest, hview, hlen, _⟩ :=
    featured_spec [sampleListing 1 4 10, sampleListing 2 4 50, sampleListing 3 4 30,
      sampleListing 4 1 40] (by simp)
  refine ⟨by simp, ?_⟩
  decide

/-! ## Login -/

theorem isBlankField_some (s : String) (h : s ≠ "") : isBlankField (some s) = false := by
  simpa [isBlankField] using h

theorem postLogin_fault (hasher : Hasher) (email password : String) (st : UserStore)
    (e : DbError) (he : email ≠ "") (hp : password ≠ "")
    (hf : st.selectFault email = some e) :
    postLogin hasher ⟨some email, some password⟩ st =
      ⟨⟨500, [("error", .str "Login failed"), ("details", .str e.message)]⟩, st,
        [.selectUsers email]⟩ := by
  simp [postLogin, loginUser, isBlankField_some _ he, isBlankField_some _ hp, hf]

theorem postLogin_not_found (hasher : Hasher) (email password : String) (st : UserStore)
    (he : email ≠ "") (hp : password ≠ "") (hf : st.selectFault email = none)
    (hrows : st.lookup email = []) :
    postLogin hasher ⟨some email, some password⟩ st =
      ⟨⟨401, [("error", .str "User not found")]⟩, st, [.selectUsers email]⟩ := by
  unfold UserStore.lookup at hrows
  simp [postLogin, loginUser, isBlankField_some _ he, isBlankField_some _ hp, hf, hrows,
    messageOr]

theorem postLogin_mismatch (hasher : Hasher) (email password : String) (st : UserStore)
    (u : Nat × UserRow) (he : email ≠ "") (hp : password ≠ "")
    (hf : st.selectFault email = none) (hu : (st.lookup email).getLast? = some u)
    (hc : hasher.compare password u.2.password_hash = false) :
    postLogin hasher ⟨some email, some password⟩ st =
      ⟨⟨401, [("error", .str "Invalid password")]⟩, st,
        [.selectUsers email, .compare password u.2.password_hash]⟩ := by
  unfold UserStore.lookup at hu
  simp [postLogin, loginUser, isBlankField_some _ he, isBlankField_some _ hp, hf, hu, hc,
    messageOr]

theorem postLogin_match (hasher : Hasher) (email password : String) (st : UserStore)
    (u : Nat × UserRow) (he : email ≠ "") (hp : password ≠ "")
    (hf : st.selectFault email = none) (hu : (st.lookup email).getLast? = some u)
    (hc : hasher.compare password u.2.password_hash = true) :
    postLogin hasher ⟨some email, some password⟩ st =
      ⟨⟨200, [("success", .bool true), ("message", .str "Login successful"),
              ("user", .user u.1 u.2)]⟩, st,
        [.selectUsers email, .compare password u.2.password_hash]⟩ := by
  unfold UserStore.lookup at hu
  simp [postLogin, loginUser, isBlankField_some _ he, isBlankField_some _ hp, hf, hu, hc]

/-- The four exits of the login handler past its presence check. -/
theorem postLogin_cases (hasher : Hasher) (email password : String) (st : UserStore)
    (he : email ≠ "") (hp : password ≠ "") :
    (∃ e, st.selectFault email = some e ∧
      (postLogin hasher ⟨some email, some password⟩ st).response =
        ⟨500, [("error", .str "Login failed"), ("details", .str e.message)]⟩) ∨
    (st.selectFault email = none ∧ st.lookup email = [] ∧
      (postLogin hasher ⟨some email, some password⟩ st).response =
        ⟨401, [("error", .str "User not found")]⟩) ∨
    (∃ u, st.selectFault email = none ∧ (st.lookup email).getLast? = some u ∧
      hasher.compare password u.2.password_hash = false ∧
      (postLogin hasher ⟨some email, some password⟩ st).response =
        ⟨401, [("error", .str "Invalid password")]⟩) ∨
    (∃ u, st.selectFault email = none ∧ (st.lookup email).getLast? = some u ∧
      hasher.compare password u.2.password_hash = true ∧
      (postLogin hasher ⟨some email, some password⟩ st).response =
        ⟨200, [("success", .bool true), ("message", .str "Login successful"),
               ("user", .user u.1 u.2)]⟩) := by
  cases hf : st.selectFault email with
  | some e => exact Or.inl ⟨e, rfl, by rw [postLogin_fault hasher email password st e he hp hf]⟩
  | none =>
    right
    cases hu : (st.lookup email).getLast? with
    | none =>
      have hrows : st.lookup email = [] := List.getLast?_eq_none_iff.mp hu
      exact Or.inl ⟨rfl, hrows, by
        rw [postLogin_not_found hasher email password st he hp hf hrows]⟩
    | some u =>
      right
      cases hc : hasher.compare password u.2.password_hash with
      | false =>
        exact Or.inl ⟨u, rfl, rfl, hc, by
          rw [postLogin_mismatch hasher email password st u he hp hf hu hc]⟩
      | true =>
        exact Or.inr ⟨u, rfl, rfl, hc, by
          rw [postLogin_match hasher email password st u he hp hf hu hc]⟩

/-- C16. For a login with a non-empty email and password, the response is 200
exactly when the lookup by email returns at least one row and the password
verifies against the hash of the last of these rows, the most recently
inserted; it then carries success true.  When the lookup returns no row, or
the password does not verify against that last row, the response is 401 with
an error message, whatever the older rows hold. -/
theorem login_spec (hasher : Hasher) (email password : String) (st : UserStore)
    (he : email ≠ "") (hp : password ≠ "") :
    ((postLogin hasher ⟨some email, some password⟩ st).response.status = 200 ↔
      st.selectFault email = none ∧
        ∃ u, (st.lookup email).getLast? = some u ∧
          hasher.compare password u.2.password_hash = true) ∧
    ((postLogin hasher ⟨some email, some password⟩ st).response.status = 200 →
      ("success", AuthJson.bool true) ∈
        (postLogin hasher ⟨some email, some password⟩ st).response.body) ∧
    (st.selectFault email = none →
      (st.lookup email = [] ∨
        ∃ u, (st.lookup email).getLast? = some u ∧
          hasher.compare password u.2.password_hash = false) →
      (postLogin hasher ⟨some email, some password⟩ st).response.status = 401 ∧
        ∃ message, message ≠ "" ∧
          (postLogin hasher ⟨some email, some password⟩ st).response.body =
            [("error", .str message)]) := by
  rcases postLogin_cases hasher email password st he hp with
    ⟨e, hf, h⟩ | ⟨hf, hrows, h⟩ | ⟨u, hf, hu, hc, h⟩ | ⟨u, hf, hu, hc, h⟩
  · rw [h]
    simp [hf]
  · rw [h]
    refine ⟨by simp [hrows], by simp, ?_⟩
    intro _ _
    exact ⟨rfl, "User not found", by decide, rfl⟩
  · rw [h]
    refine ⟨by simp [hu, hc], by simp, ?_⟩
    intro _ _
    exact ⟨rfl, "Invalid password", by decide, rfl⟩
  · rw [h]
    refine ⟨by simp [hf, hu, hc], by simp, ?_⟩
    intro _ hcase
    rcases hcase with hrows | ⟨v, hv, hvc⟩
    · rw [hrows] at hu
      simp at hu
    · rw [hu] at hv
      cases hv
      rw [hc] at hvc
      exact absurd hvc (by simp)

/-- C16 at a store with two rows for one email: the password of the newer row
logs in; the password of the older row is answered 401. -/
theorem login_spec_witness :
    (postLogin sampleHasher ⟨some "sam@example.com", some "second"⟩ sampleUsers).response.status
        = 200 ∧
      sampleHasher.compare "first" "10$tsrif" = true ∧
      (postLogin sampleHasher ⟨some "sam@example.com", some "first"⟩ sampleUsers).response
        = ⟨401, [("error", .str "Invalid password")]⟩ := by
  have h := login_spec sampleHasher "sam@example.com" "second" sampleUsers (by decide)
    (by decide)
  refine ⟨h.1.mpr ⟨rfl, (2, ⟨"Sam Lee", "sam@example.com", "10$dnoces"⟩), by decide,
    by decide⟩, by decide, by decide⟩

/-- C17, as stated, fails: for the same email and password, the response when
the email is stored and the password is wrong is 401 `Invalid password`, and
the response when no row has the email is 401 `User not found`. -/
theorem login_enumeration_counterexample :
    (postLogin sampleHasher ⟨some "sam@example.com", some "wrong"⟩ sampleUsers).response =
        ⟨401, [("error", .str "Invalid password")]⟩ ∧
      (postLogin sampleHasher ⟨some "sam@example.com", some "wrong"⟩
          { sampleUsers with users := [] }).response =
        ⟨401, [("error", .str "User not found")]⟩ ∧
      (postLogin sampleHasher ⟨some "sam@example.com", some "wrong"⟩ sampleUsers).response ≠
        (postLogin sampleHasher ⟨some "sam@example.com", some "wrong"⟩
          { sampleUsers with users := [] }).response := by
  refine ⟨by decide, by decide, by decide⟩

/-- C17, amended. For every email and password, the failed login against a
store that holds the email (password not verifying against the last row) and
the failed login against a store that does not hold it have the same status,
401, and different error messages, `Invalid password` and `User not found`. -/
theorem login_failure_responses (hasher : Hasher) (email password : String)
    (known unknown : UserStore) (u : Nat × UserRow)
    (he : email ≠ "") (hp : password ≠ "")
    (hk : known.selectFault email = none) (hn : unknown.selectFault email = none)
    (hu : (known.lookup email).getLast? = some u)
    (hc : hasher.compare password u.2.password_hash = false)
    (hrows : unknown.lookup email = []) :
    (postLogin hasher ⟨some email, some password⟩ known).response =
        ⟨401, [("error", .str "Invalid password")]⟩ ∧
      (postLogin hasher ⟨some email, some password⟩ unknown).response =
        ⟨401, [("error", .str "User not found")]⟩ ∧
      (postLogin hasher ⟨some email, some password⟩ known).response.status =
        (postLogin hasher ⟨some email, some password⟩ unknown).response.status ∧
      (postLogin hasher ⟨some email, some password⟩ known).response.body ≠
        (postLogin hasher ⟨some email, some password⟩ unknown).response.body := by
  rw [postLogin_mismatch hasher email password known u he hp hk hu hc,
    postLogin_not_found hasher email password unknown he hp hn hrows]
  refine ⟨rfl, rfl, rfl, ?_⟩
  show [("error", AuthJson.str "Invalid password")] ≠ [("error", AuthJson.str "User not found")]
  decide

/-- C17, amended, at the sample store and the same store without rows. -/
theorem login_failure_responses_witness :
    (postLogin sampleHasher ⟨some "sam@example.com", some "wrong"⟩ sampleUsers).response.status
        = 401 ∧
      (postLogin sampleHasher ⟨some "sam@example.com", some "wrong"⟩
          { sampleUsers with users := [] }).response.status = 401 := by
  have h := login_failure_responses sampleHasher "sam@example.com" "wrong" sampleUsers
    { sampleUsers with users := [] } (2, ⟨"Sam Lee", "sam@example.com", "10$dnoces"⟩)
    (by decide) (by decide) rfl rfl (by decide) (by decide) (by decide)
  exact ⟨by rw [h.1], by rw [h.2.1]⟩

/-! ## Registration -/

theorem isBlankField_iff (field : Option String) :
    isBlankField field = true ↔ field = none ∨ field = some "" := by
  cases field <;> simp [isBlankField]

theorem postRegister_blank (hasher : Hasher) (body : RegisterBody) (st : UserStore)
    (h : (isBlankField body.full_name || isBlankField body.email ||
      isBlankField body.password) = true) :
    postRegister hasher body st =
      ⟨⟨400, [("error", .str "All fields are required.")]⟩, st, []⟩ := by
  simp only [postRegister, h, if_true]

theorem postRegister_filled (hasher : Hasher) (fn em pw : String) (st : UserStore)
    (hfn : fn ≠ "") (hem : em ≠ "") (hpw : pw ≠ "") :
    (st.insertFault ⟨fn, em, hasher.hash pw 10⟩ = none →
      postRegister hasher ⟨some fn, some em, some pw⟩ st =
        ⟨⟨201, [("success", .bool true), ("message", .str "Registration successful"),
                ("userId", .num st.nextId)]⟩,
          { st with users := st.users ++ [(st.nextId, ⟨fn, em, hasher.hash pw 10⟩)]
                    nextId := st.nextId + 1 },
          [.hash pw 10, .insertUser ⟨fn, em, hasher.hash pw 10⟩]⟩) ∧
    (∀ e, st.insertFault ⟨fn, em, hasher.hash pw 10⟩ = some e → e.code = "ER_DUP_ENTRY" →
      postRegister hasher ⟨some fn, some em, some pw⟩ st =
        ⟨⟨409, [("error", .str "Registration failed"),
                ("details",
                  .str "Email already registered. Please use a different email or log in.")]⟩,
          st, [.hash pw 10, .insertUser ⟨fn, em, hasher.hash pw 10⟩]⟩) ∧
    (∀ e, st.insertFault ⟨fn, em, hasher.hash pw 10⟩ = some e → e.code ≠ "ER_DUP_ENTRY" →
      postRegister hasher ⟨some fn, some em, some pw⟩ st =
        ⟨⟨500, [("error", .str "Registration failed"), ("details", .str e.message)]⟩,
          st, [.hash pw 10, .insertUser ⟨fn, em, hasher.hash pw 10⟩]⟩) := by
  have b1 := isBlankField_some fn hfn
  have b2 := isBlankField_some em hem
  have b3 := isBlankField_some pw hpw
  refine ⟨?_, ?_, ?_⟩
  · intro hf
    simp [postRegister, registerUser, b1, b2, b3, hf]
  · intro e hf hcode
    simp [postRegister, registerUser, b1, b2, b3, hf, hcode]
  · intro e hf hcode
    simp [postRegister, registerUser, b1, b2, b3, hf, hcode]

/-- C18. When full_name, email or password is missing or empty the response
is 400 and neither the hasher nor the store is called.  Otherwise the row is
inserted with the hashed password, and the response is 201 with success true
and the generated identifier as userId when the insert succeeds, 409 when it
fails with the code `ER_DUP_ENTRY`, and 500 when it fails with another
error. -/
theorem register_spec (hasher : Hasher) (body : RegisterBody) (st : UserStore) :
    ((∃ field ∈ [body.full_name, body.email, body.password],
        field = none ∨ field = some "") →
      (postRegister hasher body st).response =
          ⟨400, [("error", .str "All fields are required.")]⟩ ∧
        (postRegister hasher body st).trace = [] ∧
        (postRegister hasher body st).store.users = st.users) ∧
    (∀ fn em pw, body = ⟨some fn, some em, some pw⟩ → fn ≠ "" → em ≠ "" → pw ≠ "" →
      (st.insertFault ⟨fn, em, hasher.hash pw 10⟩ = none →
        (postRegister hasher body st).response =
          ⟨201, [("success", .bool true), ("message", .str "Registration successful"),
                 ("userId", .num st.nextId)]⟩ ∧
        (postRegister hasher body st).store.users =
          st.users ++ [(st.nextId, ⟨fn, em, hasher.hash pw 10⟩)]) ∧
      (∀ e, st.insertFault ⟨fn, em, hasher.hash pw 10⟩ = some e →
        (e.code = "ER_DUP_ENTRY" → (postRegister hasher body st).response.status = 409) ∧
        (e.code ≠ "ER_DUP_ENTRY" → (postRegister hasher body st).response.status = 500) ∧
        (postRegister hasher body st).store.users = st.users)) := by
  refine ⟨?_, ?_⟩
  · rintro ⟨field, hmem, hblank⟩
    have hb : (isBlankField body.full_name || isBlankField body.email ||
        isBlankField body.password) = true := by
      have hf := (isBlankField_iff field).mpr hblank
      simp only [List.mem_cons, List.mem_singleton, List.not_mem_nil, or_false] at hmem
      rcases hmem with rfl | rfl | rfl <;> simp [hf]
    rw [postRegister_blank hasher body st hb]
    exact ⟨rfl, rfl, rfl⟩
  · rintro fn em pw rfl hfn hem hpw
    obtain ⟨h201, h409, h500⟩ := postRegister_filled hasher fn em pw st hfn hem hpw
    refine ⟨?_, ?_⟩
    · intro hf
      rw [h201 hf]
      exact ⟨rfl, rfl⟩
    · intro e hf
      refine ⟨?_, ?_, ?_⟩
      · intro hcode
        rw [h409 e hf hcode]
      · intro hcode
        rw [h500 e hf hcode]
      · by_cases hcode : e.code = "ER_DUP_ENTRY"
        · rw [h409 e hf hcode]
        · rw [h500 e hf hcode]

/-- C19. The function `registerUser` always calls the hasher on the raw
password with cost 10 and then issues one insert, whose credential is the
hasher's output.  So does every registration with the three fields filled:
its calls are exactly the hasher call followed by the insert of the submitted
name and email with that output, and on success this is the row stored; a
registration with a blank field calls neither.  Hence every insert of a
registration carries the hash, never another credential.  The responses of
status 201, 400 and 409 are determined by the status and the generated
identifier: two registrations with different passwords or hashers that end
in the same of these statuses, on stores with the same next identifier, get
the same response. -/
theorem register_credential (hasher : Hasher) (body : RegisterBody) (st : UserStore) :
    (∀ (f e p : String) (s : UserStore),
      (registerUser hasher f e p s).trace =
        [.hash p 10, .insertUser ⟨f, e, hasher.hash p 10⟩]) ∧
    (∀ fn em pw, body = ⟨some fn, some em, some pw⟩ → fn ≠ "" → em ≠ "" → pw ≠ "" →
      (postRegister hasher body st).trace =
          [.hash pw 10, .insertUser ⟨fn, em, hasher.hash pw 10⟩] ∧
        (st.insertFault ⟨fn, em, hasher.hash pw 10⟩ = none →
          (postRegister hasher body st).store.users =
            st.users ++ [(st.nextId, ⟨fn, em, hasher.hash pw 10⟩)])) ∧
    ((isBlankField body.full_name || isBlankField body.email ||
        isBlankField body.password) = true →
      (postRegister hasher body st).trace = [] ∧
        (postRegister hasher body st).store.users = st.users) ∧
    (∀ row, AuthEffect.insertUser row ∈ (postRegister hasher body st).trace →
      ∃ fn em pw, body = ⟨some fn, some em, some pw⟩ ∧
        row = ⟨fn, em, hasher.hash pw 10⟩ ∧
        (postRegister hasher body st).trace = [.hash pw 10, .insertUser row]) ∧
    (∀ (hasher2 : Hasher) (body2 : RegisterBody) (st2 : UserStore),
      st2.nextId = st.nextId →
      (postRegister hasher2 body2 st2).response.status =
        (postRegister hasher body st).response.status →
      (postRegister hasher body st).response.status ∈ [201, 400, 409] →
      (postRegister hasher2 body2 st2).response = (postRegister hasher body st).response) := by
  have key : ∀ (h : Hasher) (b : RegisterBody) (s : UserStore),
      ((isBlankField b.full_name || isBlankField b.email || isBlankField b.password) = true ∧
        (postRegister h b s).response =
          ⟨400, [("error", .str "All fields are required.")]⟩ ∧
        (postRegister h b s).trace = [] ∧ (postRegister h b s).store.users = s.users) ∨
      (∃ fn em pw, b = ⟨some fn, some em, some pw⟩ ∧ fn ≠ "" ∧ em ≠ "" ∧ pw ≠ "" ∧
        (postRegister h b s).trace = [.hash pw 10, .insertUser ⟨fn, em, h.hash pw 10⟩] ∧
        (s.insertFault ⟨fn, em, h.hash pw 10⟩ = none →
          (postRegister h b s).store.users =
            s.users ++ [(s.nextId, ⟨fn, em, h.hash pw 10⟩)]) ∧
        ((postRegister h b s).response =
            ⟨201, [("success", .bool true), ("message", .str "Registration successful"),
                   ("userId", .num s.nextId)]⟩ ∨
          (postRegister h b s).response =
            ⟨409, [("error", .str "Registration failed"),
                   ("details",
                     .str "Email already registered. Please use a different email or log in.")]⟩ ∨
          (postRegister h b s).response.status = 500)) := by
    intro h b s
    by_cases hb : (isBlankField b.full_name || isBlankField b.email ||
        isBlankField b.password) = true
    · left
      rw [postRegister_blank h b s hb]
      exact ⟨hb, rfl, rfl, rfl⟩
    · right
      simp only [Bool.or_eq_true, not_or, Bool.not_eq_true] at hb
      obtain ⟨⟨h1, h2⟩, h3⟩ := hb
      obtain ⟨ofn, oem, opw⟩ := b
      cases ofn with
      | none => simp [isBlankField] at h1
      | some fn =>
        cases oem with
        | none => simp [isBlankField] at h2
        | some em =>
          cases opw with
          | none => simp [isBlankField] at h3
          | some pw =>
            have hfn : fn ≠ "" := by simpa [isBlankField] using h1
            have hem : em ≠ "" := by simpa [isBlankField] using h2
            have hpw : pw ≠ "" := by simpa [isBlankField] using h3
            obtain ⟨h201, h409, h500⟩ := postRegister_filled h fn em pw s hfn hem hpw
            refine ⟨fn, em, pw, rfl, hfn, hem, hpw, ?_⟩
            cases hf : s.insertFault ⟨fn, em, h.hash pw 10⟩ with
            | none =>
              rw [h201 hf]
              exact ⟨rfl, fun _ => rfl, Or.inl rfl⟩
            | some e =>
              by_cases hcode : e.code = "ER_DUP_ENTRY"
              · rw [h409 e hf hcode]
                exact ⟨rfl, fun hn => absurd hn (by simp), Or.inr (Or.inl rfl)⟩
              · rw [h500 e hf hcode]
                exact ⟨rfl, fun hn => absurd hn (by simp), Or.inr (Or.inr rfl)⟩
  refine ⟨?_, ?_, ?_, ?_, ?_⟩
  · intro f e p s
    unfold registerUser
    simp only
    split <;> rfl
  · rintro fn em pw rfl hfn hem hpw
    rcases key hasher ⟨some fn, some em, some pw⟩ st with
      ⟨hb, _⟩ | ⟨fn2, em2, pw2, hb, _, _, _, ht, hs, _⟩
    · simp [isBlankField, hfn, hem, hpw] at hb
    · simp only [RegisterBody.mk.injEq, Option.some.injEq] at hb
      obtain ⟨rfl, rfl, rfl⟩ := hb
      exact ⟨ht, hs⟩
  · intro hblank
    rw [postRegister_blank hasher body st hblank]
    exact ⟨rfl, rfl⟩
  · intro row hrow
    rcases key hasher body st with ⟨_, _, ht, _⟩ | ⟨fn, em, pw, hb, _, _, _, ht, _, _⟩
    · rw [ht] at hrow
      simp at hrow
    · rw [ht] at hrow
      simp only [List.mem_cons, reduceCtorEq, AuthEffect.insertUser.injEq, List.mem_singleton,
        false_or, List.not_mem_nil, or_false] at hrow
      exact ⟨fn, em, pw, hb, hrow, by rw [ht, hrow]⟩
  · intro hasher2 body2 st2 hid hstatus hmem
    rcases key hasher body st with ⟨_, h1, _⟩ | ⟨_, _, _, _, _, _, _, _, _, h1 | h1 | h1⟩
    · rcases key hasher2 body2 st2 with
        ⟨_, h2, _⟩ | ⟨_, _, _, _, _, _, _, _, _, h2 | h2 | h2⟩
      · rw [h1, h2]
      · rw [h1, h2] at hstatus; simp at hstatus
      · rw [h1, h2] at hstatus; simp at hstatus
      · rw [h1, h2] at hstatus; simp at hstatus
    · rcases key hasher2 body2 st2 with
        ⟨_, h2, _⟩ | ⟨_, _, _, _, _, _, _, _, _, h2 | h2 | h2⟩
      · rw [h1, h2] at hstatus; simp at hstatus
      · rw [h1, h2, hid]
      · rw [h1, h2] at hstatus; simp at hstatus
      · rw [h1, h2] at hstatus; simp at hstatus
    · rcases key hasher2 body2 st2 with
        ⟨_, h2, _⟩ | ⟨_, _, _, _, _, _, _, _, _, h2 | h2 | h2⟩
      · rw [h1, h2] at hstatus; simp at hstatus
      · rw [h1, h2] at hstatus; simp at hstatus
      · rw [h1, h2]
      · rw [h1, h2] at hstatus; simp at hstatus
    · rw [h1] at hmem
      simp at hmem

/-- C19 at a registration of `Ana Diaz` with the password `s3cret` on the
sample store: the hasher is called on `s3cret` with cost 10, then the insert
carries the hasher's output `10$terc3s`, and that is the row stored under the
next identifier. -/
theorem register_credential_witness :
    sampleHasher.hash "s3cret" 10 = "10$terc3s" ∧
      (postRegister sampleHasher ⟨some "Ana Diaz", some "ana@example.com", some "s3cret"⟩
          sampleUsers).trace =
        [.hash "s3cret" 10, .insertUser ⟨"Ana Diaz", "ana@example.com", "10$terc3s"⟩] ∧
      (postRegister sampleHasher ⟨some "Ana Diaz", some "ana@example.com", some "s3cret"⟩
          sampleUsers).store.users =
        sampleUsers.users ++ [(3, ⟨"Ana Diaz", "ana@example.com", "10$terc3s"⟩)] := by
  have hhash : sampleHasher.hash "s3cret" 10 = "10$terc3s" := by decide
  obtain ⟨ht, hs⟩ := (register_credential sampleHasher
    ⟨some "Ana Diaz", some "ana@example.com", some "s3cret"⟩ sampleUsers).2.1
    "Ana Diaz" "ana@example.com" "s3cret" rfl (by decide) (by decide) (by decide)
  rw [hhash] at ht hs
  exact ⟨hhash, ht, hs rfl⟩

/-! ## The file gate of the route -/

/-- An upload whose file (with a filename) the filter rejects, or whose file
is larger than the limit, never reaches the handler: the default error
handler answers 500, no effect is issued and the world is as before. -/
theorem postListingsRoute_gate_violation (uploadDir : String) (inc : Incoming) (w : World)
    (part : FilePart) (hfile : inc.file = some part)
    (hname : part.fieldname = "image_file") (horig : part.originalname ≠ "")
    (hviol : (∃ message,
        fileFilter ⟨toLowerCase part.mimetype, part.originalname⟩ = .reject message) ∨
      part.size > fileSizeLimit) :
    postListingsRoute uploadDir inc w = ⟨⟨500, []⟩, w, []⟩ := by
  unfold postListingsRoute uploadSingle
  simp only [hfile, hname, horig, ne_eq, not_true_eq_false, if_false]
  cases hff : fileFilter ⟨toLowerCase part.mimetype, part.originalname⟩ with
  | reject message => simp [defaultErrorHandler]
  | accept =>
    rcases hviol with ⟨message, hm⟩ | hsize
    · rw [hff] at hm
      exact absurd hm (by simp)
    · simp [hsize, defaultErrorHandler]

/-- C20 fails on the code: the upload of `notes.txt` declared as `text/plain`,
which the file filter rejects, and the upload of a PNG of 6,000,000 bytes,
which exceeds the limit of 5,242,880 bytes, are both answered 500, not 400.
In both cases no row is inserted and no file is left in the directory. -/
theorem file_gate_answers_500 :
    fileFilter ⟨"text/plain", "notes.txt"⟩ = .reject fileFilterError ∧
      (postListingsRoute "/srv/app/uploads"
        (incomingWith ⟨"image_file", "text/plain", "notes.txt", 120⟩) emptyWorld).response.status
        = 500 ∧
      fileSizeLimit = 5242880 ∧
      (postListingsRoute "/srv/app/uploads"
        (incomingWith ⟨"image_file", "image/png", "big.png", 6000000⟩) emptyWorld).response.status
        = 500 ∧
      (postListingsRoute "/srv/app/uploads"
        (incomingWith ⟨"image_file", "text/plain", "notes.txt", 120⟩) emptyWorld).trace = [] ∧
      (postListingsRoute "/srv/app/uploads"
        (incomingWith ⟨"image_file", "text/plain", "notes.txt", 120⟩) emptyWorld).world.files
        = [] ∧
      (postListingsRoute "/srv/app/uploads"
        (incomingWith ⟨"image_file", "image/png", "big.png", 6000000⟩) emptyWorld).trace = [] ∧
      (postListingsRoute "/srv/app/uploads"
        (incomingWith ⟨"image_file", "image/png", "big.png", 6000000⟩) emptyWorld).world.files
        = [] := by
  refine ⟨by decide, by decide, by decide, by decide, by decide, by decide, by decide,
    by decide⟩

/-! ## Order of the gates and tolerance of a failed deletion -/

theorem missingFieldsMessage_ne_invalid (missing : List String) :
    missingFieldsMessage missing ≠ invalidNumericMessage := by
  intro h
  have hd := congrArg (fun t : String => t.data.head?) h
  simp [missingFieldsMessage, invalidNumericMessage, String.data_append] at hd

/-- A file part with an empty filename is dropped by the middleware: the
handler runs without `req.file`. -/
theorem uploadSingle_empty_filename (uploadDir : String) (inc : Incoming) (w : World)
    (part : FilePart) (hfile : inc.file = some part) (horig : part.originalname = "") :
    uploadSingle uploadDir inc w = .ok (⟨none, inc.body⟩, w) := by
  simp [uploadSingle, hfile, horig]

/-- The filter sees the declared content type in lower case: an upload
declared as `IMAGE/PNG` is staged. -/
theorem uploadSingle_lowers_type :
    (uploadSingle "/srv/app/uploads"
      (incomingWith ⟨"image_file", "IMAGE/PNG", "photo.png", 120⟩) emptyWorld).toOption.map
        (fun r => r.1.file) =
      some (some ⟨"/srv/app/uploads/1700000000001-q8w2e4r.bin", "1700000000001-q8w2e4r.bin"⟩) := by
  decide

theorem postListingsRoute_no_file (uploadDir : String) (inc : Incoming) (w : World)
    (h : inc.file = none) :
    postListingsRoute uploadDir inc w = ⟨⟨400, [("error", .str noFileMessage)]⟩, w, []⟩ := by
  simp [postListingsRoute, uploadSingle, h, postListings, tryBlock]

/-- C21. The gates run in the order file, required fields, numeric coercion,
persistence, and the first that fails decides the response.  Without a file
the response is the no-file 400, whatever the fields hold, at the handler and
at the route.  With a staged file and a missing or blank required field the
response is the missing-fields 400, which names the missing fields and is not
the invalid-numeric 400, whatever the numeric fields hold, and nothing is
inserted.  With a staged file, no field missing and a `NaN` among the coerced
numbers the response is the invalid-numeric 400 and nothing is inserted. -/
theorem gate_order (req : Request) (w : World) :
    (req.file = none →
      (postListings req w).response = ⟨400, [("error", .str noFileMessage)]⟩ ∧
        (postListings req w).trace = []) ∧
    (∀ (uploadDir : String) (inc : Incoming), inc.file = none →
      (postListingsRoute uploadDir inc w).response =
        ⟨400, [("error", .str noFileMessage)]⟩) ∧
    (∀ file, req.file = some file → missingFields req.body ≠ [] →
      (postListings req w).response =
          ⟨400, [("error", .str ("Missing or empty required fields: " ++
            ", ".intercalate (missingFields req.body)))]⟩ ∧
        (postListings req w).response ≠ ⟨400, [("error", .str invalidNumericMessage)]⟩ ∧
        (postListings req w).trace = [.unlink file.path]) ∧
    (∀ file n, req.file = some file → missingFields req.body = [] →
      coerceNumerics req.body = .ok n → n.anyNaN = true →
      (postListings req w).response = ⟨400, [("error", .str invalidNumericMessage)]⟩ ∧
        (postListings req w).trace = [.unlink file.path]) := by
  refine ⟨?_, ?_, ?_, ?_⟩
  · intro h
    rw [postListings_no_file req w h]
    exact ⟨rfl, rfl⟩
  · intro uploadDir inc h
    rw [postListingsRoute_no_file uploadDir inc w h]
  · intro file hfile hm
    rw [postListings_missing req w file hfile hm]
    refine ⟨rfl, ?_, rfl⟩
    intro h
    have h2 : missingFieldsMessage (missingFields req.body) = invalidNumericMessage := by
      simpa using h
    exact missingFieldsMessage_ne_invalid _ h2
  · intro file n hfile hm hc hn
    rw [postListings_nan req w file n hfile hm hc hn]
    exact ⟨rfl, rfl⟩

/-- The response and the effects of the handler do not depend on what the
upload directory holds. -/
theorem postListings_files_irrelevant (req : Request) (w : World) (fs : List String) :
    (postListings req { w with files := fs }).response = (postListings req w).response ∧
      (postListings req { w with files := fs }).trace = (postListings req w).trace := by
  rcases postListings_cases req w with
    ⟨hfile, h⟩ | ⟨file, hfile, hm, h⟩ | ⟨file, e, hfile, hm, hc, h⟩ |
    ⟨file, n, hfile, hm, hc, hn, h⟩ | ⟨file, n, e, hfile, hm, hc, hn, hf, h⟩ |
    ⟨file, n, hfile, hm, hc, hn, hf, h⟩
  · rw [h, postListings_no_file req _ hfile]
    exact ⟨rfl, rfl⟩
  · rw [h, postListings_missing req _ file hfile hm]
    exact ⟨rfl, rfl⟩
  · rw [h, postListings_coerce_throws req _ file e hfile hm hc,
      catchBlock_typeError req file _ hfile (coerceNumerics_error_kind _ _ hc)]
    exact ⟨rfl, rfl⟩
  · rw [h, postListings_nan req _ file n hfile hm hc hn]
    exact ⟨rfl, rfl⟩
  · rw [h, postListings_insert_fails req { w with files := fs } file n e hfile hm hc hn hf]
    exact ⟨rfl, rfl⟩
  · rw [h, postListings_success req { w with files := fs } file n hfile hm hc hn hf]
    exact ⟨rfl, rfl⟩

/-- C22. When the staged file is already missing, so that its deletion
fails, the handler still ends with a response, and this response and the
effects issued are those of the same request on a world where the file is
present and its deletion succeeds; the only deletion attempted is that of the
staged file, and the failed deletion leaves the directory as it was. -/
theorem unlink_failure_tolerated (req : Request) (w : World) (file : StagedFile)
    (hfile : req.file = some file) (hgone : file.path ∉ w.files) :
    (∃ e, unlink file.path w = .error e) ∧
      (∃ w1, unlink file.path { w with files := file.path :: w.files } = .ok w1) ∧
      (postListings req w).response =
        (postListings req { w with files := file.path :: w.files }).response ∧
      (postListings req w).trace =
        (postListings req { w with files := file.path :: w.files }).trace ∧
      (∀ p, Effect.unlink p ∈ (postListings req w).trace → p = file.path) ∧
      (unlinkCaught file.path w).files = w.files := by
  have hirr := postListings_files_irrelevant req w (file.path :: w.files)
  refine ⟨?_, ?_, hirr.1.symm, hirr.2.symm, ?_, ?_⟩
  · simp [unlink, hgone]
  · simp [unlink]
  · intro p hp
    rcases postListings_cases req w with
      ⟨hnone, h⟩ | ⟨f, hf, _, h⟩ | ⟨f, _, hf, _, _, h⟩ |
      ⟨f, _, hf, _, _, _, h⟩ | ⟨f, _, _, hf, _, _, _, _, h⟩ |
      ⟨f, _, hf, _, _, _, _, h⟩
    · rw [h] at hp; simp at hp
    all_goals
      rw [hfile] at hf
      cases hf
      rw [h] at hp
      simp at hp <;> exact hp
  · simp [unlinkCaught, unlink, hgone]

/-- C22 at a form without a title whose staged file is already gone: the
response is the missing-fields 400 all the same. -/
theorem unlink_failure_tolerated_witness :
    sampleFile.path ∉ emptyWorld.files ∧
      (postListings (sampleRequest [("title", .str "")]) emptyWorld).response =
        ⟨400, [("error", .str "Missing or empty required fields: title")]⟩ ∧
      (postListings (sampleRequest [("title", .str "")]) emptyWorld).response =
        (postListings (sampleRequest [("title", .str "")])
          { emptyWorld with files := sampleFile.path :: emptyWorld.files }).response := by
  have h := unlink_failure_tolerated (sampleRequest [("title", .str "")]) emptyWorld
    sampleFile rfl (by decide)
  exact ⟨by decide, by decide, h.2.2.1⟩

/-! ## The client access gate -/

theorem getItem_setItem_self (s : SessionStorage) (key value : String) :
    getItem (setItem s key value) key = some value := by
  simp [getItem, setItem]

theorem getItem_removeItem_of_ne (s : SessionStorage) (key other : String)
    (h : other ≠ key) : getItem (removeItem s key) other = getItem s other := by
  induction s with
  | nil => rfl
  | cons e rest ih =>
    unfold getItem removeItem at *
    by_cases he : e.1 = key
    · have hne : e.1 ≠ other := fun h2 => h (h2 ▸ he)
      simp only [List.filter_cons, he, bne_self_eq_false, Bool.false_eq_true, if_false]
      rw [ih]
      simp [List.find?_cons, he, Ne.symm h]
    · have hb : (e.1 != key) = true := by simpa using he
      simp only [List.filter_cons, hb, if_true, List.find?_cons]
      by_cases ho : e.1 = other
      · simp [ho]
      · have hbo : (e.1 == other) = false := by simpa using ho
        simp only [hbo]
        exact ih

theorem getItem_setItem_of_ne (s : SessionStorage) (key value other : String)
    (h : other ≠ key) : getItem (setItem s key value) other = getItem s other := by
  have hb : (key == other) = false := by simpa using Ne.symm h
  unfold setItem
  have : getItem ((key, value) :: removeItem s key) other = getItem (removeItem s key) other := by
    simp [getItem, List.find?_cons, hb]
  rw [this, getItem_removeItem_of_ne s key other h]

theorem isLoggedIn_iff (s : SessionStorage) :
    isLoggedIn s = true ↔ getItem s "isLoggedIn" = some "true" := by
  simp [isLoggedIn]

theorem isLoggedIn_false_iff (s : SessionStorage) :
    isLoggedIn s = false ↔ getItem s "isLoggedIn" ≠ some "true" := by
  simp [isLoggedIn]

theorem loginSubmit_flag (isValid : Bool) (fetched : FetchResult) (s : SessionStorage)
    (h0 : getItem s "isLoggedIn" ≠ some "true")
    (h1 : getItem (loginSubmit isValid fetched s).session "isLoggedIn" = some "true") :
    ∃ r, isValid = true ∧ fetched = .reply r ∧ r.ok = true := by
  cases isValid with
  | false => exact absurd (by simpa [loginSubmit] using h1) h0
  | true =>
    cases fetched with
    | rejected message => exact absurd (by simpa [loginSubmit] using h1) h0
    | reply r =>
      cases hok : r.ok with
      | false => exact absurd (by simpa [loginSubmit, hok] using h1) h0
      | true => exact ⟨r, rfl, rfl, hok⟩

/-- C23. In every session state: the create-listing form is revealed, the
property details are loaded, and a View Details click keeps its default
navigation, only when `isLoggedIn` is the string `true`; otherwise the
requested address is stored under `redirectAfterLogin` and the page goes to
`login.html`.  Among the handlers of the script only a valid login submit
whose reply has an ok status turns the flag to `true`, and the logout empties
the session storage. -/
theorem access_gate (s : SessionStorage) :
    (∀ pathname href hasContainer,
      (PageEffect.revealForm ∈ (createListingAccess pathname href hasContainer s).effects →
        getItem s "isLoggedIn" = some "true") ∧
      (includes pathname "create-listing.html" = true →
        getItem s "isLoggedIn" ≠ some "true" →
        getItem (createListingAccess pathname href hasContainer s).session
            "redirectAfterLogin" = some href ∧
          PageEffect.navigate "login.html" ∈
            (createListingAccess pathname href hasContainer s).effects)) ∧
    (∀ pathname href,
      (PageEffect.loadPropertyDetails ∈ (propertyDetailAccess pathname href s).effects →
        getItem s "isLoggedIn" = some "true") ∧
      (includes pathname "property-detail.html" = true →
        getItem s "isLoggedIn" ≠ some "true" →
        getItem (propertyDetailAccess pathname href s).session "redirectAfterLogin"
            = some href ∧
          PageEffect.navigate "login.html" ∈ (propertyDetailAccess pathname href s).effects)) ∧
    (∀ href,
      (PageEffect.preventDefault ∉ (handleViewDetailsClick href s).effects ↔
        getItem s "isLoggedIn" = some "true") ∧
      (getItem s "isLoggedIn" ≠ some "true" →
        getItem (handleViewDetailsClick href s).session "redirectAfterLogin" = some href ∧
          PageEffect.navigate "login.html" ∈ (handleViewDetailsClick href s).effects)) ∧
    (∀ a, getItem s "isLoggedIn" ≠ some "true" →
      getItem (runAction a s).session "isLoggedIn" = some "true" →
      ∃ r, a = .loginFormSubmit true (.reply r) ∧ r.ok = true) ∧
    ((logoutClick s).session = [] ∧ ∀ key, getItem (logoutClick s).session key = none) := by
  have hkeep : ∀ href, getItem (setItem s "redirectAfterLogin" href) "isLoggedIn" =
      getItem s "isLoggedIn" :=
    fun href => getItem_setItem_of_ne s _ href _ (by decide)
  refine ⟨?_, ?_, ?_, ?_, ?_⟩
  · intro pathname href hasContainer
    refine ⟨?_, ?_⟩
    · intro hmem
      by_cases hl : getItem s "isLoggedIn" = some "true"
      · exact hl
      · have hf := (isLoggedIn_false_iff s).mpr hl
        unfold createListingAccess at hmem
        by_cases hp : includes pathname "create-listing.html" = true
        · simp [hp, hf] at hmem
        · simp [hp] at hmem
    · intro hp hl
      have hf := (isLoggedIn_false_iff s).mpr hl
      simp only [createListingAccess, hp, hf, if_true, Bool.not_false]
      exact ⟨getItem_setItem_self _ _ _, by simp⟩
  · intro pathname href
    refine ⟨?_, ?_⟩
    · intro hmem
      by_cases hl : getItem s "isLoggedIn" = some "true"
      · exact hl
      · have hf := (isLoggedIn_false_iff s).mpr hl
        unfold propertyDetailAccess at hmem
        by_cases hp : includes pathname "property-detail.html" = true
        · simp [hp, hf] at hmem
        · simp [hp] at hmem
    · intro hp hl
      have hf := (isLoggedIn_false_iff s).mpr hl
      simp only [propertyDetailAccess, hp, hf, if_true, Bool.not_false]
      exact ⟨getItem_setItem_self _ _ _, by simp⟩
  · intro href
    by_cases hl : getItem s "isLoggedIn" = some "true"
    · simp [handleViewDetailsClick, hl]
    · have hb : (getItem s "isLoggedIn" != some "true") = true := by simpa using hl
      refine ⟨?_, ?_⟩
      · simp [handleViewDetailsClick, hb, hl]
      · intro _
        simp only [handleViewDetailsClick, hb, if_true]
        exact ⟨getItem_setItem_self _ _ _, by simp⟩
  · intro a h0 h1
    cases a with
    | createListingLoad pathname href hasContainer =>
      exfalso
      apply h0
      simp only [runAction, createListingAccess] at h1
      split at h1
      · split at h1
        · rw [hkeep] at h1; exact h1
        · split at h1 <;> exact h1
      · exact h1
    | propertyDetailLoad pathname href =>
      exfalso
      apply h0
      simp only [runAction, propertyDetailAccess] at h1
      split at h1
      · split at h1
        · rw [hkeep] at h1; exact h1
        · exact h1
      · exact h1
    | viewDetailsClick href =>
      exfalso
      apply h0
      simp only [runAction, handleViewDetailsClick] at h1
      split at h1
      · rw [hkeep] at h1; exact h1
      · exact h1
    | loginFormSubmit isValid fetched =>
      obtain ⟨r, hv, hf, hok⟩ := loginSubmit_flag isValid fetched s h0 h1
      exact ⟨r, by rw [hv, hf], hok⟩
    | logout =>
      simp [runAction, logoutClick, clearStorage, getItem] at h1
  · exact ⟨rfl, fun key => rfl⟩

/-! ## What a successful login returns -/

theorem postLogin_blank (hasher : Hasher) (body : LoginBody) (st : UserStore)
    (h : (isBlankField body.email || isBlankField body.password) = true) :
    postLogin hasher body st =
      ⟨⟨400, [("error", .str "Email and password are required.")]⟩, st, []⟩ := by
  simp only [postLogin, h, if_true]

/-- C24. Whenever the login response is 200, its `user` value is the whole
row that `loginUser` selected, the last stored row with the email, and so it
carries that row's `password_hash` next to `full_name` and `email`. -/
theorem login_returns_row (hasher : Hasher) (body : LoginBody) (st : UserStore)
    (h200 : (postLogin hasher body st).response.status = 200) :
    ∃ email u, body.email = some email ∧
      (st.lookup email).getLast? = some u ∧ u ∈ st.users ∧
      (postLogin hasher body st).response.body =
        [("success", .bool true), ("message", .str "Login successful"),
         ("user", .user u.1 ⟨u.2.full_name, u.2.email, u.2.password_hash⟩)] := by
  by_cases hb : (isBlankField body.email || isBlankField body.password) = true
  · rw [postLogin_blank hasher body st hb] at h200
    simp at h200
  · simp only [Bool.or_eq_true, not_or, Bool.not_eq_true] at hb
    obtain ⟨h1, h2⟩ := hb
    obtain ⟨oe, op⟩ := body
    cases oe with
    | none => simp [isBlankField] at h1
    | some email =>
      cases op with
      | none => simp [isBlankField] at h2
      | some password =>
        have he : email ≠ "" := by simpa [isBlankField] using h1
        have hp : password ≠ "" := by simpa [isBlankField] using h2
        rcases postLogin_cases hasher email password st he hp with
          ⟨e, _, h⟩ | ⟨_, _, h⟩ | ⟨u, _, _, _, h⟩ | ⟨u, _, hu, _, h⟩
        · rw [h] at h200; simp at h200
        · rw [h] at h200; simp at h200
        · rw [h] at h200; simp at h200
        · refine ⟨email, u, rfl, hu, ?_, by rw [h]⟩
          have hmem : u ∈ st.lookup email := List.mem_of_getLast?_eq_some hu
          exact (List.mem_filter.mp hmem).1

/-- C24 at the sample store: the response to the newer password carries the
stored hash of the second row. -/
theorem login_returns_row_witness :
    (postLogin sampleHasher ⟨some "sam@example.com", some "second"⟩ sampleUsers).response.status
        = 200 ∧
      (postLogin sampleHasher ⟨some "sam@example.com", some "second"⟩ sampleUsers).response.body
        = [("success", .bool true), ("message", .str "Login successful"),
           ("user", .user 2 ⟨"Sam Lee", "sam@example.com", "10$dnoces"⟩)] := by
  have h200 : (postLogin sampleHasher ⟨some "sam@example.com", some "second"⟩
      sampleUsers).response.status = 200 := by decide
  obtain ⟨email, u, _, _, _, hbody⟩ :=
    login_returns_row sampleHasher ⟨some "sam@example.com", some "second"⟩ sampleUsers h200
  exact ⟨h200, by decide⟩

/-! ## Totality of the filter -/

theorem lowerEquals_none (sel : String) : lowerEquals none sel = false := rfl

theorem matchesSearch_no_description (term : String) (listing : Listing) (a p t : String)
    (ha : listing.address = some a) (hp : listing.postal_code = some p)
    (ht : listing.title = some t) (hd : listing.property_description = none) :
    matchesSearch term listing =
      .ok (term == "" || includes (toLowerCase a) term || includes (toLowerCase p) term ||
        includes (toLowerCase t) term) := by
  unfold matchesSearch
  simp only [ha, hp, ht, hd, lowerOf, bind, Except.bind, pure, Except.pure]
  cases h0 : (term == "") <;> cases h1 : includes (toLowerCase a) term <;>
    cases h2 : includes (toLowerCase p) term <;> cases h3 : includes (toLowerCase t) term <;>
    simp

theorem filterCallback_unset_search (ctl : Controls) (listing : Listing)
    (hs : valueOf ctl.searchBar = "") :
    filterCallback ctl listing =
      .ok (matchesHomeType (valueOf ctl.homeType) listing &&
        matchesHousingType (valueOf ctl.housingType) listing &&
        matchesCampus (valueOf ctl.campus) listing &&
        matchesBeds (valueOf ctl.beds) listing &&
        matchesBaths (valueOf ctl.baths) listing) := by
  unfold filterCallback
  rw [searchTermOf_eq, hs, show toLowerCase "" = "" from rfl, matchesSearch_unset]
  simp [bind, Except.bind, pure, Except.pure]

/-- C25. On a collection whose listings all have a string address, postal
code and title, `filterListings` returns for every setting of the controls,
and so does its callback on each listing.  A null housing type or campus
fails its predicate when that filter is set, and with a null description the
text predicate is decided by the address, the postal code and the title
alone.  With an empty search text the filter returns on every collection,
and its verdict on a listing does not change with the listing's address,
postal code, title or description: none of the columns the text predicate
searches is read.  The listing type, housing type and campus are read by
their own predicates only: with these three filters unset as well, the
verdict depends on bedrooms and bathrooms alone. -/
theorem filter_total (ctl : Controls) (coll : List Listing)
    (h : ∀ l ∈ coll, l.TextPresent) :
    (∃ shown, filterListings ctl coll = .ok shown) ∧
    (∀ l ∈ coll, ∃ b, filterCallback ctl l = .ok b) ∧
    (∀ (l : Listing) (sel : String), sel ≠ "" →
      (l.housing_type = none → matchesHousingType sel l = false) ∧
      (l.campus = none → matchesCampus sel l = false)) ∧
    (∀ (l : Listing) (term a p t : String), l.address = some a → l.postal_code = some p →
      l.title = some t → l.property_description = none →
      matchesSearch term l =
        .ok (term == "" || includes (toLowerCase a) term || includes (toLowerCase p) term ||
          includes (toLowerCase t) term)) ∧
    (valueOf ctl.searchBar = "" →
      (∀ anyColl : List Listing, ∃ shown, filterListings ctl anyColl = .ok shown) ∧
      (∀ (l : Listing) (a p t d : Option String),
        filterCallback ctl { l with address := a, postal_code := p, title := t,
                                    property_description := d } =
          filterCallback ctl l) ∧
      (valueOf ctl.homeType = "" → valueOf ctl.housingType = "" →
        valueOf ctl.campus = "" →
        ∀ l l2 : Listing, l2.bedrooms = l.bedrooms → l2.bathrooms = l.bathrooms →
          filterCallback ctl l2 = filterCallback ctl l)) := by
  refine ⟨?_, ?_, ?_, ?_, ?_⟩
  · exact ⟨_, filterListings_of_search ctl coll (search_returns ctl coll (Or.inr h))⟩
  · intro l hl
    obtain ⟨b, hb⟩ := search_returns ctl coll (Or.inr h) l hl
    exact ⟨_, filterCallback_of_search ctl l b hb⟩
  · intro l sel hsel
    have hb : (sel == "") = false := by simpa using hsel
    refine ⟨?_, ?_⟩
    · intro hn
      simp [matchesHousingType, hb, hn, lowerEquals_none]
    · intro hn
      simp [matchesCampus, hb, hn, lowerEquals_none]
  · intro l term a p t ha hp ht hd
    exact matchesSearch_no_description term l a p t ha hp ht hd
  · intro hs
    refine ⟨?_, ?_, ?_⟩
    · intro anyColl
      exact ⟨_, filterListings_of_search ctl anyColl
        (search_returns ctl anyColl (Or.inl hs))⟩
    · intro l a p t d
      rw [filterCallback_unset_search ctl _ hs, filterCallback_unset_search ctl l hs]
      rfl
    · intro hh hu hc l l2 hb ha
      rw [filterCallback_unset_search ctl l2 hs, filterCallback_unset_search ctl l hs]
      simp [hh, hu, hc, matchesHomeType, matchesHousingType, matchesCampus, matchesBeds,
        matchesBaths, hb, ha]

/-- C25 at the five sample listings, whose descriptions are null, with the
campus filter set and a search text. -/
theorem filter_total_witness :
    (∀ l ∈ fiveListings, l.TextPresent) ∧
      filterListings { noFilter with searchBar := some "m3j", campus := some "keele" }
        fiveListings = .ok fiveListings ∧
      filterListings { noFilter with searchBar := some "m3j", campus := some "keele" }
        [{ sampleListing 9 2 5 with campus := none }] = .ok [] := by
  have hp : ∀ l ∈ fiveListings, l.TextPresent := by
    intro l hl
    simp only [fiveListings, List.mem_cons, List.mem_singleton, List.not_mem_nil,
      or_false] at hl
    rcases hl with rfl | rfl | rfl | rfl | rfl <;> exact ⟨rfl, rfl, rfl⟩
  obtain ⟨⟨shown, hs⟩, _⟩ := filter_total
    { noFilter with searchBar := some "m3j", campus := some "keele" } fiveListings hp
  exact ⟨hp, by decide, by decide⟩

end YorkRealty
